import Mathlib

/-!
Verification of the PackOut.xml patching scripts (`sql2packout.py` and
`update_packout.py`).  The scripts manipulate XML documents through Python's
`xml.etree.ElementTree` API; we embed the element-tree data model, the
update/apply logic of both scripts, the SQL UPDATE extraction of
`sql2packout.py`, and the serializer used by `tree.write`.  Strings are
modelled as `List Char`; machine strings in the Python source are ASCII.
-/

/-- Shorthand for the string model used throughout: a list of characters. -/
abbrev S := List Char

/-- Convert a Lean string literal to the `List Char` model. -/
def str (s : String) : S := s.data

/-- The single-quote (apostrophe) character, code point 39. -/
def sqc : Char := Char.ofNat 39

/-- The newline character, code point 10. -/
def nlc : Char := Char.ofNat 10

/-- Python regex `\w`: letters, digits and underscore (ASCII inputs). -/
def isWordChar (c : Char) : Bool := c.isAlphanum || c = '_'

/-- Python regex `\s` restricted to the whitespace in the inputs. -/
def isWs (c : Char) : Bool := c.isWhitespace

/-- Python `str.upper()` on ASCII strings. -/
def pyUpper (s : S) : S := s.map Char.toUpper

/-- Python `str.lower()` on ASCII strings. -/
def pyLower (s : S) : S := s.map Char.toLower

/-- Python `str.capitalize()` on ASCII strings: first character upper-cased,
every following character lower-cased. -/
def pyCapitalize (s : S) : S :=
  match s with
  | [] => []
  | c :: cs => c.toUpper :: cs.map Char.toLower

/-- Case-insensitive character comparison (Python `re.IGNORECASE`, ASCII). -/
def ciEq (a b : Char) : Bool := a.toLower = b.toLower

/-- Python `str.strip()`: remove whitespace from both ends. -/
def stripWs (s : S) : S :=
  ((s.dropWhile isWs).reverse.dropWhile isWs).reverse

/-- Python `"s".replace("''", "'")`: un-escape doubled single quotes. -/
def unescapeQ (s : S) : S :=
  match s with
  | [] => []
  | a :: b :: rest => if a = sqc && b = sqc then sqc :: unescapeQ rest else a :: unescapeQ (b :: rest)
  | [a] => [a]

/-- Python truthiness of an optional string (`None` and `''` are falsy). -/
def truthyOpt (v : Option S) : Bool :=
  match v with
  | none => false
  | some [] => false
  | some (_ :: _) => true

/-- Lookup in a Python dict modelled as an association list. -/
def findA {α β : Type} [DecidableEq α] (m : List (α × β)) (k : α) : Option β :=
  (m.find? (fun p => p.1 = k)).map Prod.snd

/-- Python dict assignment `m[k] = v`: replace in place if the key exists,
otherwise append (insertion order is preserved, as for Python dicts). -/
def insertA {α β : Type} [DecidableEq α] (m : List (α × β)) (k : α) (v : β) : List (α × β) :=
  match m with
  | [] => [(k, v)]
  | (k0, v0) :: rest => if k0 = k then (k, v) :: rest else (k0, v0) :: insertA rest k v

/-- Python `k in m` for a dict modelled as an association list. -/
def memA {α β : Type} [DecidableEq α] (m : List (α × β)) (k : α) : Bool :=
  (findA m k).isSome

mutual
/-- An `xml.etree.ElementTree` element: tag, attributes, text (the character
data before the first child), children, and tail (the character data that
follows the element's closing tag inside its parent). -/
inductive Elem where
  | mk (tag : S) (attrs : List (S × S)) (text : Option S) (children : ElemList)
       (tail : Option S)
/-- The list of children of an element (a specialised list so that the pair
of types forms a mutual inductive that supports structural recursion). -/
inductive ElemList where
  | nil
  | cons (e : Elem) (es : ElemList)
end

/-- Tag of an element. -/
def Elem.tag : Elem → S
  | .mk t _ _ _ _ => t

/-- Attributes of an element. -/
def Elem.attrs : Elem → List (S × S)
  | .mk _ a _ _ _ => a

/-- Text of an element. -/
def Elem.text : Elem → Option S
  | .mk _ _ x _ _ => x

/-- Children of an element. -/
def Elem.children : Elem → ElemList
  | .mk _ _ _ cs _ => cs

/-- Tail of an element. -/
def Elem.tail : Elem → Option S
  | .mk _ _ _ _ l => l

/-- Replace the text of an element, keeping everything else. -/
def Elem.withText : Elem → Option S → Elem
  | .mk t a _ cs l, x => .mk t a x cs l

/-- First child with the given tag (`elem.find(tag)` searches direct
children only); returns the child. -/
def findChild : ElemList → S → Option Elem
  | .nil, _ => none
  | .cons e es, tg => if e.tag = tg then some e else findChild es tg

/-- Whether a direct child with the given tag exists. -/
def hasChild (e : Elem) (tg : S) : Bool := (findChild e.children tg).isSome

/-- Text of the first direct child with the given tag, when that child
exists (`elem.find(tag)` followed by `.text`). -/
def getChildText (e : Elem) (tg : S) : Option (Option S) :=
  (findChild e.children tg).map Elem.text

/-- Assign `child.text = v` on the first direct child carrying the given
tag; the element is unchanged when no such child exists. -/
def setChildTextL : ElemList → S → Option S → ElemList
  | .nil, _, _ => .nil
  | .cons e es, tg, v =>
      if e.tag = tg then .cons (e.withText v) es else .cons e (setChildTextL es tg v)

/-- `setChildTextL` lifted to the element whose children are rewritten. -/
def setChildText (e : Elem) (tg : S) (v : Option S) : Elem :=
  match e with
  | .mk t a x cs l => .mk t a x (setChildTextL cs tg v) l

/-! ### `sql2packout.py`: applying extracted rules to the element tree -/

/-- The field-to-value map of one update rule (`values` in
`parse_sql_file`): field names as stored (upper-cased) mapped to the
replacement text.  Both components are plain strings in the source. -/
abbrev Values := List (S × S)

/-- The child-tag resolution of `update_element` (lines 171-179 of
`sql2packout.py`): try `field.capitalize()`, then `field`, then the
variant list `[field, field.capitalize(), field.lower()]`. -/
def findVariant (e : Elem) (f : S) : Option S :=
  if hasChild e (pyCapitalize f) then some (pyCapitalize f)
  else if hasChild e f then some f
  else [f, pyCapitalize f, pyLower f].find? (fun v => hasChild e v)

/-- One step of the fold `update_element` performs: resolve one field's
child tag and overwrite its text, recording whether a write happened. -/
def ueStep (acc : Elem × Bool) (fv : S × S) : Elem × Bool :=
  match findVariant acc.1 fv.1 with
  | some tg => (setChildText acc.1 tg (some fv.2), true)
  | none => (acc.1, acc.2)

/-- `update_element(elem, values)` of `sql2packout.py`: for each field of
the rule, resolve the child tag and overwrite its text; returns the
updated element and whether any field was written.  (The guard
`value is not None` of the source is always true here: `parse_sql_file`
only stores plain strings in `values`.) -/
def update_element (e : Elem) (values : Values) : Elem × Bool :=
  values.foldl ueStep (e, false)

/-- Keys of the `updates['AD_Window']` dict: the tuples `('ID', v)` and
`('Name', v)` of the source. -/
inductive WKey where
  | id (v : S)
  | name (v : S)
deriving DecidableEq

/-- Keys of the `updates['AD_Tab']` dict: a plain string key for ID-based
rules and the tuple `('Name', v)` for name-based rules. -/
inductive TKey where
  | id (v : S)
  | name (v : S)
deriving DecidableEq

/-- The `updates` mapping built by `parse_sql_file`: one dict per
recognised table. -/
structure Updates where
  adElement : List (S × Values)
  adWindow : List (WKey × Values)
  adTab : List (TKey × Values)
  adField : List (S × Values)
  adProcess : List (S × Values)
  adForm : List (S × Values)
  adMenu : List (S × Values)

/-- The empty `updates` mapping (all seven dicts empty). -/
def emptyUpdates : Updates := ⟨[], [], [], [], [], [], []⟩

/-- Body of the `AD_Element` apply loop (lines 189-193): match by the text
of the `ColumnName` child and update. -/
def processE (rules : List (S × Values)) (e : Elem) : Elem × Bool :=
  match findChild e.children (str "ColumnName") with
  | some col =>
      match col.text with
      | some t =>
          match findA rules t with
          | some vals => update_element e vals
          | none => (e, false)
      | none => (e, false)
  | none => (e, false)

/-- The Name-rule lookup of the `AD_Window` apply loop (lines 204-208):
match by the text of the `Name` child and update. -/
def processWName (rules : List (WKey × Values)) (e : Elem) : Elem × Bool :=
  match findChild e.children (str "Name") with
  | some nc =>
      match nc.text with
      | some t =>
          match findA rules (WKey.name t) with
          | some vals => update_element e vals
          | none => (e, false)
      | none => (e, false)
  | none => (e, false)

/-- Body of the `AD_Window` apply loop (lines 197-208): try the ID rule
first; when it updates the element the loop `continue`s, otherwise the
Name rule is tried on the (unchanged) element. -/
def processW (rules : List (WKey × Values)) (e : Elem) : Elem × Bool :=
  let afterId : Option (Elem × Bool) :=
    match findChild e.children (str "AD_Window_ID") with
    | some idc =>
        match idc.text with
        | some t =>
            match findA rules (WKey.id t) with
            | some vals =>
                let r := update_element e vals
                if r.2 then some r else none
            | none => none
        | none => none
    | none => none
  match afterId with
  | some r => r
  | none => processWName rules e

/-- The Name-rule lookup of the `AD_Tab` apply loop (lines 219-223). -/
def processTName (rules : List (TKey × Values)) (e : Elem) : Elem × Bool :=
  match findChild e.children (str "Name") with
  | some nc =>
      match nc.text with
      | some t =>
          match findA rules (TKey.name t) with
          | some vals => update_element e vals
          | none => (e, false)
      | none => (e, false)
  | none => (e, false)

/-- Body of the `AD_Tab` apply loop (lines 212-223), with the same
ID-then-Name structure as the window loop. -/
def processT (rules : List (TKey × Values)) (e : Elem) : Elem × Bool :=
  let afterId : Option (Elem × Bool) :=
    match findChild e.children (str "AD_Tab_ID") with
    | some idc =>
        match idc.text with
        | some t =>
            match findA rules (TKey.id t) with
            | some vals =>
                let r := update_element e vals
                if r.2 then some r else none
            | none => none
        | none => none
    | none => none
  match afterId with
  | some r => r
  | none => processTName rules e

/-- Body of the four ID-only apply loops (`AD_Field`, `AD_Process`,
`AD_Form`, `AD_Menu`, lines 227-255): match by the text of the table's
identifier child. -/
def processById (idTag : S) (rules : List (S × Values)) (e : Elem) : Elem × Bool :=
  match findChild e.children idTag with
  | some idc =>
      match idc.text with
      | some t =>
          match findA rules t with
          | some vals => update_element e vals
          | none => (e, false)
      | none => (e, false)
  | none => (e, false)

mutual
/-- `root.iter(tag)` combined with the per-element loop body: process every
element carrying the tag, in document order, descending into the (already
processed) element's children as the ElementTree iterator does.  The first
element argument is a structurally decreasing twin of the second: every
loop body only rewrites texts of direct children, so the processed element
always has the same skeleton as the original and the twin stays in step
(`iterApply` below starts them equal). -/
def iterApplyF (tg : S) (h : Elem → Elem × Bool) : Elem → Elem → Elem
  | .mk _ _ _ fcs _, e =>
      let e1 := if e.tag = tg then (h e).1 else e
      match e1 with
      | .mk t a x cs l => .mk t a x (iterApplyFL tg h fcs cs) l
/-- `iterApplyF` over a list of siblings, fuel twin first. -/
def iterApplyFL (tg : S) (h : Elem → Elem × Bool) : ElemList → ElemList → ElemList
  | .nil, ds => ds
  | .cons _ _, .nil => .nil
  | .cons f fs, .cons d ds => .cons (iterApplyF tg h f d) (iterApplyFL tg h fs ds)
end

/-- One `root.iter(tag)` pass of the apply loops. -/
def iterApply (tg : S) (h : Elem → Elem × Bool) (e : Elem) : Elem :=
  iterApplyF tg h e e

/-- The seven apply loops of `sql2packout.py` (lines 187-255) run in source
order on the parsed tree. -/
def applyAll (u : Updates) (root : Elem) : Elem :=
  let r1 := iterApply (str "AD_Element") (processE u.adElement) root
  let r2 := iterApply (str "AD_Window") (processW u.adWindow) r1
  let r3 := iterApply (str "AD_Tab") (processT u.adTab) r2
  let r4 := iterApply (str "AD_Field") (processById (str "AD_Field_ID") u.adField) r3
  let r5 := iterApply (str "AD_Process") (processById (str "AD_Process_ID") u.adProcess) r4
  let r6 := iterApply (str "AD_Form") (processById (str "AD_Form_ID") u.adForm) r5
  let r7 := iterApply (str "AD_Menu") (processById (str "AD_Menu_ID") u.adMenu) r6
  r7

/-! ### The ElementTree serializer used by `tree.write(...)` -/

/-- ElementTree's `_escape_cdata`: escape `&`, `<`, `>` in character data. -/
def escapeCdata (s : S) : S :=
  s.flatMap (fun c =>
    if c = '&' then str "&amp;"
    else if c = '<' then str "&lt;"
    else if c = '>' then str "&gt;"
    else [c])

/-- ElementTree's `_escape_attrib`: escape `&`, `<`, `>`, double quote and
newline in attribute values. -/
def escapeAttrib (s : S) : S :=
  s.flatMap (fun c =>
    if c = '&' then str "&amp;"
    else if c = '<' then str "&lt;"
    else if c = '>' then str "&gt;"
    else if c = Char.ofNat 34 then str "&quot;"
    else if c = nlc then str "&#10;"
    else [c])

/-- Render an attribute list as ElementTree does: ` key="value"` each. -/
def serAttrs (attrs : List (S × S)) : S :=
  attrs.flatMap (fun kv => ' ' :: kv.1 ++ '=' :: Char.ofNat 34 :: escapeAttrib kv.2 ++ [Char.ofNat 34])

mutual
/-- ElementTree's `_serialize_xml` with the default
`short_empty_elements=True`: an element with no text and no children is
written `<tag />`; otherwise `<tag>text...children...</tag>`.  The
element's tail is written after its closing tag. -/
def serE : Elem → S
  | .mk t a x cs l =>
      '<' :: t ++ serAttrs a ++
      (if truthyOpt x || !(isNilL cs) then
        '>' :: (match x with | some xx => escapeCdata xx | none => []) ++
        serL cs ++ '<' :: '/' :: t ++ ['>']
      else str " />") ++
      (match l with | some ll => escapeCdata ll | none => [])
/-- Serialize a list of sibling elements in order. -/
def serL : ElemList → S
  | .nil => []
  | .cons e es => serE e ++ serL es
/-- Whether a child list is empty (`len(elem)` falsy). -/
def isNilL : ElemList → Bool
  | .nil => true
  | .cons _ _ => false
end

/-- `tree.write(out, encoding='UTF-8', xml_declaration=True)`: the XML
declaration ElementTree emits (single-quoted, with a trailing newline)
followed by the serialized root element. -/
def writeDoc (root : Elem) : S :=
  str "<?xml version=" ++ [sqc] ++ str "1.0" ++ [sqc] ++ str " encoding=" ++ [sqc] ++
  str "UTF-8" ++ [sqc] ++ str "?>" ++ [nlc] ++ serE root

/-! ### `ET.parse` on the attribute-free subset

The concrete documents examined by the claims contain plain elements with
no attributes, comments or declaration; `parseXml` models `ET.parse` on
exactly that subset and rejects (returns `none` for) anything else, which
in the Python process surfaces as an uncaught `ParseError`. -/

/-- Replace the tail of an element, keeping everything else. -/
def Elem.withTail : Elem → Option S → Elem
  | .mk t a x cs _, l => .mk t a x cs l

/-- Read a maximal run of tag-name characters. -/
def nameRun (s : S) : S × S :=
  match s with
  | [] => ([], [])
  | c :: rest =>
      if isWordChar c then
        let r := nameRun rest
        (c :: r.1, r.2)
      else ([], s)

/-- Read character data up to the next `<` (returned as `none` when empty,
matching ElementTree's `text`/`tail` conventions). -/
def textRun (s : S) : Option S × S :=
  let t := s.takeWhile (fun c => c ≠ '<' && c ≠ '&')
  let rest := s.drop t.length
  match rest with
  | '&' :: _ => (none, [])
  | _ => (if t.isEmpty then none else some t, rest)

mutual
/-- Parse one element at the head of the input: `<name/>`, `<name />` or
`<name>text children</name>`; attributes are outside the subset.  Returns
the element (tail not yet attached) and the remaining input. -/
def parseNode : Nat → S → Option (Elem × S)
  | 0, _ => none
  | _ + 1, [] => none
  | fuel + 1, c :: rest =>
      if c ≠ '<' then none
      else
        match nameRun rest with
        | ([], _) => none
        | (nm@(_ :: _), after) =>
            let after1 := after.dropWhile (fun c => c = ' ')
            match after1 with
            | '/' :: '>' :: rest2 => some (.mk nm [] none .nil none, rest2)
            | '>' :: rest2 =>
                match textRun rest2 with
                | (txt, rest3) =>
                    match parseKids fuel nm rest3 with
                    | some (kids, rest4) => some (.mk nm [] txt kids none, rest4)
                    | none => none
            | _ => none
/-- Parse the children of an open element until its matching close tag. -/
def parseKids : Nat → S → S → Option (ElemList × S)
  | 0, _, _ => none
  | fuel + 1, nm, s =>
      match s with
      | '<' :: '/' :: rest =>
          match nameRun rest with
          | (nm2, '>' :: rest2) => if nm2 = nm then some (.nil, rest2) else none
          | _ => none
      | '<' :: _ =>
          match parseNode fuel s with
          | some (kid, rest2) =>
              match textRun rest2 with
              | (tl, rest3) =>
                  match parseKids fuel nm rest3 with
                  | some (kids, rest4) => some (.cons (kid.withTail tl) kids, rest4)
                  | none => none
          | none => none
      | _ => none
end

/-- `ET.parse` on the subset: a single root element spanning the whole
input. -/
def parseXml (s : S) : Option Elem :=
  match parseNode (s.length + 1) s with
  | some (root, []) => some root
  | _ => none

/-! ### `update_packout.py`: the database-backed updater -/

/-- A four-column query result (values may be SQL NULL). -/
abbrev Row4 := Option S × Option S × Option S × Option S

/-- A three-column query result. -/
abbrev Row3 := Option S × Option S × Option S

/-- A two-column query result. -/
abbrev Row2 := Option S × Option S

/-- `update_text(elem, tag, value)` of `update_packout.py`: set the child's
text to the value when the value is truthy and to `None` otherwise; do
nothing when the child does not exist. -/
def update_text (e : Elem) (tg : S) (v : Option S) : Elem :=
  match findChild e.children tg with
  | some _ => setChildText e tg (if truthyOpt v then v else none)
  | none => e

/-- `get_entity_type(elem)`: the text of the `EntityType` child, `None`
when the child is missing. -/
def get_entity_type (e : Elem) : Option S :=
  match findChild e.children (str "EntityType") with
  | some et => et.text
  | none => none

/-- Python `int(s)` on a string: optional surrounding whitespace, optional
sign, a non-empty digit run; anything else raises `ValueError`. -/
def parseIntPy (s : S) : Option Int :=
  let t := stripWs s
  let core : Option (Bool × S) :=
    match t with
    | '-' :: ds => some (true, ds)
    | '+' :: ds => some (false, ds)
    | ds => some (false, ds)
  match core with
  | some (neg, ds) =>
      if ds ≠ [] && ds.all Char.isDigit then
        let n : Nat := ds.foldl (fun a c => a * 10 + (c.toNat - 48)) 0
        some (if neg then -(n : Int) else (n : Int))
      else none
  | none => none

/-- Body of the `AD_Element` loop of `update_packout.py` (lines 60-80):
skip elements whose `EntityType` is not `'U'`; otherwise query by the
text of `ColumnName` and overwrite the four text fields.  The loop body
has no `try`/`except`, so a raised database error (modelled as
`Except.error`) propagates. -/
def processElemUP (db : S → Except Unit (Option Row4)) (e : Elem) : Except Unit Elem :=
  if get_entity_type e ≠ some (str "U") then .ok e
  else
    match findChild e.children (str "ColumnName") with
    | some col =>
        match col.text with
        | some t =>
            if t ≠ [] then
              match db t with
              | .error u => .error u
              | .ok none => .ok e
              | .ok (some (nm, pn, hp, ds)) =>
                  .ok (update_text (update_text (update_text (update_text e
                        (str "Name") nm) (str "PrintName") pn) (str "Help") hp)
                        (str "Description") ds)
            else .ok e
        | none => .ok e
    | none => .ok e

/-- The whole `AD_Element` loop: a raised error aborts the remaining
elements (no per-element handler exists in the source). -/
def runElemLoopUP (db : S → Except Unit (Option Row4)) : List Elem → Except Unit (List Elem)
  | [] => .ok []
  | e :: es =>
      match processElemUP db e with
      | .error u => .error u
      | .ok e2 =>
          match runElemLoopUP db es with
          | .error u => .error u
          | .ok es2 => .ok (e2 :: es2)

/-- Body of the Name/Help/Description loops of `update_packout.py`
(`AD_Window`, `AD_Tab`, `AD_Process`, `AD_Form`): skip non-`'U'` elements,
then inside `try`/`except` convert the identifier text to `int`, query,
and overwrite; every failure (non-numeric text or database error) is
swallowed and leaves the element unchanged. -/
def processIdUP3 (idTag : S) (db : Int → Except Unit (Option Row3)) (e : Elem) : Elem :=
  if get_entity_type e ≠ some (str "U") then e
  else
    match findChild e.children idTag with
    | some idc =>
        match idc.text with
        | some t =>
            if t ≠ [] then
              match parseIntPy t with
              | none => e
              | some n =>
                  match db n with
                  | .error _ => e
                  | .ok none => e
                  | .ok (some (nm, hp, ds)) =>
                      update_text (update_text (update_text e (str "Name") nm)
                        (str "Help") hp) (str "Description") ds
            else e
        | none => e
    | none => e

/-- Body of the `AD_Menu` loop (Name/Description columns), same guarded
`try`/`except` shape. -/
def processMenuUP (db : Int → Except Unit (Option Row2)) (e : Elem) : Elem :=
  if get_entity_type e ≠ some (str "U") then e
  else
    match findChild e.children (str "AD_Menu_ID") with
    | some idc =>
        match idc.text with
        | some t =>
            if t ≠ [] then
              match parseIntPy t with
              | none => e
              | some n =>
                  match db n with
                  | .error _ => e
                  | .ok none => e
                  | .ok (some (nm, ds)) =>
                      update_text (update_text e (str "Name") nm) (str "Description") ds
            else e
        | none => e
    | none => e

/-- Body of the `AD_Field` loop (Name/Help/Description/
IsCentrallyMaintained columns), same guarded `try`/`except` shape. -/
def processFieldUP (db : Int → Except Unit (Option Row4)) (e : Elem) : Elem :=
  if get_entity_type e ≠ some (str "U") then e
  else
    match findChild e.children (str "AD_Field_ID") with
    | some idc =>
        match idc.text with
        | some t =>
            if t ≠ [] then
              match parseIntPy t with
              | none => e
              | some n =>
                  match db n with
                  | .error _ => e
                  | .ok none => e
                  | .ok (some (nm, hp, ds, ic)) =>
                      update_text (update_text (update_text (update_text e
                        (str "Name") nm) (str "Help") hp) (str "Description") ds)
                        (str "IsCentrallyMaintained") ic
            else e
        | none => e
    | none => e

/-! ### `parse_sql_file`: extracting update rules from SQL text -/

/-- Consume a case-insensitive literal from the head of the input,
returning the remainder on success. -/
def ciLit : S → S → Option S
  | [], s => some s
  | _ :: _, [] => none
  | c :: cs, d :: ds => if ciEq c d then ciLit cs ds else none

/-- Python `s.startswith(p)` on the model. -/
def startsWith (p s : S) : Bool := s.take p.length = p

/-- One backtracking attempt of the `(\w+_ID)` group of the ID pattern at
the current position, with `j` the length tried for the leading `\w+`
(the regex engine tries the longest first); on success returns the digit
group of `(\w+_ID)\s*=\s*(\d+)`. -/
def matchIdTry (s : S) : Nat → Option S
  | 0 => none
  | j + 1 =>
      let attempt : Option S :=
        match ciLit (str "_ID") (s.drop (j + 1)) with
        | none => none
        | some r1 =>
            match r1.dropWhile isWs with
            | c :: r3 =>
                if c = '=' then
                  let r4 := r3.dropWhile isWs
                  let ds := r4.takeWhile Char.isDigit
                  if ds ≠ [] then some ds else none
                else none
            | [] => none
      match attempt with
      | some ds => some ds
      | none => matchIdTry s j

/-- Match the pattern `(\w+_ID)\s*=\s*(\d+)` (IGNORECASE) anchored at the
head of the input, returning the digit group. -/
def matchIdAt (s : S) : Option S :=
  matchIdTry s (s.takeWhile isWordChar).length

/-- `re.search` of the ID pattern: leftmost match wins. -/
def searchId : S → Option S
  | [] => none
  | c :: rest =>
      match matchIdAt (c :: rest) with
      | some ds => some ds
      | none => searchId rest

/-- Match `NAME\s*=\s*'([^']+)'` anchored at the head, for a given literal
`NAME` (used with `ColumnName` and `Name`), returning the quoted group. -/
def matchKeyLitAt (lit : S) (s : S) : Option S :=
  match ciLit lit s with
  | none => none
  | some r1 =>
      match r1.dropWhile isWs with
      | c :: r3 =>
          if c = '=' then
            match r3.dropWhile isWs with
            | q :: r5 =>
                if q = sqc then
                  let content := r5.takeWhile (fun c => c ≠ sqc)
                  if content ≠ [] && (r5.drop content.length) ≠ [] then some content
                  else none
                else none
            | [] => none
          else none
      | [] => none

/-- `re.search` of `ColumnName\s*=\s*'([^']+)'` (IGNORECASE). -/
def searchCol : S → Option S
  | [] => none
  | c :: rest =>
      match matchKeyLitAt (str "ColumnName") (c :: rest) with
      | some v => some v
      | none => searchCol rest

/-- `re.search` of `(?<!\w)Name\s*=\s*'([^']+)'` (IGNORECASE): the `Name`
literal must not be preceded by a word character, so the scan carries the
previous character. -/
def searchNameFrom (prev : Option Char) : S → Option S
  | [] => none
  | c :: rest =>
      let allowed := match prev with
        | some p => !(isWordChar p)
        | none => true
      match (if allowed then matchKeyLitAt (str "Name") (c :: rest) else none) with
      | some v => some v
      | none => searchNameFrom (some c) rest

/-- `re.search` of the bare-`Name` pattern from the start of the clause. -/
def searchName (s : S) : Option S := searchNameFrom none s

/-- A WHERE-clause key as the source stores it: `('ID', v)`,
`('ColumnName', v)` or `('Name', v)`. -/
inductive RuleKey where
  | id (v : S)
  | colName (v : S)
  | name (v : S)
deriving DecidableEq

/-- Lines 106-122 of `parse_sql_file`: compute the ID match, overwrite the
key with the ColumnName match when it exists, and fall back to the bare
Name match only when no key was set. -/
def extractKey (w : S) : Option RuleKey :=
  let k0 : Option RuleKey := none
  let k1 : Option RuleKey :=
    match searchId w with
    | some ds => some (.id ds)
    | none => k0
  let k2 : Option RuleKey :=
    match searchCol w with
    | some v => some (.colName v)
    | none => k1
  match searchName w, k2 with
  | some v, none => some (.name v)
  | _, k => k

/-- What the deliberate priority ordering described by the spec computes:
ColumnName first, then the `<Table>_ID = digits` pattern, then the bare
Name pattern; the first pattern that matches wins. -/
def extractKeyPriority (w : S) : Option RuleKey :=
  match searchCol w with
  | some v => some (.colName v)
  | none =>
      match searchId w with
      | some ds => some (.id ds)
      | none =>
          match searchName w with
          | some v => some (.name v)
          | none => none

/-- The content group `((?:[^']|'')*)` of the quoted SET value followed by
its closing quote: consume characters and doubled quotes greedily, with
the regex backtracking that lets a doubled quote serve as content plus
closing quote when nothing else closes the string.  Returns the content
group and the input after the closing quote. -/
def quotedContent : S → Option (S × S)
  | [] => none
  | c :: rest =>
      if c = sqc then
        match rest with
        | c2 :: rest2 =>
            if c2 = sqc then
              match quotedContent rest2 with
              | some (ct, r) => some (sqc :: sqc :: ct, r)
              | none => some ([], rest)
            else some ([], rest)
        | [] => some ([], [])
      else
        match quotedContent rest with
        | some (ct, r) => some (c :: ct, r)
        | none => none

/-- Match one SET pair `(\w+)\s*=\s*(?:'((?:[^']|'')*)'|(\w+))` anchored at
the head; returns the triple of groups (with `[]` for a group that did not
participate, as `re.findall` does) and the rest of the input. -/
def matchSetAt (s : S) : Option ((S × S × S) × S) :=
  let f := s.takeWhile isWordChar
  if f = [] then none
  else
    match (s.drop f.length).dropWhile isWs with
    | c :: r2 =>
        if c = '=' then
          let r3 := r2.dropWhile isWs
          let wordFallback : Option ((S × S × S) × S) :=
            let w := r3.takeWhile isWordChar
            if w = [] then none else some ((f, [], w), r3.drop w.length)
          match r3 with
          | q :: r4 =>
              if q = sqc then
                match quotedContent r4 with
                | some (content, rest) => some ((f, content, []), rest)
                | none => wordFallback
              else wordFallback
          | [] => none
        else none
    | [] => none

/-- `re.findall` of the SET-pair pattern: scan left to right, emitting each
non-overlapping match and resuming after it (fuel bounds the scan by the
input length). -/
def findSetPairsF : Nat → S → List (S × S × S)
  | 0, _ => []
  | _ + 1, [] => []
  | fuel + 1, c :: rest =>
      match matchSetAt (c :: rest) with
      | some (tri, after) => tri :: findSetPairsF fuel after
      | none => findSetPairsF fuel rest

/-- `re.findall(set_pattern, set_clause)`. -/
def findSetPairs (s : S) : List (S × S × S) := findSetPairsF s.length s

/-- One iteration of the `for field, str_val, other_val in set_patterns`
loop (lines 99-104 of `parse_sql_file`): upper-case the field, prefer the
quoted group, un-escape doubled quotes on truthy values, store. -/
def bvStep (vals : Values) (tri : S × S × S) : Values :=
  let fU := pyUpper tri.1
  let val := if tri.2.1 ≠ [] then tri.2.1 else tri.2.2
  let val := if val ≠ [] then unescapeQ val else val
  insertA vals fU val

/-- Build the `values` dict from the matched SET pairs. -/
def buildValues (pairs : List (S × S × S)) : Values :=
  pairs.foldl bvStep []

/-- The separator `\s+WHERE\s+` followed by the non-empty `(.+)` group,
anchored at the head: at least one whitespace character, the `WHERE`
literal (IGNORECASE), at least one whitespace character, then a non-empty
remainder which becomes the WHERE clause. -/
def whereSep (s : S) : Option S :=
  match s with
  | c :: _ =>
      if isWs c then
        match ciLit (str "WHERE") (s.dropWhile isWs) with
        | some (c2 :: r2) =>
            if isWs c2 then
              match (c2 :: r2).dropWhile isWs with
              | [] =>
                  match ((c2 :: r2).takeWhile isWs).reverse with
                  | last :: _ :: _ => some [last]
                  | _ => none
              | r3 => some r3
            else none
        | some [] => none
        | none => none
      else none
  | [] => none

/-- The lazy `(.+?)` group of the statement pattern: scan left to right for
the first position (after at least one character) where `\s+WHERE\s+(.+)`
matches; returns the SET clause and the WHERE clause. -/
def findWhereSplit (acc : S) : S → Option (S × S)
  | [] => none
  | c :: rest =>
      match (if acc ≠ [] then whereSep (c :: rest) else none) with
      | some g3 => some (acc, g3)
      | none => findWhereSplit (acc ++ [c]) rest

/-- The statement pattern
`UPDATE\s+(\w+)\s+SET\s+(.+?)\s+WHERE\s+(.+)` of line 87
(IGNORECASE, DOTALL), anchored at the start as `re.match` is: returns
(table, SET clause, WHERE clause). -/
def matchUpdateStmt (stmt : S) : Option (S × S × S) :=
  match ciLit (str "UPDATE") stmt with
  | none => none
  | some (c1 :: r1) =>
      if isWs c1 then
        let r2 := (c1 :: r1).dropWhile isWs
        let tbl := r2.takeWhile isWordChar
        if tbl = [] then none
        else
          match r2.drop tbl.length with
          | c3 :: r3 =>
              if isWs c3 then
                match ciLit (str "SET") ((c3 :: r3).dropWhile isWs) with
                | some (c4 :: r4) =>
                    if isWs c4 then
                      match findWhereSplit [] ((c4 :: r4).dropWhile isWs) with
                      | some (setc, wherec) => some (tbl, setc, wherec)
                      | none => none
                    else none
                | some [] => none
                | none => none
              else none
          | [] => none
      else none
  | some [] => none

/-- Lines 124-150 of `parse_sql_file`: store the rule under the table's
dict using the key kinds that table accepts. -/
def dispatchUpdate (u : Updates) (table : S) (k : RuleKey) (values : Values) : Updates :=
  if table = str "AD_ELEMENT" then
    match k with
    | .colName v => { u with adElement := insertA u.adElement v values }
    | _ => u
  else if table = str "AD_WINDOW" then
    match k with
    | .name v => { u with adWindow := insertA u.adWindow (WKey.name v) values }
    | .id v => { u with adWindow := insertA u.adWindow (WKey.id v) values }
    | _ => u
  else if table = str "AD_TAB" then
    match k with
    | .id v => { u with adTab := insertA u.adTab (TKey.id v) values }
    | .name v => { u with adTab := insertA u.adTab (TKey.name v) values }
    | _ => u
  else if table = str "AD_FIELD" then
    match k with
    | .id v => { u with adField := insertA u.adField v values }
    | _ => u
  else if table = str "AD_PROCESS" then
    match k with
    | .id v => { u with adProcess := insertA u.adProcess v values }
    | _ => u
  else if table = str "AD_FORM" then
    match k with
    | .id v => { u with adForm := insertA u.adForm v values }
    | _ => u
  else if table = str "AD_MENU" then
    match k with
    | .id v => { u with adMenu := insertA u.adMenu v values }
    | _ => u
  else u

/-- The per-statement body of `parse_sql_file` (lines 81-150): strip the
statement, skip it unless it starts with `UPDATE`, split it with the
statement pattern, build the SET values, extract the WHERE key, and store
the rule when both a key and values exist. -/
def processOneStmt (u : Updates) (stmtRaw : S) : Updates :=
  let stmt := stripWs stmtRaw
  if !(startsWith (str "UPDATE") (pyUpper stmt)) then u
  else
    match matchUpdateStmt stmt with
    | none => u
    | some (tbl, setc, wherec) =>
        let table := pyUpper tbl
        let values := buildValues (findSetPairs setc)
        match extractKey wherec with
        | some k => if values ≠ [] then dispatchUpdate u table k values else u
        | none => u

/-- Truncate a line at its first `--` comment marker (`re.sub` of `--.*$`
with MULTILINE). -/
def cutComment : S → S
  | [] => []
  | c :: rest =>
      if c = '-' then
        match rest with
        | c2 :: _ => if c2 = '-' then [] else c :: cutComment rest
        | [] => [c]
      else c :: cutComment rest

/-- Split the content into lines at newline characters. -/
def splitLines (s : S) : List S := s.splitOn nlc

/-- Rejoin lines with newline characters. -/
def joinLines (ls : List S) : S := (ls.intersperse [nlc]).flatten

/-- Comment removal over the whole file content. -/
def removeComments (s : S) : S := joinLines ((splitLines s).map cutComment)

/-- The statement separator `;\s*\n` after a semicolon: the greedy `\s*`
followed by a newline consumes the whitespace run up to and including its
last newline; without a newline in the run there is no separator. -/
def sepAfterSemi (s : S) : Option S :=
  let w := s.takeWhile isWs
  if w.contains nlc then
    some ((w.reverse.takeWhile (fun c => c ≠ nlc)).reverse ++ s.drop w.length)
  else none

/-- `re.split(r';\s*\n', content)`: cut the content at every separator
(fuel bounds the scan by the input length). -/
def splitStmtsF : Nat → S → S → List S
  | 0, acc, s => [acc.reverse ++ s]
  | _ + 1, acc, [] => [acc.reverse]
  | fuel + 1, acc, c :: rest =>
      if c = ';' then
        match sepAfterSemi rest with
        | some rest2 => acc.reverse :: splitStmtsF fuel [] rest2
        | none => splitStmtsF fuel (c :: acc) rest
      else splitStmtsF fuel (c :: acc) rest

/-- Split file content into candidate statements. -/
def splitStmts (s : S) : List S := splitStmtsF s.length [] s

/-- `parse_sql_file` on one file's content: strip comments, split into
statements, and process each statement against the accumulated mapping. -/
def parse_sql_file (u : Updates) (content : S) : Updates :=
  (splitStmts (removeComments content)).foldl processOneStmt u

/-- The whole `sql2packout.py` process: exit code and the bytes written.
`argc` is `len(sys.argv)`; a missing XML file or missing SQL input is the
`sys.exit(1)` path; XML content the parser rejects raises an uncaught
`ParseError`, which terminates the interpreter with a non-zero status. -/
def runSql (argc : Nat) (xmlContent : Option S) (sqlContents : Option (List S)) :
    Nat × Option S :=
  if argc < 3 then (1, none)
  else
    match xmlContent with
    | none => (1, none)
    | some xc =>
        match sqlContents with
        | none => (1, none)
        | some scs =>
            let u := scs.foldl parse_sql_file emptyUpdates
            match parseXml xc with
            | none => (1, none)
            | some root => (0, some (writeDoc (applyAll u root)))

/-! ### Character-level facts used by the proofs -/

theorem char_toNat_ofNat (n : Nat) (h : n < 55296) : (Char.ofNat n).toNat = n := by
  rw [Char.ofNat, dif_pos (Or.inl h)]
  simp [Char.ofNatAux, Char.toNat, UInt32.ofNat', UInt32.toNat]

theorem char_toNat_inj {a b : Char} (h : a.toNat = b.toNat) : a = b := by
  apply Char.ext
  exact UInt32.toNat.inj h

theorem char_isUpper_iff (d : Char) : d.isUpper = (decide (65 ≤ d.toNat) && decide (d.toNat ≤ 90)) := by
  simp only [Char.isUpper, Char.toNat]
  congr 1

theorem char_isLower_iff (d : Char) : d.isLower = (decide (97 ≤ d.toNat) && decide (d.toNat ≤ 122)) := by
  simp only [Char.isLower, Char.toNat]
  congr 1

theorem char_isDigit_iff (d : Char) : d.isDigit = (decide (48 ≤ d.toNat) && decide (d.toNat ≤ 57)) := by
  simp only [Char.isDigit, Char.toNat]
  congr 1

theorem toLower_toNat (c : Char) :
    (Char.toLower c).toNat = if 65 ≤ c.toNat ∧ c.toNat ≤ 90 then c.toNat + 32 else c.toNat := by
  have hdef : Char.toLower c =
      if c.toNat ≥ 65 ∧ c.toNat ≤ 90 then Char.ofNat (c.toNat + 32) else c := rfl
  rw [hdef]
  by_cases h : c.toNat ≥ 65 ∧ c.toNat ≤ 90
  · have hlt : c.toNat + 32 < 55296 := by omega
    rw [if_pos h, if_pos h, char_toNat_ofNat _ hlt]
  · rw [if_neg h, if_neg h]

theorem toUpper_toNat (c : Char) :
    (Char.toUpper c).toNat = if 97 ≤ c.toNat ∧ c.toNat ≤ 122 then c.toNat - 32 else c.toNat := by
  have hdef : Char.toUpper c =
      if c.toNat ≥ 97 ∧ c.toNat ≤ 122 then Char.ofNat (c.toNat - 32) else c := rfl
  rw [hdef]
  by_cases h : c.toNat ≥ 97 ∧ c.toNat ≤ 122
  · have hlt : c.toNat - 32 < 55296 := by omega
    rw [if_pos h, if_pos h, char_toNat_ofNat _ hlt]
  · rw [if_neg h, if_neg h]

theorem toLower_isUpper (c : Char) : (Char.toLower c).isUpper = false := by
  rw [char_isUpper_iff, toLower_toNat]
  by_cases h : 65 ≤ c.toNat ∧ c.toNat ≤ 90
  · rw [if_pos h]; simp; omega
  · rw [if_neg h]; simp; omega

theorem toUpper_isLower (c : Char) : (Char.toUpper c).isLower = false := by
  rw [char_isLower_iff, toUpper_toNat]
  by_cases h : 97 ≤ c.toNat ∧ c.toNat ≤ 122
  · rw [if_pos h]; simp; omega
  · rw [if_neg h]; simp; omega

theorem ws_not_word {c : Char} (h : isWs c = true) : isWordChar c = false := by
  simp only [isWs, Char.isWhitespace] at h
  rcases Bool.or_eq_true_iff.mp h with h1 | h1
  · rcases Bool.or_eq_true_iff.mp h1 with h2 | h2
    · rcases Bool.or_eq_true_iff.mp h2 with h3 | h3 <;>
        · rw [show c = _ from of_decide_eq_true h3]; decide
    · rw [show c = _ from of_decide_eq_true h2]; decide
  · rw [show c = _ from of_decide_eq_true h1]; decide

theorem word_not_ws {c : Char} (h : isWordChar c = true) : isWs c = false := by
  cases hw : isWs c with
  | false => rfl
  | true => rw [ws_not_word hw] at h; exact absurd h (by simp)

theorem digit_word {c : Char} (h : c.isDigit = true) : isWordChar c = true := by
  simp [isWordChar, Char.isAlphanum, h]

theorem digit_not_ws {c : Char} (h : c.isDigit = true) : isWs c = false :=
  word_not_ws (digit_word h)

theorem digit_ne_sqc {c : Char} (h : c.isDigit = true) : c ≠ sqc := by
  intro he
  subst he
  exact absurd h (by decide)

theorem ciEq_eq_char {a c : Char} (h : ciEq a c = true) : c.toLower = a.toLower := by
  simp only [ciEq, decide_eq_true_eq] at h
  exact h.symm

theorem ciEq_underscore {c : Char} (h : ciEq '_' c = true) : c = '_' := by
  have h1 : c.toLower = '_' := by
    rw [ciEq_eq_char h]; decide
  have h2 : (Char.toLower c).toNat = 95 := by rw [h1]; decide
  rw [toLower_toNat] at h2
  apply char_toNat_inj
  show c.toNat = 95
  by_cases hc : 65 ≤ c.toNat ∧ c.toNat ≤ 90
  · rw [if_pos hc] at h2; omega
  · rwa [if_neg hc] at h2

theorem takeWhile_append_stop {p : Char → Bool} (xs : S) {y : Char} (ys : S)
    (hall : ∀ c ∈ xs, p c = true) (hy : p y = false) :
    (xs ++ y :: ys).takeWhile p = xs := by
  induction xs with
  | nil => simp [List.takeWhile_cons, hy]
  | cons a l ih =>
      have ha : p a = true := hall a (by simp)
      simp only [List.cons_append, List.takeWhile_cons, ha, if_true]
      rw [ih (fun c hc => hall c (by simp [hc]))]

theorem dropWhile_append_stop {p : Char → Bool} (xs : S) {y : Char} (ys : S)
    (hall : ∀ c ∈ xs, p c = true) (hy : p y = false) :
    (xs ++ y :: ys).dropWhile p = y :: ys := by
  induction xs with
  | nil => simp [List.dropWhile_cons, hy]
  | cons a l ih =>
      have ha : p a = true := hall a (by simp)
      simp only [List.cons_append, List.dropWhile_cons, ha, if_true]
      exact ih (fun c hc => hall c (by simp [hc]))

theorem takeWhile_all {p : Char → Bool} (xs : S) (hall : ∀ c ∈ xs, p c = true) :
    xs.takeWhile p = xs := by
  induction xs with
  | nil => rfl
  | cons a l ih =>
      have ha : p a = true := hall a (by simp)
      simp only [List.takeWhile_cons, ha, if_true]
      rw [ih (fun c hc => hall c (by simp [hc]))]

/-- Build the children list of an element from an ordinary list. -/
def listToEL : List Elem → ElemList
  | [] => .nil
  | e :: es => .cons e (listToEL es)

/-- A leaf element: a tag with optional text, no attributes or children. -/
def leaf (tg : S) (tx : Option S) : Elem := .mk tg [] tx .nil none

/-- A tag with at least two camel humps: some upper-case letter after the
first position and some lower-case letter (`PrintName`,
`IsCentrallyMaintained`, `ColumnName`, `AD_Window_ID`, ...). -/
def camelMulti (t : S) : Bool :=
  (t.drop 1).any Char.isUpper && t.any Char.isLower

/-- Whether every tag in a children list is multi-hump camel case. -/
def childTagsCamel : ElemList → Bool
  | .nil => true
  | .cons e es => camelMulti e.tag && childTagsCamel es

/-! ### Concrete documents and rule sets used by the claims -/

/-- The XML declaration `tree.write` emits. -/
def xmlDecl : S :=
  str "<?xml version=" ++ [sqc] ++ str "1.0" ++ [sqc] ++ str " encoding=" ++ [sqc] ++
  str "UTF-8" ++ [sqc] ++ str "?>" ++ [nlc]

/-- The input fragment of the C1 example. -/
def c1input : S := str "<AD_Element><ColumnName>Foo</ColumnName><Help/></AD_Element>"

/-- The rule of the C1 example: `ColumnName='Foo'` sets `Help='Bar text'`. -/
def c1rules : Updates :=
  { emptyUpdates with adElement := [(str "Foo", [(str "HELP", str "Bar text")])] }

/-- The whole pipeline on the C1 example: parse, apply, serialize. -/
def c1output : Option S := (parseXml c1input).map (fun r => writeDoc (applyAll c1rules r))

/-- What the claim says the output file is: the input with only the `Help`
tag's value changed. -/
def c1claimed : S := str "<AD_Element><ColumnName>Foo</ColumnName><Help>Bar text</Help></AD_Element>"

set_option maxRecDepth 4096 in
/-- Claim C1 counterexample: on the claim's own example fragment the
patched output is not the input with only the `Help` value changed — the
ElementTree round trip rewrites bytes outside the modified tag (here the
XML declaration is added/normalized), so the claim as stated is false. -/
theorem C1_cex_t : c1output ≠ some c1claimed := by decide

set_option maxRecDepth 4096 in
/-- Claim C1 (amended): the patched output contains
`<Help>Bar text</Help>`, but the file is re-serialized by ElementTree:
the output is the ElementTree XML declaration followed by the re-serialized
element, not a byte-for-byte copy of the input outside the modified tag. -/
theorem C1_amended_t :
    c1output = some (xmlDecl ++ c1claimed) ∧
    (str "<Help>Bar text</Help>") <:+: (xmlDecl ++ c1claimed) := ⟨rfl, by decide⟩

/-- The window element of the C2 example: matched by an ID rule and by a
Name rule at the same time. -/
def c2win : Elem :=
  .mk (str "AD_Window") [] none (listToEL
    [leaf (str "AD_Window_ID") (some (str "100")),
     leaf (str "Name") (some (str "Win")),
     leaf (str "Help") (some (str "h0")),
     leaf (str "Description") (some (str "d0"))]) none

/-- Rules of the C2 example: the ID rule sets `Help`, the Name rule sets
`Description`. -/
def c2rules : List (WKey × Values) :=
  [(WKey.id (str "100"), [(str "HELP", str "h1")]),
   (WKey.name (str "Win"), [(str "DESCRIPTION", str "d1")])]

/-- The ID rule of the C2 example alone. -/
def c2idOnly : List (WKey × Values) :=
  [(WKey.id (str "100"), [(str "HELP", str "h1")])]

/-- The tab element of the C2 example: matched by an ID rule and by a
Name rule at the same time. -/
def c2tab : Elem :=
  .mk (str "AD_Tab") [] none (listToEL
    [leaf (str "AD_Tab_ID") (some (str "200")),
     leaf (str "Name") (some (str "Tab")),
     leaf (str "Help") (some (str "t0")),
     leaf (str "Description") (some (str "td0"))]) none

/-- Tab rules of the C2 example: the ID rule sets `Help`, the Name rule
sets `Description`. -/
def c2rulesT : List (TKey × Values) :=
  [(TKey.id (str "200"), [(str "HELP", str "h2")]),
   (TKey.name (str "Tab"), [(str "DESCRIPTION", str "d2")])]

/-- The tab ID rule of the C2 example alone. -/
def c2idOnlyT : List (TKey × Values) :=
  [(TKey.id (str "200"), [(str "HELP", str "h2")])]

/-- Claim C2 counterexample: an `AD_Window` element and an `AD_Tab`
element, each matched by an ID rule and a Name rule at once, receive only
the ID rule's fields (`Help` is written, the Name rule's `Description`
update is skipped by the `continue`), so the union of both rules is not
applied in either loop. -/
theorem C2_cex_t :
    getChildText (processW c2rules c2win).1 (str "Help") = some (some (str "h1")) ∧
    getChildText (processW c2rules c2win).1 (str "Description") = some (some (str "d0")) ∧
    getChildText (processT c2rulesT c2tab).1 (str "Help") = some (some (str "h2")) ∧
    getChildText (processT c2rulesT c2tab).1 (str "Description") = some (some (str "td0")) :=
  ⟨rfl, rfl, rfl, rfl⟩

/-- Claim C2 (amended): in both the `AD_Window` and the `AD_Tab` loop,
when the ID rule matches and updates the element, the result is
independent of the Name-keyed rules: only the first successful key type
contributes its fields. -/
theorem C2_amended_t (rules rules2 : List (WKey × Values)) (e idc : Elem) (t : S) (vals : Values)
    (rulesT rulesT2 : List (TKey × Values)) (eT idcT : Elem) (tT : S) (valsT : Values)
    (hsame : ∀ v, findA rules (WKey.id v) = findA rules2 (WKey.id v))
    (hfind : findChild e.children (str "AD_Window_ID") = some idc)
    (htext : idc.text = some t)
    (hvals : findA rules (WKey.id t) = some vals)
    (hupd : (update_element e vals).2 = true)
    (hsameT : ∀ v, findA rulesT (TKey.id v) = findA rulesT2 (TKey.id v))
    (hfindT : findChild eT.children (str "AD_Tab_ID") = some idcT)
    (htextT : idcT.text = some tT)
    (hvalsT : findA rulesT (TKey.id tT) = some valsT)
    (hupdT : (update_element eT valsT).2 = true) :
    processW rules e = processW rules2 e ∧ processT rulesT eT = processT rulesT2 eT := by
  constructor
  · have hvals2 : findA rules2 (WKey.id t) = some vals := by rw [← hsame t]; exact hvals
    unfold processW
    simp only [hfind, htext, hvals, hvals2, hupd, if_true]
  · have hvalsT2 : findA rulesT2 (TKey.id tT) = some valsT := by
      rw [← hsameT tT]; exact hvalsT
    unfold processT
    simp only [hfindT, htextT, hvalsT, hvalsT2, hupdT, if_true]

/-- Witness for the amended C2 theorem at the concrete window and tab
examples. -/
theorem C2_amended_w :
    processW c2rules c2win = processW c2idOnly c2win ∧
    processT c2rulesT c2tab = processT c2idOnlyT c2tab := by
  apply C2_amended_t c2rules c2idOnly c2win _ (str "100") [(str "HELP", str "h1")]
    c2rulesT c2idOnlyT c2tab _ (str "200") [(str "HELP", str "h2")]
  · intro v
    by_cases hv : str "100" = v
    · subst hv; rfl
    · simp [c2rules, c2idOnly, findA, List.find?, hv]
  · rfl
  · rfl
  · rfl
  · rfl
  · intro v
    by_cases hv : str "200" = v
    · subst hv; rfl
    · simp [c2rulesT, c2idOnlyT, findA, List.find?, hv]
  · rfl
  · rfl
  · rfl
  · rfl

/-- The C3 example: an `AD_Element` marked with the core ownership value
`EntityType='D'` that a ColumnName rule matches. -/
def c3elem : Elem :=
  .mk (str "AD_Element") [] none (listToEL
    [leaf (str "EntityType") (some (str "D")),
     leaf (str "ColumnName") (some (str "Foo")),
     leaf (str "Help") (some (str "old"))]) none

/-- The C3 rule keyed on the element's ColumnName. -/
def c3rules : List (S × Values) := [(str "Foo", [(str "HELP", str "newhelp")])]

/-- Claim C3 counterexample: the SQL-driven patcher has no ownership
check — an `AD_Element` with the core marker `EntityType='D'` is modified
when a ColumnName rule matches, so the claim is false for
`sql2packout.py`. -/
theorem C3_cex_t :
    get_entity_type c3elem = some (str "D") ∧
    getChildText (processE c3rules c3elem).1 (str "Help") = some (some (str "newhelp")) :=
  ⟨rfl, rfl⟩

/-- Claim C3 (amended): in the database-backed updater
(`update_packout.py`) every entity-type loop skips an element whose
`EntityType` is not `'U'` without modification, whatever the database
returns; the SQL-driven patcher applies rules regardless of the marker. -/
theorem C3_amended_t (dbE : S → Except Unit (Option Row4))
    (db3 : Int → Except Unit (Option Row3)) (db2 : Int → Except Unit (Option Row2))
    (db4 : Int → Except Unit (Option Row4)) (idTag : S) (e : Elem)
    (h : get_entity_type e ≠ some (str "U")) :
    processElemUP dbE e = .ok e ∧ processIdUP3 idTag db3 e = e ∧
    processMenuUP db2 e = e ∧ processFieldUP db4 e = e := by
  refine ⟨?_, ?_, ?_, ?_⟩
  · unfold processElemUP; rw [if_pos h]
  · unfold processIdUP3; rw [if_pos h]
  · unfold processMenuUP; rw [if_pos h]
  · unfold processFieldUP; rw [if_pos h]

/-- Witness for the amended C3 theorem at the concrete core-marked
element. -/
theorem C3_amended_w :
    processElemUP (fun _ => .error ()) c3elem = .ok c3elem ∧
    processIdUP3 (str "AD_Window_ID") (fun _ => .error ()) c3elem = c3elem ∧
    processMenuUP (fun _ => .error ()) c3elem = c3elem ∧
    processFieldUP (fun _ => .error ()) c3elem = c3elem :=
  C3_amended_t _ _ _ _ _ c3elem (by decide)

/-- The C7 example: an `AD_Element` eligible for a database lookup. -/
def c7elem : Elem :=
  .mk (str "AD_Element") [] none (listToEL
    [leaf (str "EntityType") (some (str "U")),
     leaf (str "ColumnName") (some (str "Foo"))]) none

/-- The C7 window: an `AD_Window` eligible for a database lookup. -/
def c7win : Elem :=
  .mk (str "AD_Window") [] none (listToEL
    [leaf (str "EntityType") (some (str "U")),
     leaf (str "AD_Window_ID") (some (str "5")),
     leaf (str "Name") (some (str "W"))]) none

/-- Claim C7 counterexample: the `AD_Element` loop of
`update_packout.py` has no `try`/`except`, so one failing lookup aborts
the whole pass, while the `AD_Window` loop swallows the same failure. -/
theorem C7_cex_t :
    runElemLoopUP (fun _ => .error ()) [c7elem] = .error () ∧
    processIdUP3 (str "AD_Window_ID") (fun _ => .error ()) c7win = c7win :=
  ⟨rfl, rfl⟩

/-- Claim C7 (amended): per-element lookup failures are caught and
suppressed for the six `try`/`except`-wrapped entity types (`AD_Window`,
`AD_Tab`, `AD_Process`, `AD_Form` via `processIdUP3`, plus `AD_Menu` and
`AD_Field`): with a database that always raises, every element passes
through unchanged and the loops never abort.  The `AD_Element` loop has no
handler. -/
theorem C7_amended_t (db3 : Int → Except Unit (Option Row3))
    (db2 : Int → Except Unit (Option Row2)) (db4 : Int → Except Unit (Option Row4))
    (idTag : S)
    (h3 : ∀ n, db3 n = .error ()) (h2 : ∀ n, db2 n = .error ())
    (h4 : ∀ n, db4 n = .error ()) :
    (∀ e, processIdUP3 idTag db3 e = e) ∧ (∀ e, processMenuUP db2 e = e) ∧
    (∀ e, processFieldUP db4 e = e) := by
  refine ⟨fun e => ?_, fun e => ?_, fun e => ?_⟩
  · unfold processIdUP3
    by_cases hg : get_entity_type e ≠ some (str "U")
    · rw [if_pos hg]
    · rw [if_neg hg]
      cases hf : findChild e.children idTag with
      | none => simp only [hf]
      | some idc =>
          cases ht : idc.text with
          | none => simp only [hf, ht]
          | some t =>
              simp only [hf, ht]
              by_cases hne : t ≠ []
              · rw [if_pos hne]
                cases hp : parseIntPy t with
                | none => rfl
                | some n => simp only [h3 n]
              · rw [if_neg hne]
  · unfold processMenuUP
    by_cases hg : get_entity_type e ≠ some (str "U")
    · rw [if_pos hg]
    · rw [if_neg hg]
      cases hf : findChild e.children (str "AD_Menu_ID") with
      | none => simp only [hf]
      | some idc =>
          cases ht : idc.text with
          | none => simp only [hf, ht]
          | some t =>
              simp only [hf, ht]
              by_cases hne : t ≠ []
              · rw [if_pos hne]
                cases hp : parseIntPy t with
                | none => rfl
                | some n => simp only [h2 n]
              · rw [if_neg hne]
  · unfold processFieldUP
    by_cases hg : get_entity_type e ≠ some (str "U")
    · rw [if_pos hg]
    · rw [if_neg hg]
      cases hf : findChild e.children (str "AD_Field_ID") with
      | none => simp only [hf]
      | some idc =>
          cases ht : idc.text with
          | none => simp only [hf, ht]
          | some t =>
              simp only [hf, ht]
              by_cases hne : t ≠ []
              · rw [if_pos hne]
                cases hp : parseIntPy t with
                | none => rfl
                | some n => simp only [h4 n]
              · rw [if_neg hne]

/-- Witness for the amended C7 theorem at a concrete window element. -/
theorem C7_amended_w :
    processIdUP3 (str "AD_Window_ID") (fun _ => .error ()) c7win = c7win :=
  (C7_amended_t _ _ _ (str "AD_Window_ID") (fun _ => rfl) (fun _ => rfl) (fun _ => rfl)).1 c7win

/-- A document that round-trips exactly through the parser and serializer. -/
def c10xml : S := str "<AD_Element><Name>n</Name></AD_Element>"

/-- Claim C10 counterexample: with both inputs present but the XML
malformed, the process terminates with a non-zero status (uncaught
`ParseError`), so non-zero exits are not limited to missing-input-file
conditions. -/
theorem C10_cex_t : runSql 3 (some (str "this is not xml")) (some []) = (1, none) := rfl

/-- Claim C10 (amended): the exit status is zero exactly when enough
arguments are given, both inputs exist and the XML parses — regardless of
how many rules are extracted or applied; a run with zero extracted rules
completes, writes the file and exits zero. -/
theorem C10_amended_t :
    (∀ (argc : Nat) (xc : Option S) (scs : Option (List S)),
      (runSql argc xc scs).1 = 0 ↔
        3 ≤ argc ∧ ∃ x, xc = some x ∧ (parseXml x).isSome = true ∧ scs.isSome = true) ∧
    runSql 3 (some c10xml) (some [str "no update statements here"]) =
      (0, some (xmlDecl ++ c10xml)) := by
  constructor
  · intro argc xc scs
    unfold runSql
    by_cases ha : argc < 3
    · rw [if_pos ha]
      simp
      omega
    · rw [if_neg ha]
      cases xc with
      | none => simp
      | some x =>
          cases scs with
          | none => simp
          | some scs0 =>
              cases hp : parseXml x with
              | none => simp [hp]
              | some root =>
                  simp [hp]
                  omega
  · rfl

/-! ### Variant resolution facts (claim C6) -/

theorem camel_not_variant {t F : S} (hc : camelMulti t = true)
    (hF : ∀ c ∈ F, c.isLower = false) :
    t ≠ pyCapitalize F ∧ t ≠ F ∧ t ≠ pyLower F := by
  simp only [camelMulti, Bool.and_eq_true, List.any_eq_true] at hc
  obtain ⟨⟨u, hu, hup⟩, ⟨lo, hlo, hlow⟩⟩ := hc
  refine ⟨?_, ?_, ?_⟩
  · intro he
    cases F with
    | nil => rw [he] at hu; exact absurd hu (by simp [pyCapitalize])
    | cons c cs =>
        rw [he] at hu
        simp only [pyCapitalize, List.drop_succ_cons, List.drop_zero] at hu
        obtain ⟨d, _, hd⟩ := List.mem_map.mp hu
        rw [← hd] at hup
        rw [toLower_isUpper d] at hup
        exact absurd hup (by simp)
  · intro he
    rw [he] at hlo
    rw [hF lo hlo] at hlow
    exact absurd hlow (by simp)
  · intro he
    have hu2 : u ∈ t := List.mem_of_mem_drop hu
    rw [he] at hu2
    obtain ⟨d, _, hd⟩ := List.mem_map.mp hu2
    rw [← hd, toLower_isUpper d] at hup
    exact absurd hup (by simp)

theorem findChild_camel : ∀ (cs : ElemList), childTagsCamel cs = true → ∀ (tg : S),
    (∀ u : S, camelMulti u = true → u ≠ tg) → findChild cs tg = none
  | .nil, _, _, _ => rfl
  | .cons e es, hcs, tg, htg => by
      simp only [childTagsCamel, Bool.and_eq_true] at hcs
      unfold findChild
      rw [if_neg (htg e.tag hcs.1)]
      exact findChild_camel es hcs.2 tg htg

theorem findVariant_camel {e : Elem} (hcs : childTagsCamel e.children = true)
    {F : S} (hF : ∀ c ∈ F, c.isLower = false) : findVariant e F = none := by
  have h1 : findChild e.children (pyCapitalize F) = none :=
    findChild_camel _ hcs _ (fun u hu => (camel_not_variant hu hF).1)
  have h2 : findChild e.children F = none :=
    findChild_camel _ hcs _ (fun u hu => (camel_not_variant hu hF).2.1)
  have h3 : findChild e.children (pyLower F) = none :=
    findChild_camel _ hcs _ (fun u hu => (camel_not_variant hu hF).2.2)
  unfold findVariant hasChild
  simp [List.find?, h1, h2, h3]

theorem update_element_camel {e : Elem} (hcs : childTagsCamel e.children = true)
    (values : Values) (hv : ∀ fv ∈ values, ∀ c ∈ fv.1, c.isLower = false) :
    update_element e values = (e, false) := by
  unfold update_element
  suffices hgen : ∀ (vs : Values), (∀ fv ∈ vs, ∀ c ∈ fv.1, c.isLower = false) →
      ∀ b : Bool, vs.foldl ueStep (e, b) = (e, b) by
    exact hgen values hv false
  intro vs
  induction vs with
  | nil => intro _ b; rfl
  | cons fv rest ih =>
      intro hall b
      have hfv : findVariant e fv.1 = none :=
        findVariant_camel hcs (hall fv (by simp))
      simp only [List.foldl_cons, ueStep, hfv]
      exact ih (fun x hx => hall x (by simp [hx])) b

theorem mem_insertA {α β : Type} [DecidableEq α] {m : List (α × β)} {k : α} {v : β}
    {fv : α × β} (h : fv ∈ insertA m k v) : fv ∈ m ∨ fv = (k, v) := by
  induction m with
  | nil => simp [insertA] at h; right; exact h
  | cons kv rest ih =>
      unfold insertA at h
      by_cases hk : kv.1 = k
      · rw [if_pos hk] at h
        rcases List.mem_cons.mp h with h1 | h1
        · right; exact h1
        · left; simp [h1]
      · rw [if_neg hk] at h
        rcases List.mem_cons.mp h with h1 | h1
        · left; simp [h1]
        · rcases ih h1 with h2 | h2
          · left; simp [h2]
          · right; exact h2

theorem mem_bvStep {acc : Values} {tri : S × S × S} {fv : S × S}
    (h : fv ∈ bvStep acc tri) : fv ∈ acc ∨ fv.1 = pyUpper tri.1 := by
  rcases mem_insertA h with h1 | h1
  · left; exact h1
  · right; rw [h1]

theorem buildValues_upper (pairs : List (S × S × S)) :
    ∀ fv ∈ buildValues pairs, ∀ c ∈ fv.1, c.isLower = false := by
  unfold buildValues
  suffices hgen : ∀ (ps : List (S × S × S)) (acc : Values),
      (∀ fv ∈ acc, ∀ c ∈ fv.1, c.isLower = false) →
      ∀ fv ∈ ps.foldl bvStep acc, ∀ c ∈ fv.1, c.isLower = false by
    intro fv hfv
    exact hgen pairs [] (by simp) fv hfv
  intro ps
  induction ps with
  | nil => intro acc hacc fv hfv; exact hacc fv hfv
  | cons tri rest ih =>
      intro acc hacc fv hfv
      simp only [List.foldl_cons] at hfv
      refine ih _ ?_ fv hfv
      intro fv2 hfv2
      rcases mem_bvStep hfv2 with h1 | h1
      · exact hacc fv2 h1
      · intro c hc
        rw [h1] at hc
        simp only [pyUpper] at hc
        obtain ⟨d, _, hd⟩ := List.mem_map.mp hc
        rw [← hd]
        exact toUpper_isLower d

/-- The C6 example: an element with the single-word children `Name`,
`Help`, `Description`. -/
def c6elem : Elem :=
  .mk (str "AD_Window") [] none (listToEL
    [leaf (str "Name") (some (str "n0")),
     leaf (str "Help") none,
     leaf (str "Description") none]) none

/-- Stored (upper-cased) fields for the C6 example. -/
def c6vals : Values :=
  [(str "NAME", str "n1"), (str "HELP", str "h1"), (str "DESCRIPTION", str "d1")]

/-- The C6 example after the update: all three texts written. -/
def c6done : Elem :=
  .mk (str "AD_Window") [] none (listToEL
    [leaf (str "Name") (some (str "n1")),
     leaf (str "Help") (some (str "h1")),
     leaf (str "Description") (some (str "d1"))]) none

/-- An element whose only children carry multi-hump camel-case tags. -/
def c6print : Elem :=
  .mk (str "AD_Element") [] none (listToEL
    [leaf (str "PrintName") (some (str "p0")),
     leaf (str "IsCentrallyMaintained") (some (str "Y"))]) none

/-- Claim C6: SET fields are stored upper-cased; resolution tries only
the stored name, its `capitalize()` and its lower-case forms, so a
multi-hump camel-case child tag (`PrintName`, `IsCentrallyMaintained`) is
never found and never written, while single-word tags (`Name`, `Help`,
`Description`) resolve via `capitalize()`. -/
theorem C6_t :
    (∀ pairs, ∀ fv ∈ buildValues pairs, ∀ c ∈ fv.1, c.isLower = false) ∧
    (∀ (e : Elem) (values : Values), childTagsCamel e.children = true →
      (∀ fv ∈ values, ∀ c ∈ fv.1, c.isLower = false) →
      update_element e values = (e, false)) ∧
    update_element c6elem c6vals = (c6done, true) :=
  ⟨buildValues_upper,
   fun _ values hcs hv => update_element_camel hcs values hv,
   rfl⟩

/-- Witness for C6 at a concrete `PrintName`/`IsCentrallyMaintained`
element. -/
theorem C6_w : update_element c6print [(str "PRINTNAME", str "x")] = (c6print, false) :=
  C6_t.2.1 c6print [(str "PRINTNAME", str "x")] (by decide) (by decide)

/-- Claim C5: WHERE-clause key extraction behaves as the priority order
ColumnName first, then the table-specific `_ID = digits` pattern, then the
bare Name pattern, the first matching pattern determining the rule key; in
particular a clause with an unrelated numeric `_ID` filter and a
ColumnName condition is keyed by ColumnName. -/
theorem C5_where_key_priority :
    (∀ w : S, extractKey w = extractKeyPriority w) ∧
    extractKey (str "AD_Client_ID=11 AND ColumnName=" ++ [sqc] ++ str "Foo" ++ [sqc]) =
      some (RuleKey.colName (str "Foo")) := by
  constructor
  · intro w
    unfold extractKey extractKeyPriority
    cases searchCol w <;> cases searchId w <;> cases searchName w <;> rfl
  · decide

/-! ### Facts about the SQL scanners on well-formed statements (C4, C8) -/

theorem unescapeQ_noquote : ∀ (s : S), (∀ c ∈ s, c ≠ sqc) → unescapeQ s = s
  | [], _ => rfl
  | [a], _ => rfl
  | a :: b :: rest, h => by
      have ha : a ≠ sqc := h a (by simp)
      unfold unescapeQ
      rw [if_neg (by simp [ha]), unescapeQ_noquote (b :: rest) (fun c hc => h c (List.mem_cons_of_mem a hc))]

theorem quotedContent_noquote : ∀ (v : S), (∀ c ∈ v, c ≠ sqc) →
    quotedContent (v ++ [sqc]) = some (v, [])
  | [], _ => rfl
  | c :: v', h => by
      have hc : c ≠ sqc := h c (by simp)
      unfold quotedContent
      simp only [List.cons_append]
      rw [if_neg (by simp [hc]), quotedContent_noquote v' (fun x hx => h x (List.mem_cons_of_mem c hx))]

theorem takeWhile_nq {k : S} (hq : ∀ c ∈ k, c ≠ sqc) :
    (k ++ [sqc]).takeWhile (fun c => decide (c ≠ sqc)) = k := by
  apply takeWhile_append_stop
  · intro c hc
    simp [hq c hc]
  · simp

theorem matchKeyCol_pos (k : S) (hk : k ≠ []) (hq : ∀ c ∈ k, c ≠ sqc) :
    matchKeyLitAt (str "ColumnName") (str "ColumnName=" ++ [sqc] ++ k ++ [sqc]) = some k := by
  have hstep : matchKeyLitAt (str "ColumnName") (str "ColumnName=" ++ [sqc] ++ k ++ [sqc]) =
      (let content := (k ++ [sqc]).takeWhile (fun c => decide (c ≠ sqc))
       if content ≠ [] && ((k ++ [sqc]).drop content.length) ≠ [] then some content
       else none) := rfl
  rw [hstep]
  simp only [takeWhile_nq hq, List.drop_left]
  simp [hk]

theorem matchKeyName_pos (k : S) (hk : k ≠ []) (hq : ∀ c ∈ k, c ≠ sqc) :
    matchKeyLitAt (str "Name") (str "Name=" ++ [sqc] ++ k ++ [sqc]) = some k := by
  have hstep : matchKeyLitAt (str "Name") (str "Name=" ++ [sqc] ++ k ++ [sqc]) =
      (let content := (k ++ [sqc]).takeWhile (fun c => decide (c ≠ sqc))
       if content ≠ [] && ((k ++ [sqc]).drop content.length) ≠ [] then some content
       else none) := rfl
  rw [hstep]
  simp only [takeWhile_nq hq, List.drop_left]
  simp [hk]

theorem searchCol_pos (k : S) (hk : k ≠ []) (hq : ∀ c ∈ k, c ≠ sqc) :
    searchCol (str "ColumnName=" ++ [sqc] ++ k ++ [sqc]) = some k := by
  have hstep : searchCol (str "ColumnName=" ++ [sqc] ++ k ++ [sqc]) =
      (match matchKeyLitAt (str "ColumnName") (str "ColumnName=" ++ [sqc] ++ k ++ [sqc]) with
       | some v => some v
       | none => searchCol (str "olumnName=" ++ [sqc] ++ k ++ [sqc])) := rfl
  rw [hstep, matchKeyCol_pos k hk hq]

theorem searchName_pos (k : S) (hk : k ≠ []) (hq : ∀ c ∈ k, c ≠ sqc) :
    searchName (str "Name=" ++ [sqc] ++ k ++ [sqc]) = some k := by
  have hstep : searchName (str "Name=" ++ [sqc] ++ k ++ [sqc]) =
      (match matchKeyLitAt (str "Name") (str "Name=" ++ [sqc] ++ k ++ [sqc]) with
       | some v => some v
       | none => searchNameFrom (some 'N') (str "ame=" ++ [sqc] ++ k ++ [sqc])) := rfl
  rw [hstep, matchKeyName_pos k hk hq]

theorem ciLit_cons {a : Char} {p s r : S} (h : ciLit (a :: p) s = some r) :
    ∃ c t, s = c :: t ∧ ciEq a c = true ∧ ciLit p t = some r := by
  cases s with
  | nil => exact absurd h (by simp [ciLit])
  | cons c t =>
      unfold ciLit at h
      cases hb : ciEq a c with
      | false => rw [hb] at h; exact absurd h (by simp)
      | true => rw [hb] at h; simp only [if_true] at h; exact ⟨c, t, rfl, hb, h⟩

theorem ciLit_suffix : ∀ (p s r : S), ciLit p s = some r → r <:+ s
  | [], s, r, h => by
      unfold ciLit at h
      cases h
      exact List.suffix_refl s
  | a :: p, s, r, h => by
      obtain ⟨c, t, hs, _, hrec⟩ := ciLit_cons h
      subst hs
      exact (ciLit_suffix p t r hrec).trans (List.suffix_cons c t)

theorem suffix_lastq {w s : S} (hw : ∀ c ∈ w, c ≠ sqc) (hs : s <:+ (w ++ [sqc])) :
    s = [] ∨ ∃ w', s = w' ++ [sqc] ∧ ∀ c ∈ w', c ≠ sqc := by
  obtain ⟨t, ht⟩ := hs
  rcases List.eq_nil_or_concat s with hnil | ⟨s', x, hx⟩
  · left; exact hnil
  · right
    subst hx
    rw [List.concat_eq_append, ← List.append_assoc] at ht
    have hlen : (t ++ s').length = w.length := by
      have := congrArg List.length ht
      simp at this
      simp
      omega
    obtain ⟨hts, hxq⟩ := List.append_inj ht hlen
    have hx : x = sqc := by simpa using hxq
    refine ⟨s', by rw [List.concat_eq_append, hx], fun c hc => hw c ?_⟩
    rw [← hts]
    exact List.mem_append_right t hc

theorem matchKeyLit_lastq (lit : S) {w : S} (hw : ∀ c ∈ w, c ≠ sqc) :
    matchKeyLitAt lit (w ++ [sqc]) = none := by
  unfold matchKeyLitAt
  cases hcl : ciLit lit (w ++ [sqc]) with
  | none => rfl
  | some r1 =>
      have hr1 : r1 <:+ w ++ [sqc] := ciLit_suffix lit _ r1 hcl
      have hr2 : r1.dropWhile isWs <:+ w ++ [sqc] :=
        (List.dropWhile_suffix isWs).trans hr1
      cases hd : r1.dropWhile isWs with
      | nil => simp only [hd]
      | cons c r3 =>
          simp only [hd]
          by_cases hc : c = '='
          · rw [if_pos hc]
            rw [hd] at hr2
            have hr3 : r3 <:+ w ++ [sqc] := (List.suffix_cons c r3).trans hr2
            have hr4 : r3.dropWhile isWs <:+ w ++ [sqc] :=
              (List.dropWhile_suffix isWs).trans hr3
            cases he : r3.dropWhile isWs with
            | nil => simp only [he]
            | cons q r5 =>
                simp only [he]
                by_cases hq2 : q = sqc
                · rw [he] at hr4
                  rcases suffix_lastq hw hr4 with h0 | ⟨w', hw', hnq⟩
                  · exact absurd h0 (by simp)
                  · cases w' with
                    | nil =>
                        have hr5 : r5 = [] := (by simpa using hw' : q = sqc ∧ r5 = []).2
                        rw [if_pos hq2, hr5]
                        simp
                    | cons y w'' =>
                        have hqy : q = y := by simpa using congrArg (List.take 1) hw'
                        have : y ≠ sqc := hnq y (by simp)
                        rw [hqy] at hq2
                        exact absurd hq2 this
                · rw [if_neg hq2]
          · rw [if_neg hc]

theorem searchCol_tailq : ∀ (w : S), (∀ c ∈ w, c ≠ sqc) → searchCol (w ++ [sqc]) = none
  | [], _ => rfl
  | c :: w', h => by
      have hm : matchKeyLitAt (str "ColumnName") ((c :: w') ++ [sqc]) = none :=
        matchKeyLit_lastq (str "ColumnName") h
      have hstep : searchCol ((c :: w') ++ [sqc]) =
          (match matchKeyLitAt (str "ColumnName") ((c :: w') ++ [sqc]) with
           | some v => some v
           | none => searchCol (w' ++ [sqc])) := rfl
      rw [hstep, hm]
      exact searchCol_tailq w' (fun x hx => h x (List.mem_cons_of_mem c hx))

theorem searchCol_nameclause (k : S) (hq : ∀ c ∈ k, c ≠ sqc) :
    searchCol (str "Name=" ++ [sqc] ++ k ++ [sqc]) = none := by
  have hstep : searchCol (str "Name=" ++ [sqc] ++ k ++ [sqc]) = searchCol (k ++ [sqc]) := rfl
  rw [hstep]
  exact searchCol_tailq k hq

theorem matchIdTry_underscore : ∀ (j : Nat) (s : S), (∀ c ∈ s, c ≠ '_') →
    matchIdTry s j = none
  | 0, s, h => rfl
  | j + 1, s, h => by
      unfold matchIdTry
      cases hcl : ciLit (str "_ID") (s.drop (j + 1)) with
      | none =>
          simp only []
          exact matchIdTry_underscore j s h
      | some r1 =>
          exfalso
          obtain ⟨c, t, hct, hci, _⟩ := ciLit_cons hcl
          have hc : c = '_' := ciEq_underscore hci
          have hmem : c ∈ s := List.mem_of_mem_drop (by rw [hct]; simp)
          exact h c hmem hc

theorem searchId_noUnderscore : ∀ (w : S), (∀ c ∈ w, c ≠ '_') → searchId w = none
  | [], _ => rfl
  | c :: rest, h => by
      have hm : matchIdAt (c :: rest) = none := matchIdTry_underscore _ _ h
      have hstep : searchId (c :: rest) =
          (match matchIdAt (c :: rest) with
           | some ds => some ds
           | none => searchId rest) := rfl
      rw [hstep, hm]
      exact searchId_noUnderscore rest (fun x hx => h x (List.mem_cons_of_mem c hx))

theorem searchId_nameclause (k : S) (hu : ∀ c ∈ k, c ≠ '_') :
    searchId (str "Name=" ++ [sqc] ++ k ++ [sqc]) = none := by
  apply searchId_noUnderscore
  intro c hc hceq
  subst hceq
  simp only [List.append_assoc, List.mem_append] at hc
  rcases hc with hc | hc | hc | hc
  · exact absurd hc (by decide)
  · exact absurd hc (by decide)
  · exact hu _ hc rfl
  · exact absurd hc (by decide)

theorem matchKeyLit_noquote (lit : S) {w : S} (hw : ∀ c ∈ w, c ≠ sqc) :
    matchKeyLitAt lit w = none := by
  unfold matchKeyLitAt
  cases hcl : ciLit lit w with
  | none => rfl
  | some r1 =>
      have hr1 : r1 <:+ w := ciLit_suffix lit _ r1 hcl
      have hr2 : r1.dropWhile isWs <:+ w := (List.dropWhile_suffix isWs).trans hr1
      cases hd : r1.dropWhile isWs with
      | nil => simp only [hd]
      | cons c r3 =>
          simp only [hd]
          by_cases hc : c = '='
          · rw [if_pos hc]
            rw [hd] at hr2
            have hr3 : r3 <:+ w := (List.suffix_cons c r3).trans hr2
            have hr4 : r3.dropWhile isWs <:+ w := (List.dropWhile_suffix isWs).trans hr3
            cases he : r3.dropWhile isWs with
            | nil => simp only [he]
            | cons q r5 =>
                simp only [he]
                by_cases hq2 : q = sqc
                · exfalso
                  rw [he] at hr4
                  have hqmem : q ∈ w := hr4.subset (by simp)
                  exact hw q hqmem hq2
                · rw [if_neg hq2]
          · rw [if_neg hc]

theorem searchCol_noquote : ∀ (w : S), (∀ c ∈ w, c ≠ sqc) → searchCol w = none
  | [], _ => rfl
  | c :: w', h => by
      have hm : matchKeyLitAt (str "ColumnName") (c :: w') = none :=
        matchKeyLit_noquote (str "ColumnName") h
      have hstep : searchCol (c :: w') =
          (match matchKeyLitAt (str "ColumnName") (c :: w') with
           | some v => some v
           | none => searchCol w') := rfl
      rw [hstep, hm]
      exact searchCol_noquote w' (fun x hx => h x (List.mem_cons_of_mem c hx))

theorem matchIdTry_hit {s : S} {m : Nat} {ds : S}
    (hcl : ciLit (str "_ID") (s.drop (m + 1)) = some ('=' :: ds))
    (hds : ds ≠ []) (hdig : ∀ c ∈ ds, c.isDigit = true) :
    matchIdTry s (m + 1) = some ds := by
  unfold matchIdTry
  simp only [hcl]
  rw [List.dropWhile_cons_of_neg (by decide)]
  simp only [if_pos rfl]
  cases ds with
  | nil => exact absurd rfl hds
  | cons d ds' =>
      rw [List.dropWhile_cons_of_neg (by
        rw [digit_not_ws (hdig d (by simp))]
        simp)]
      rw [takeWhile_all _ (fun c hc => hdig c hc)]
      simp

theorem isWs_eq_false_iff {c : Char} (h : c.isDigit = true) : (isWs c = true) = False := by
  simp [digit_not_ws h]

theorem searchId_window (ds : S) (hds : ds ≠ []) (hdig : ∀ c ∈ ds, c.isDigit = true) :
    searchId (str "AD_Window_ID=" ++ ds) = some ds := by
  have hhit : matchIdTry (str "AD_Window_ID=" ++ ds) 9 = some ds :=
    matchIdTry_hit (m := 8) rfl hds hdig
  have hdown : matchIdAt (str "AD_Window_ID=" ++ ds) = matchIdTry (str "AD_Window_ID=" ++ ds) 9 := rfl
  have hstep : searchId (str "AD_Window_ID=" ++ ds) =
      (match matchIdAt (str "AD_Window_ID=" ++ ds) with
       | some v => some v
       | none => searchId (str "D_Window_ID=" ++ ds)) := rfl
  rw [hstep, hdown, hhit]

theorem searchId_tab (ds : S) (hds : ds ≠ []) (hdig : ∀ c ∈ ds, c.isDigit = true) :
    searchId (str "AD_Tab_ID=" ++ ds) = some ds := by
  have hhit : matchIdTry (str "AD_Tab_ID=" ++ ds) 6 = some ds :=
    matchIdTry_hit (m := 5) rfl hds hdig
  have hdown : matchIdAt (str "AD_Tab_ID=" ++ ds) = matchIdTry (str "AD_Tab_ID=" ++ ds) 6 := rfl
  have hstep : searchId (str "AD_Tab_ID=" ++ ds) =
      (match matchIdAt (str "AD_Tab_ID=" ++ ds) with
       | some v => some v
       | none => searchId (str "D_Tab_ID=" ++ ds)) := rfl
  rw [hstep, hdown, hhit]

theorem searchId_field (ds : S) (hds : ds ≠ []) (hdig : ∀ c ∈ ds, c.isDigit = true) :
    searchId (str "AD_Field_ID=" ++ ds) = some ds := by
  have hhit : matchIdTry (str "AD_Field_ID=" ++ ds) 8 = some ds :=
    matchIdTry_hit (m := 7) rfl hds hdig
  have hdown : matchIdAt (str "AD_Field_ID=" ++ ds) = matchIdTry (str "AD_Field_ID=" ++ ds) 8 := rfl
  have hstep : searchId (str "AD_Field_ID=" ++ ds) =
      (match matchIdAt (str "AD_Field_ID=" ++ ds) with
       | some v => some v
       | none => searchId (str "D_Field_ID=" ++ ds)) := rfl
  rw [hstep, hdown, hhit]

theorem searchId_process (ds : S) (hds : ds ≠ []) (hdig : ∀ c ∈ ds, c.isDigit = true) :
    searchId (str "AD_Process_ID=" ++ ds) = some ds := by
  have hhit : matchIdTry (str "AD_Process_ID=" ++ ds) 10 = some ds :=
    matchIdTry_hit (m := 9) rfl hds hdig
  have hdown : matchIdAt (str "AD_Process_ID=" ++ ds) =
      matchIdTry (str "AD_Process_ID=" ++ ds) 10 := rfl
  have hstep : searchId (str "AD_Process_ID=" ++ ds) =
      (match matchIdAt (str "AD_Process_ID=" ++ ds) with
       | some v => some v
       | none => searchId (str "D_Process_ID=" ++ ds)) := rfl
  rw [hstep, hdown, hhit]

theorem searchId_form (ds : S) (hds : ds ≠ []) (hdig : ∀ c ∈ ds, c.isDigit = true) :
    searchId (str "AD_Form_ID=" ++ ds) = some ds := by
  have hhit : matchIdTry (str "AD_Form_ID=" ++ ds) 7 = some ds :=
    matchIdTry_hit (m := 6) rfl hds hdig
  have hdown : matchIdAt (str "AD_Form_ID=" ++ ds) = matchIdTry (str "AD_Form_ID=" ++ ds) 7 := rfl
  have hstep : searchId (str "AD_Form_ID=" ++ ds) =
      (match matchIdAt (str "AD_Form_ID=" ++ ds) with
       | some v => some v
       | none => searchId (str "D_Form_ID=" ++ ds)) := rfl
  rw [hstep, hdown, hhit]

theorem searchId_menu (ds : S) (hds : ds ≠ []) (hdig : ∀ c ∈ ds, c.isDigit = true) :
    searchId (str "AD_Menu_ID=" ++ ds) = some ds := by
  have hhit : matchIdTry (str "AD_Menu_ID=" ++ ds) 7 = some ds :=
    matchIdTry_hit (m := 6) rfl hds hdig
  have hdown : matchIdAt (str "AD_Menu_ID=" ++ ds) = matchIdTry (str "AD_Menu_ID=" ++ ds) 7 := rfl
  have hstep : searchId (str "AD_Menu_ID=" ++ ds) =
      (match matchIdAt (str "AD_Menu_ID=" ++ ds) with
       | some v => some v
       | none => searchId (str "D_Menu_ID=" ++ ds)) := rfl
  rw [hstep, hdown, hhit]

theorem idclause_noquote {lit ds : S} (hlit : sqc ∈ lit → False)
    (hdig : ∀ c ∈ ds, c.isDigit = true) : ∀ c ∈ lit ++ ds, c ≠ sqc := by
  intro c hc hceq
  subst hceq
  rcases List.mem_append.mp hc with h | h
  · exact hlit h
  · exact absurd rfl (digit_ne_sqc (hdig _ h))

theorem extractKey_eq_priority (w : S) : extractKey w = extractKeyPriority w := by
  unfold extractKey extractKeyPriority
  cases searchCol w <;> cases searchId w <;> cases searchName w <;> rfl

theorem extractKey_colclause (k : S) (hk : k ≠ []) (hq : ∀ c ∈ k, c ≠ sqc) :
    extractKey (str "ColumnName=" ++ [sqc] ++ k ++ [sqc]) = some (RuleKey.colName k) := by
  rw [extractKey_eq_priority]
  unfold extractKeyPriority
  rw [searchCol_pos k hk hq]

theorem extractKey_nameclause (k : S) (hk : k ≠ []) (hq : ∀ c ∈ k, c ≠ sqc)
    (hu : ∀ c ∈ k, c ≠ '_') :
    extractKey (str "Name=" ++ [sqc] ++ k ++ [sqc]) = some (RuleKey.name k) := by
  rw [extractKey_eq_priority]
  unfold extractKeyPriority
  rw [searchCol_nameclause k hq, searchId_nameclause k hu, searchName_pos k hk hq]

theorem extractKey_window_id (ds : S) (hds : ds ≠ []) (hdig : ∀ c ∈ ds, c.isDigit = true) :
    extractKey (str "AD_Window_ID=" ++ ds) = some (RuleKey.id ds) := by
  rw [extractKey_eq_priority]
  unfold extractKeyPriority
  rw [searchCol_noquote _ (idclause_noquote (by decide) hdig), searchId_window ds hds hdig]

theorem extractKey_tab_id (ds : S) (hds : ds ≠ []) (hdig : ∀ c ∈ ds, c.isDigit = true) :
    extractKey (str "AD_Tab_ID=" ++ ds) = some (RuleKey.id ds) := by
  rw [extractKey_eq_priority]
  unfold extractKeyPriority
  rw [searchCol_noquote _ (idclause_noquote (by decide) hdig), searchId_tab ds hds hdig]

theorem extractKey_field_id (ds : S) (hds : ds ≠ []) (hdig : ∀ c ∈ ds, c.isDigit = true) :
    extractKey (str "AD_Field_ID=" ++ ds) = some (RuleKey.id ds) := by
  rw [extractKey_eq_priority]
  unfold extractKeyPriority
  rw [searchCol_noquote _ (idclause_noquote (by decide) hdig), searchId_field ds hds hdig]

theorem extractKey_process_id (ds : S) (hds : ds ≠ []) (hdig : ∀ c ∈ ds, c.isDigit = true) :
    extractKey (str "AD_Process_ID=" ++ ds) = some (RuleKey.id ds) := by
  rw [extractKey_eq_priority]
  unfold extractKeyPriority
  rw [searchCol_noquote _ (idclause_noquote (by decide) hdig), searchId_process ds hds hdig]

theorem extractKey_form_id (ds : S) (hds : ds ≠ []) (hdig : ∀ c ∈ ds, c.isDigit = true) :
    extractKey (str "AD_Form_ID=" ++ ds) = some (RuleKey.id ds) := by
  rw [extractKey_eq_priority]
  unfold extractKeyPriority
  rw [searchCol_noquote _ (idclause_noquote (by decide) hdig), searchId_form ds hds hdig]

theorem extractKey_menu_id (ds : S) (hds : ds ≠ []) (hdig : ∀ c ∈ ds, c.isDigit = true) :
    extractKey (str "AD_Menu_ID=" ++ ds) = some (RuleKey.id ds) := by
  rw [extractKey_eq_priority]
  unfold extractKeyPriority
  rw [searchCol_noquote _ (idclause_noquote (by decide) hdig), searchId_menu ds hds hdig]

theorem matchSetAt_single (f v : S) (hf : f ≠ []) (hfw : ∀ c ∈ f, isWordChar c = true)
    (hq : ∀ c ∈ v, c ≠ sqc) :
    matchSetAt (f ++ ('=' :: sqc :: (v ++ [sqc]))) = some ((f, v, []), []) := by
  unfold matchSetAt
  have htw : (f ++ ('=' :: sqc :: (v ++ [sqc]))).takeWhile isWordChar = f :=
    takeWhile_append_stop f _ hfw (by decide)
  rw [htw, if_neg (by simpa using hf)]
  have hdrop : (f ++ ('=' :: sqc :: (v ++ [sqc]))).drop f.length = '=' :: sqc :: (v ++ [sqc]) :=
    List.drop_left f _
  rw [hdrop, List.dropWhile_cons_of_neg (by decide)]
  simp only [if_pos rfl]
  rw [List.dropWhile_cons_of_neg (by decide)]
  simp only [if_pos rfl]
  rw [quotedContent_noquote v hq]
  simp

theorem findSetPairsF_nil : ∀ (n : Nat), findSetPairsF n [] = []
  | 0 => rfl
  | _ + 1 => rfl

theorem findSetPairs_single (f v : S) (hf : f ≠ []) (hfw : ∀ c ∈ f, isWordChar c = true)
    (hq : ∀ c ∈ v, c ≠ sqc) :
    findSetPairs (f ++ ('=' :: sqc :: (v ++ [sqc]))) = [(f, v, [])] := by
  cases f with
  | nil => exact absurd rfl hf
  | cons f0 f' =>
      unfold findSetPairs
      have hlen : ((f0 :: f') ++ ('=' :: sqc :: (v ++ [sqc]))).length =
          (f' ++ ('=' :: sqc :: (v ++ [sqc]))).length + 1 := by simp
      rw [hlen]
      have hcons : (f0 :: f') ++ ('=' :: sqc :: (v ++ [sqc])) =
          f0 :: (f' ++ ('=' :: sqc :: (v ++ [sqc]))) := rfl
      rw [hcons]
      have hstep : findSetPairsF ((f' ++ ('=' :: sqc :: (v ++ [sqc]))).length + 1)
          (f0 :: (f' ++ ('=' :: sqc :: (v ++ [sqc])))) =
          (match matchSetAt (f0 :: (f' ++ ('=' :: sqc :: (v ++ [sqc])))) with
           | some (tri, after) => tri :: findSetPairsF (f' ++ ('=' :: sqc :: (v ++ [sqc]))).length after
           | none => findSetPairsF (f' ++ ('=' :: sqc :: (v ++ [sqc]))).length
               (f' ++ ('=' :: sqc :: (v ++ [sqc])))) := rfl
      rw [hstep, ← hcons, matchSetAt_single (f0 :: f') v hf hfw hq]
      simp [findSetPairsF_nil]

theorem buildValues_single (f v : S) (hq : ∀ c ∈ v, c ≠ sqc) :
    buildValues [(f, v, [])] = [(pyUpper f, v)] := by
  unfold buildValues bvStep
  simp only [List.foldl_cons, List.foldl_nil]
  by_cases hv : v = []
  · subst hv
    rfl
  · simp only [hv, if_pos, ne_eq, not_false_iff, if_true]
    rw [unescapeQ_noquote v hq]
    rfl

/-- The canonical one-line UPDATE statement of claim C8. -/
def mkStmt (T setc wherec : S) : S :=
  str "UPDATE " ++ (T ++ (str " SET " ++ (setc ++ (str " WHERE " ++ wherec))))

/-- The canonical SET clause of claim C8. -/
def setPair (f v : S) : S := f ++ ('=' :: sqc :: (v ++ [sqc]))

theorem stripWs_noop {s : S} (h1 : ∀ c ∈ s.take 1, isWs c = false)
    (h2 : ∀ c ∈ s.reverse.take 1, isWs c = false) : stripWs s = s := by
  unfold stripWs
  have hd : s.dropWhile isWs = s := by
    cases s with
    | nil => rfl
    | cons a t => exact List.dropWhile_cons_of_neg (by simp [h1 a (by simp)])
  rw [hd]
  have hr : s.reverse.dropWhile isWs = s.reverse := by
    cases hs : s.reverse with
    | nil => rfl
    | cons a t =>
        have ha : isWs a = false := h2 a (by rw [hs]; simp)
        exact List.dropWhile_cons_of_neg (by simp [ha])
  rw [hr, List.reverse_reverse]

theorem reverse_take1_append {X w : S} (hw : w ≠ []) :
    (X ++ w).reverse.take 1 = w.reverse.take 1 := by
  rw [List.reverse_append]
  cases hr : w.reverse with
  | nil =>
      exfalso
      apply hw
      simpa using congrArg List.reverse hr
  | cons a t => simp

theorem whereSep_nonws {c : Char} (t : S) (h : isWs c = false) : whereSep (c :: t) = none := by
  have hstep : whereSep (c :: t) =
      (if isWs c = true then
        match ciLit (str "WHERE") ((c :: t).dropWhile isWs) with
        | some (c2 :: r2) =>
            if isWs c2 = true then
              match (c2 :: r2).dropWhile isWs with
              | [] =>
                  match ((c2 :: r2).takeWhile isWs).reverse with
                  | last :: _ :: _ => some [last]
                  | _ => none
              | r3 => some r3
            else none
        | some [] => none
        | none => none
      else none) := rfl
  rw [hstep, h]
  simp

theorem whereSep_mk (w : S) (hw : w ≠ []) (hhd : ∀ c ∈ w.take 1, isWs c = false) :
    whereSep (str " WHERE " ++ w) = some w := by
  obtain ⟨w0, w', rfl⟩ := List.exists_cons_of_ne_nil hw
  have hw0 : isWs w0 = false := hhd w0 (by simp)
  have hscrut : (w0 :: w').dropWhile isWs = w0 :: w' :=
    List.dropWhile_cons_of_neg (by simp [hw0])
  have hstep : whereSep (str " WHERE " ++ (w0 :: w')) =
      (match (w0 :: w').dropWhile isWs with
       | [] =>
           match ((' ' :: w0 :: w').takeWhile isWs).reverse with
           | last :: _ :: _ => some [last]
           | _ => none
       | r3 => some r3) := rfl
  rw [hstep, hscrut]

theorem findWhereSplit_mk : ∀ (pre acc w : S), (∀ c ∈ pre, isWs c = false) →
    acc ++ pre ≠ [] → w ≠ [] → (∀ c ∈ w.take 1, isWs c = false) →
    findWhereSplit acc (pre ++ (str " WHERE " ++ w)) = some (acc ++ pre, w)
  | [], acc, w, _, hne, hw, hhd => by
      simp only [List.nil_append]
      have hacc : acc ≠ [] := by simpa using hne
      have hstep : findWhereSplit acc (str " WHERE " ++ w) =
          (match (if acc ≠ [] then whereSep (str " WHERE " ++ w) else none) with
           | some g3 => some (acc, g3)
           | none => findWhereSplit (acc ++ [' ']) (str "WHERE " ++ w)) := rfl
      rw [hstep, if_pos hacc, whereSep_mk w hw hhd]
      simp
  | p :: pre', acc, w, hpre, hne, hw, hhd => by
      have hp : isWs p = false := hpre p (by simp)
      have hcons : (p :: pre') ++ (str " WHERE " ++ w) =
          p :: (pre' ++ (str " WHERE " ++ w)) := rfl
      rw [hcons]
      have hstep : findWhereSplit acc (p :: (pre' ++ (str " WHERE " ++ w))) =
          (match (if acc ≠ [] then whereSep (p :: (pre' ++ (str " WHERE " ++ w))) else none) with
           | some g3 => some (acc, g3)
           | none => findWhereSplit (acc ++ [p]) (pre' ++ (str " WHERE " ++ w))) := rfl
      rw [hstep]
      have hsep : (if acc ≠ [] then whereSep (p :: (pre' ++ (str " WHERE " ++ w))) else none) = none := by
        by_cases ha : acc ≠ []
        · rw [if_pos ha]; exact whereSep_nonws _ hp
        · rw [if_neg ha]
      rw [hsep]
      have hrec := findWhereSplit_mk pre' (acc ++ [p]) w
        (fun c hc => hpre c (List.mem_cons_of_mem p hc)) (by simp) hw hhd
      rw [hrec]
      simp


theorem matchUpdateStmt_mk (T setc wherec : S)
    (hT1 : T ≠ []) (hT2 : ∀ c ∈ T, isWordChar c = true)
    (hs1 : setc ≠ []) (hs2 : ∀ c ∈ setc, isWs c = false)
    (hw1 : wherec ≠ []) (hw2 : ∀ c ∈ wherec.take 1, isWs c = false) :
    matchUpdateStmt (mkStmt T setc wherec) = some (T, setc, wherec) := by
  obtain ⟨t0, T', rfl⟩ := List.exists_cons_of_ne_nil hT1
  have ht0 : isWordChar t0 = true := hT2 t0 (by simp)
  obtain ⟨s0, setc', rfl⟩ := List.exists_cons_of_ne_nil hs1
  have hs0 : isWs s0 = false := hs2 s0 (by simp)
  unfold matchUpdateStmt mkStmt
  have hci : ciLit (str "UPDATE")
      (str "UPDATE " ++ ((t0 :: T') ++ (str " SET " ++ ((s0 :: setc') ++ (str " WHERE " ++ wherec))))) =
      some (' ' :: ((t0 :: T') ++ (str " SET " ++ ((s0 :: setc') ++ (str " WHERE " ++ wherec))))) := rfl
  rw [hci]
  have hr2 : (' ' :: ((t0 :: T') ++ (str " SET " ++ ((s0 :: setc') ++ (str " WHERE " ++ wherec))))).dropWhile isWs = ((t0 :: T') ++ (str " SET " ++ ((s0 :: setc') ++ (str " WHERE " ++ wherec)))) := by
    rw [List.dropWhile_cons_of_pos (by decide)]
    have hshape : ((t0 :: T') ++ (str " SET " ++ ((s0 :: setc') ++ (str " WHERE " ++ wherec)))) = t0 :: (T' ++ (str " SET " ++ ((s0 :: setc') ++ (str " WHERE " ++ wherec)))) := rfl
    rw [hshape]
    exact List.dropWhile_cons_of_neg (by simp [word_not_ws ht0])
  have hsh2 : str " SET " ++ ((s0 :: setc') ++ (str " WHERE " ++ wherec)) = ' ' :: (str "SET " ++ ((s0 :: setc') ++ (str " WHERE " ++ wherec))) := rfl
  have htbl : (((t0 :: T') ++ (str " SET " ++ ((s0 :: setc') ++ (str " WHERE " ++ wherec))))).takeWhile isWordChar = t0 :: T' := by
    rw [hsh2]
    exact takeWhile_append_stop _ _ hT2 (by decide)
  have hdrop : (((t0 :: T') ++ (str " SET " ++ ((s0 :: setc') ++ (str " WHERE " ++ wherec))))).drop (t0 :: T').length = ' ' :: (str "SET " ++ ((s0 :: setc') ++ (str " WHERE " ++ wherec))) := by
    rw [hsh2]
    exact List.drop_left _ _
  have hdw3 : (' ' :: (str "SET " ++ ((s0 :: setc') ++ (str " WHERE " ++ wherec)))).dropWhile isWs = (str "SET " ++ ((s0 :: setc') ++ (str " WHERE " ++ wherec))) := rfl
  have hci2 : ciLit (str "SET") (str "SET " ++ ((s0 :: setc') ++ (str " WHERE " ++ wherec))) = some (' ' :: ((s0 :: setc') ++ (str " WHERE " ++ wherec))) := rfl
  have hdw4 : (' ' :: ((s0 :: setc') ++ (str " WHERE " ++ wherec))).dropWhile isWs = ((s0 :: setc') ++ (str " WHERE " ++ wherec)) := by
    rw [List.dropWhile_cons_of_pos (by decide)]
    have hshape : ((s0 :: setc') ++ (str " WHERE " ++ wherec)) = s0 :: (setc' ++ (str " WHERE " ++ wherec)) := rfl
    rw [hshape]
    exact List.dropWhile_cons_of_neg (by simp [hs0])
  have hfw : findWhereSplit [] ((s0 :: setc') ++ (str " WHERE " ++ wherec)) = some (s0 :: setc', wherec) := by
    have := findWhereSplit_mk (s0 :: setc') [] wherec hs2 (by simp) hw1 hw2
    simpa using this
  simp only [hr2, htbl, hdrop, hdw3, hci2, hdw4, hfw]
  simp
  decide

/-- Well-formed SQL identifier: non-empty, word characters only. -/
def WfWord (s : S) : Prop := s ≠ [] ∧ ∀ c ∈ s, isWordChar c = true

/-- Well-formed SET value: no quotes (escaping aside) and no whitespace. -/
def WfValue (v : S) : Prop := (∀ c ∈ v, c ≠ sqc) ∧ (∀ c ∈ v, isWs c = false)

/-- Well-formed quoted key value: non-empty and quote-free. -/
def WfKey (k : S) : Prop := k ≠ [] ∧ ∀ c ∈ k, c ≠ sqc

/-- Well-formed numeric key: a non-empty digit run. -/
def WfDigits (d : S) : Prop := d ≠ [] ∧ ∀ c ∈ d, c.isDigit = true

theorem setPair_ne_nil {f v : S} (hf : f ≠ []) : setPair f v ≠ [] := by
  obtain ⟨f0, f', rfl⟩ := List.exists_cons_of_ne_nil hf
  simp [setPair]

theorem setPair_noWs {f v : S} (hf : ∀ c ∈ f, isWordChar c = true)
    (hv : ∀ c ∈ v, isWs c = false) : ∀ c ∈ setPair f v, isWs c = false := by
  intro c hc
  unfold setPair at hc
  rcases List.mem_append.mp hc with h | h
  · exact word_not_ws (hf c h)
  · rcases h with _ | ⟨_, h⟩
    · decide
    · rcases h with _ | ⟨_, h⟩
      · decide
      · rcases List.mem_append.mp h with h | h
        · exact hv c h
        · have : c = sqc := by simpa using h
          rw [this]; decide

theorem processOneStmt_mk (u : Updates) (T setc wherec : S)
    (hT1 : T ≠ []) (hT2 : ∀ c ∈ T, isWordChar c = true)
    (hs1 : setc ≠ []) (hs2 : ∀ c ∈ setc, isWs c = false)
    (hw1 : wherec ≠ []) (hw2 : ∀ c ∈ wherec.take 1, isWs c = false)
    (hw3 : ∀ c ∈ wherec.reverse.take 1, isWs c = false) :
    processOneStmt u (mkStmt T setc wherec) =
      (match extractKey wherec with
       | some k => if buildValues (findSetPairs setc) ≠ [] then
           dispatchUpdate u (pyUpper T) k (buildValues (findSetPairs setc)) else u
       | none => u) := by
  have hstrip : stripWs (mkStmt T setc wherec) = mkStmt T setc wherec := by
    apply stripWs_noop
    · intro c hc
      rw [show (mkStmt T setc wherec).take 1 = ['U'] from rfl] at hc
      have hcu : c = 'U' := by simpa using hc
      rw [hcu]; decide
    · intro c hc
      apply hw3 c
      unfold mkStmt at hc
      rw [show str "UPDATE " ++ (T ++ (str " SET " ++ (setc ++ (str " WHERE " ++ wherec)))) =
            (str "UPDATE " ++ T ++ str " SET " ++ setc ++ str " WHERE ") ++ wherec by
          simp [List.append_assoc], reverse_take1_append hw1] at hc
      exact hc
  have hsw : startsWith (str "UPDATE") (pyUpper (mkStmt T setc wherec)) = true := rfl
  unfold processOneStmt
  simp only [hstrip, hsw, Bool.not_true, Bool.false_eq_true, if_false,
    matchUpdateStmt_mk T setc wherec hT1 hT2 hs1 hs2 hw1 hw2]

theorem processOneStmt_combo (u : Updates) (T wherec f v : S) (kk : RuleKey)
    (hT : WfWord T) (hf : WfWord f) (hv : WfValue v)
    (hw1 : wherec ≠ []) (hw2 : ∀ c ∈ wherec.take 1, isWs c = false)
    (hw3 : ∀ c ∈ wherec.reverse.take 1, isWs c = false)
    (hkey : extractKey wherec = some kk) :
    processOneStmt u (mkStmt T (setPair f v) wherec) =
      dispatchUpdate u (pyUpper T) kk [(pyUpper f, v)] := by
  rw [processOneStmt_mk u T (setPair f v) wherec hT.1 hT.2 (setPair_ne_nil hf.1)
    (setPair_noWs hf.2 hv.2) hw1 hw2 hw3, hkey]
  unfold setPair
  rw [findSetPairs_single f v hf.1 hf.2 hv.1, buildValues_single f v hv.1]
  simp

/-- The canonical quoted ColumnName WHERE clause. -/
def colClause (k : S) : S := str "ColumnName=" ++ [sqc] ++ k ++ [sqc]

/-- The canonical quoted bare-Name WHERE clause. -/
def nameClause (k : S) : S := str "Name=" ++ [sqc] ++ k ++ [sqc]

theorem lastq_rev_take (X : S) : ∀ c ∈ (X ++ [sqc]).reverse.take 1, isWs c = false := by
  intro c hc
  rw [reverse_take1_append (by simp : ([sqc] : S) ≠ [])] at hc
  have hcs : c = sqc := by simpa using hc
  rw [hcs]; decide

theorem digits_rev_take (X : S) {ds : S} (hds : ds ≠ []) (hdig : ∀ c ∈ ds, c.isDigit = true) :
    ∀ c ∈ (X ++ ds).reverse.take 1, isWs c = false := by
  intro c hc
  rw [reverse_take1_append hds] at hc
  have hmem : c ∈ ds.reverse := List.take_subset 1 _ hc
  exact digit_not_ws (hdig c (List.mem_reverse.mp hmem))

theorem insertA_twice {α β : Type} [DecidableEq α] (m : List (α × β)) (k : α) (v : β) :
    insertA (insertA m k v) k v = insertA m k v := by
  induction m with
  | nil => simp [insertA]
  | cons kv rest ih =>
      obtain ⟨k0, v0⟩ := kv
      by_cases hk : k0 = k
      · rw [show insertA ((k0, v0) :: rest) k v = (k, v) :: rest by
          unfold insertA; rw [if_pos hk]]
        unfold insertA
        simp
      · have h1 : insertA ((k0, v0) :: rest) k v = (k0, v0) :: insertA rest k v := by
          simp [insertA, hk]
        have h2 : insertA ((k0, v0) :: insertA rest k v) k v =
            (k0, v0) :: insertA (insertA rest k v) k v := by
          simp [insertA, hk]
        rw [h1, h2, ih]

/-- Claim C8: a well-formed `UPDATE table SET f='v' WHERE key='k'`
statement produces exactly one update rule mapping the table and key to
the single field pair (field stored upper-cased), for each of the nine
table/key-type combinations the dispatch accepts; and running the same
statement twice yields the same single rule (last value per field wins
through dict replacement). -/
theorem C8_t (f v k ds : S) (hf : WfWord f) (hv : WfValue v) (hk : WfKey k)
    (hku : ∀ c ∈ k, c ≠ '_') (hds : WfDigits ds) :
    processOneStmt emptyUpdates (mkStmt (str "AD_Element") (setPair f v) (colClause k)) =
      { emptyUpdates with adElement := [(k, [(pyUpper f, v)])] } ∧
    processOneStmt emptyUpdates (mkStmt (str "AD_Window") (setPair f v) (nameClause k)) =
      { emptyUpdates with adWindow := [(WKey.name k, [(pyUpper f, v)])] } ∧
    processOneStmt emptyUpdates (mkStmt (str "AD_Window") (setPair f v) (str "AD_Window_ID=" ++ ds)) =
      { emptyUpdates with adWindow := [(WKey.id ds, [(pyUpper f, v)])] } ∧
    processOneStmt emptyUpdates (mkStmt (str "AD_Tab") (setPair f v) (str "AD_Tab_ID=" ++ ds)) =
      { emptyUpdates with adTab := [(TKey.id ds, [(pyUpper f, v)])] } ∧
    processOneStmt emptyUpdates (mkStmt (str "AD_Tab") (setPair f v) (nameClause k)) =
      { emptyUpdates with adTab := [(TKey.name k, [(pyUpper f, v)])] } ∧
    processOneStmt emptyUpdates (mkStmt (str "AD_Field") (setPair f v) (str "AD_Field_ID=" ++ ds)) =
      { emptyUpdates with adField := [(ds, [(pyUpper f, v)])] } ∧
    processOneStmt emptyUpdates (mkStmt (str "AD_Process") (setPair f v) (str "AD_Process_ID=" ++ ds)) =
      { emptyUpdates with adProcess := [(ds, [(pyUpper f, v)])] } ∧
    processOneStmt emptyUpdates (mkStmt (str "AD_Form") (setPair f v) (str "AD_Form_ID=" ++ ds)) =
      { emptyUpdates with adForm := [(ds, [(pyUpper f, v)])] } ∧
    processOneStmt emptyUpdates (mkStmt (str "AD_Menu") (setPair f v) (str "AD_Menu_ID=" ++ ds)) =
      { emptyUpdates with adMenu := [(ds, [(pyUpper f, v)])] } ∧
    processOneStmt (processOneStmt emptyUpdates (mkStmt (str "AD_Element") (setPair f v) (colClause k)))
      (mkStmt (str "AD_Element") (setPair f v) (colClause k)) =
      processOneStmt emptyUpdates (mkStmt (str "AD_Element") (setPair f v) (colClause k)) := by
  refine ⟨?_, ?_, ?_, ?_, ?_, ?_, ?_, ?_, ?_, ?_⟩
  · rw [processOneStmt_combo emptyUpdates (str "AD_Element") (colClause k) f v (RuleKey.colName k)
      (by constructor
          · simp [str]
          · decide) hf hv
      (by simp [colClause])
      (by intro c hc; rw [show (colClause k).take 1 = ['C'] from rfl] at hc; rw [(show c = 'C' by simpa using hc)]; decide)
      (by unfold colClause; exact lastq_rev_take _)
      (by unfold colClause; exact extractKey_colclause k hk.1 hk.2)]
    rfl
  · rw [processOneStmt_combo emptyUpdates (str "AD_Window") (nameClause k) f v (RuleKey.name k)
      (by constructor
          · simp [str]
          · decide) hf hv
      (by simp [nameClause])
      (by intro c hc; rw [show (nameClause k).take 1 = ['N'] from rfl] at hc; rw [(show c = 'N' by simpa using hc)]; decide)
      (by unfold nameClause; exact lastq_rev_take _)
      (by unfold nameClause; exact extractKey_nameclause k hk.1 hk.2 hku)]
    rfl
  · rw [processOneStmt_combo emptyUpdates (str "AD_Window") (str "AD_Window_ID=" ++ ds) f v (RuleKey.id ds)
      (by constructor
          · simp [str]
          · decide) hf hv
      (by simp [str])
      (by intro c hc; rw [show (str "AD_Window_ID=" ++ ds).take 1 = ['A'] from rfl] at hc; rw [(show c = 'A' by simpa using hc)]; decide)
      (by exact digits_rev_take _ hds.1 hds.2)
      (by exact extractKey_window_id ds hds.1 hds.2)]
    rfl
  · rw [processOneStmt_combo emptyUpdates (str "AD_Tab") (str "AD_Tab_ID=" ++ ds) f v (RuleKey.id ds)
      (by constructor
          · simp [str]
          · decide) hf hv
      (by simp [str])
      (by intro c hc; rw [show (str "AD_Tab_ID=" ++ ds).take 1 = ['A'] from rfl] at hc; rw [(show c = 'A' by simpa using hc)]; decide)
      (by exact digits_rev_take _ hds.1 hds.2)
      (by exact extractKey_tab_id ds hds.1 hds.2)]
    rfl
  · rw [processOneStmt_combo emptyUpdates (str "AD_Tab") (nameClause k) f v (RuleKey.name k)
      (by constructor
          · simp [str]
          · decide) hf hv
      (by simp [nameClause])
      (by intro c hc; rw [show (nameClause k).take 1 = ['N'] from rfl] at hc; rw [(show c = 'N' by simpa using hc)]; decide)
      (by unfold nameClause; exact lastq_rev_take _)
      (by unfold nameClause; exact extractKey_nameclause k hk.1 hk.2 hku)]
    rfl
  · rw [processOneStmt_combo emptyUpdates (str "AD_Field") (str "AD_Field_ID=" ++ ds) f v (RuleKey.id ds)
      (by constructor
          · simp [str]
          · decide) hf hv
      (by simp [str])
      (by intro c hc; rw [show (str "AD_Field_ID=" ++ ds).take 1 = ['A'] from rfl] at hc; rw [(show c = 'A' by simpa using hc)]; decide)
      (by exact digits_rev_take _ hds.1 hds.2)
      (by exact extractKey_field_id ds hds.1 hds.2)]
    rfl
  · rw [processOneStmt_combo emptyUpdates (str "AD_Process") (str "AD_Process_ID=" ++ ds) f v (RuleKey.id ds)
      (by constructor
          · simp [str]
          · decide) hf hv
      (by simp [str])
      (by intro c hc; rw [show (str "AD_Process_ID=" ++ ds).take 1 = ['A'] from rfl] at hc; rw [(show c = 'A' by simpa using hc)]; decide)
      (by exact digits_rev_take _ hds.1 hds.2)
      (by exact extractKey_process_id ds hds.1 hds.2)]
    rfl
  · rw [processOneStmt_combo emptyUpdates (str "AD_Form") (str "AD_Form_ID=" ++ ds) f v (RuleKey.id ds)
      (by constructor
          · simp [str]
          · decide) hf hv
      (by simp [str])
      (by intro c hc; rw [show (str "AD_Form_ID=" ++ ds).take 1 = ['A'] from rfl] at hc; rw [(show c = 'A' by simpa using hc)]; decide)
      (by exact digits_rev_take _ hds.1 hds.2)
      (by exact extractKey_form_id ds hds.1 hds.2)]
    rfl
  · rw [processOneStmt_combo emptyUpdates (str "AD_Menu") (str "AD_Menu_ID=" ++ ds) f v (RuleKey.id ds)
      (by constructor
          · simp [str]
          · decide) hf hv
      (by simp [str])
      (by intro c hc; rw [show (str "AD_Menu_ID=" ++ ds).take 1 = ['A'] from rfl] at hc; rw [(show c = 'A' by simpa using hc)]; decide)
      (by exact digits_rev_take _ hds.1 hds.2)
      (by exact extractKey_menu_id ds hds.1 hds.2)]
    rfl
  · rw [processOneStmt_combo emptyUpdates (str "AD_Element") (colClause k) f v (RuleKey.colName k)
      (by constructor
          · simp [str]
          · decide) hf hv
      (by simp [colClause])
      (by intro c hc; rw [show (colClause k).take 1 = ['C'] from rfl] at hc; rw [(show c = 'C' by simpa using hc)]; decide)
      (by unfold colClause; exact lastq_rev_take _)
      (by unfold colClause; exact extractKey_colclause k hk.1 hk.2)]
    rw [processOneStmt_combo _ (str "AD_Element") (colClause k) f v (RuleKey.colName k)
      (by constructor
          · simp [str]
          · decide) hf hv
      (by simp [colClause])
      (by intro c hc; rw [show (colClause k).take 1 = ['C'] from rfl] at hc; rw [(show c = 'C' by simpa using hc)]; decide)
      (by unfold colClause; exact lastq_rev_take _)
      (by unfold colClause; exact extractKey_colclause k hk.1 hk.2)]
    have hD : ∀ (u : Updates), dispatchUpdate u (pyUpper (str "AD_Element")) (RuleKey.colName k)
        [(pyUpper f, v)] = { u with adElement := insertA u.adElement k [(pyUpper f, v)] } :=
      fun u => rfl
    rw [hD, hD]
    simp [insertA_twice]

/-- Witness for C8_t: at field Help, value Bar, key Foo and id digits 123
the hypotheses hold and the AD_Element/ColumnName combination yields the
single rule mapping Foo to the pair (HELP, Bar). -/
theorem C8_w :
    processOneStmt emptyUpdates
        (mkStmt (str "AD_Element") (setPair (str "Help") (str "Bar")) (colClause (str "Foo"))) =
      { emptyUpdates with adElement := [(str "Foo", [(pyUpper (str "Help"), str "Bar")])] } :=
  (C8_t (str "Help") (str "Bar") (str "Foo") (str "123")
    (by constructor
        · decide
        · decide)
    (by constructor
        · decide
        · decide)
    (by constructor
        · decide
        · decide)
    (by decide)
    (by constructor
        · decide
        · decide)).1

theorem findA_insertA {α β : Type} [DecidableEq α] (m : List (α × β)) (k : α) (v : β) :
    findA (insertA m k v) k = some v := by
  induction m with
  | nil => simp [insertA, findA]
  | cons kv rest ih =>
      obtain ⟨k0, v0⟩ := kv
      by_cases hk : k0 = k
      · simp [insertA, hk, findA]
      · rw [show insertA ((k0, v0) :: rest) k v = (k0, v0) :: insertA rest k v by
          simp [insertA, hk]]
        unfold findA
        rw [List.find?_cons_of_neg _ (by simp [hk])]
        unfold findA at ih
        exact ih

/-- First statement of the C4 counterexample: Help is set for ColumnName K. -/
def c4s1 : S := mkStmt (str "AD_Element") (setPair (str "Help") (str "a")) (colClause (str "K"))

/-- Second statement of the C4 counterexample: Name is set for the same key K. -/
def c4s2 : S := mkStmt (str "AD_Element") (setPair (str "Name") (str "b")) (colClause (str "K"))

/-- Claim C4 counterexample: two parsed statements target the same
(AD_Element, ColumnName, K); the first sets Help, the second sets Name.
The dict assignment at line 126 stores the second statement's field set
wholesale, so the resulting rule is only NAME=b: the HELP field set solely
by the earlier statement is dropped, not retained as the claim says. -/
theorem C4_cex_t :
    (processOneStmt emptyUpdates c4s1).adElement = [(str "K", [(str "HELP", str "a")])] ∧
    (processOneStmt (processOneStmt emptyUpdates c4s1) c4s2).adElement =
      [(str "K", [(str "NAME", str "b")])] := ⟨rfl, rfl⟩

/-- Claim C4 amended: when two statements target the same (table, key type,
key value), the later statement's field set replaces the earlier rule
wholesale (plain dict assignment, no merge); the rule after processing a
well-formed statement is exactly that statement's own field pairs,
regardless of what the earlier rule contained. -/
theorem C4_amended_t (u : Updates) (f v k : S) (hf : WfWord f) (hv : WfValue v) (hk : WfKey k) :
    (processOneStmt u (mkStmt (str "AD_Element") (setPair f v) (colClause k))).adElement =
      insertA u.adElement k [(pyUpper f, v)] ∧
    findA (processOneStmt u (mkStmt (str "AD_Element") (setPair f v) (colClause k))).adElement k =
      some [(pyUpper f, v)] := by
  have h := processOneStmt_combo u (str "AD_Element") (colClause k) f v (RuleKey.colName k)
    (by constructor
        · simp [str]
        · decide) hf hv
    (by simp [colClause])
    (by intro c hc; rw [show (colClause k).take 1 = ['C'] from rfl] at hc; rw [(show c = 'C' by simpa using hc)]; decide)
    (by unfold colClause; exact lastq_rev_take _)
    (by unfold colClause; exact extractKey_colclause k hk.1 hk.2)
  have hD : dispatchUpdate u (pyUpper (str "AD_Element")) (RuleKey.colName k) [(pyUpper f, v)] =
      { u with adElement := insertA u.adElement k [(pyUpper f, v)] } := rfl
  rw [h, hD]
  exact ⟨rfl, findA_insertA _ _ _⟩

/-- Witness for C4_amended_t: starting from a state whose rule for K is
HELP=a, processing a statement that sets Name replaces the rule with
NAME=b alone. -/
theorem C4_amended_w :
    (processOneStmt { emptyUpdates with adElement := [(str "K", [(str "HELP", str "a")])] }
        (mkStmt (str "AD_Element") (setPair (str "Name") (str "b")) (colClause (str "K")))).adElement =
      [(str "K", [(str "NAME", str "b")])] := by
  have h := C4_amended_t { emptyUpdates with adElement := [(str "K", [(str "HELP", str "a")])] }
    (str "Name") (str "b") (str "K")
    (by constructor
        · decide
        · decide)
    (by constructor
        · decide
        · decide)
    (by constructor
        · decide
        · decide)
  rw [h.1]
  rfl

/-! ### Claim C9: idempotence analysis of the apply pipeline -/

/-- The (tag, text) projection of a children list: everything the apply
loop bodies read and write on the direct children of one element. -/
def childTT : ElemList → List (S × Option S)
  | .nil => []
  | .cons c cs => (c.tag, c.text) :: childTT cs

/-- Lookup of the text stored under the first occurrence of a tag. -/
def findTT : List (S × Option S) → S → Option (Option S)
  | [], _ => none
  | (t, x) :: rest, tg => if t = tg then some x else findTT rest tg

/-- Tag presence in the projection. -/
def hasTT (tts : List (S × Option S)) (tg : S) : Bool := (findTT tts tg).isSome

/-- Replace the text stored under the first occurrence of a tag. -/
def setTT : List (S × Option S) → S → Option S → List (S × Option S)
  | [], _, _ => []
  | (t, x) :: rest, tg, v => if t = tg then (t, v) :: rest else (t, x) :: setTT rest tg v

/-- The variant resolution of `update_element` on the projection. -/
def findVariantTT (tts : List (S × Option S)) (f : S) : Option S :=
  if hasTT tts (pyCapitalize f) then some (pyCapitalize f)
  else if hasTT tts f then some f
  else [f, pyCapitalize f, pyLower f].find? (fun v => hasTT tts v)

/-- The write plan of one `update_element` call: the resolved child tag and
the value for every field of the rule that resolves. -/
def planTT (tts : List (S × Option S)) (values : Values) : List (S × S) :=
  values.filterMap (fun fv => (findVariantTT tts fv.1).map (fun tg => (tg, fv.2)))

/-- Apply a write plan to the projection. -/
def applyPlanTT (tts : List (S × Option S)) (p : List (S × S)) : List (S × Option S) :=
  p.foldl (fun acc tv => setTT acc tv.1 (some tv.2)) tts

/-- Apply a write plan to a children list. -/
def applyPlanL (cs : ElemList) (p : List (S × S)) : ElemList :=
  p.foldl (fun acc tv => setChildTextL acc tv.1 (some tv.2)) cs

/-- Apply a write plan to an element (the fold `update_element` performs
once every field is resolved). -/
def applyPlan (e : Elem) (p : List (S × S)) : Elem :=
  p.foldl (fun acc tv => setChildText acc tv.1 (some tv.2)) e

/-- Overwrite the texts of a children list positionally from a projection
list (tags of the projection are ignored). -/
def withTexts : ElemList → List (S × Option S) → ElemList
  | .nil, _ => .nil
  | .cons c cs, [] => .cons c cs
  | .cons c cs, (_, x) :: ts => .cons (c.withText x) (withTexts cs ts)

theorem setTT_map_fst (tts : List (S × Option S)) (tg : S) (v : Option S) :
    (setTT tts tg v).map Prod.fst = tts.map Prod.fst := by
  induction tts with
  | nil => rfl
  | cons tx rest ih =>
      obtain ⟨t, x⟩ := tx
      by_cases h : t = tg
      · simp [setTT, h]
      · simp [setTT, h, ih]

theorem applyPlanTT_map_fst (p : List (S × S)) : ∀ (tts : List (S × Option S)),
    (applyPlanTT tts p).map Prod.fst = tts.map Prod.fst := by
  induction p with
  | nil => intro tts; rfl
  | cons tv p' ih =>
      intro tts
      show (applyPlanTT (setTT tts tv.1 (some tv.2)) p').map Prod.fst = _
      rw [ih, setTT_map_fst]

theorem setTT_length (tts : List (S × Option S)) (tg : S) (v : Option S) :
    (setTT tts tg v).length = tts.length := by
  have h := congrArg List.length (setTT_map_fst tts tg v)
  simpa using h

theorem applyPlanTT_length (p : List (S × S)) (tts : List (S × Option S)) :
    (applyPlanTT tts p).length = tts.length := by
  have h := congrArg List.length (applyPlanTT_map_fst p tts)
  simpa using h

theorem findTT_setTT_ne {t k : S} (hne : t ≠ k) (tts : List (S × Option S)) (v : Option S) :
    findTT (setTT tts t v) k = findTT tts k := by
  induction tts with
  | nil => rfl
  | cons tx rest ih =>
      obtain ⟨t0, x⟩ := tx
      by_cases h : t0 = t
      · subst h
        simp only [setTT, if_pos rfl, findTT, if_neg hne]
      · simp only [setTT, if_neg h, findTT]
        by_cases h2 : t0 = k
        · simp [h2]
        · simp [h2, ih]

theorem findTT_applyPlanTT {k : S} (p : List (S × S)) (hp : ∀ tv ∈ p, tv.1 ≠ k) :
    ∀ (tts : List (S × Option S)), findTT (applyPlanTT tts p) k = findTT tts k := by
  induction p with
  | nil => intro tts; rfl
  | cons tv p' ih =>
      intro tts
      show findTT (applyPlanTT (setTT tts tv.1 (some tv.2)) p') k = _
      rw [ih (fun x hx => hp x (by simp [hx])), findTT_setTT_ne (hp tv (by simp))]

theorem hasTT_congr {tts tts2 : List (S × Option S)}
    (h : tts.map Prod.fst = tts2.map Prod.fst) (t : S) : hasTT tts t = hasTT tts2 t := by
  induction tts generalizing tts2 with
  | nil =>
      cases tts2 with
      | nil => rfl
      | cons a b => simp at h
  | cons tx rest ih =>
      cases tts2 with
      | nil => simp at h
      | cons tx2 rest2 =>
          obtain ⟨t0, x0⟩ := tx
          obtain ⟨t2, x2⟩ := tx2
          simp only [List.map_cons, List.cons.injEq] at h
          unfold hasTT findTT
          rw [h.1]
          by_cases he : t2 = t
          · simp [he]
          · simp only [if_neg he]
            exact ih h.2

theorem findVariantTT_congr {tts tts2 : List (S × Option S)}
    (h : tts.map Prod.fst = tts2.map Prod.fst) (f : S) :
    findVariantTT tts f = findVariantTT tts2 f := by
  unfold findVariantTT
  rw [hasTT_congr h, hasTT_congr h,
    show (fun v => hasTT tts v) = (fun v => hasTT tts2 v) from funext (hasTT_congr h)]

theorem planTT_congr {tts tts2 : List (S × Option S)}
    (h : tts.map Prod.fst = tts2.map Prod.fst) (vals : Values) :
    planTT tts vals = planTT tts2 vals := by
  unfold planTT
  rw [show (fun fv : S × S => (findVariantTT tts fv.1).map (fun tg => (tg, fv.2))) =
      (fun fv : S × S => (findVariantTT tts2 fv.1).map (fun tg => (tg, fv.2))) from
    funext (fun fv => by rw [findVariantTT_congr h])]

theorem setTT_setTT_same (tts : List (S × Option S)) (tg : S) (v w : Option S) :
    setTT (setTT tts tg v) tg w = setTT tts tg w := by
  induction tts with
  | nil => rfl
  | cons tx rest ih =>
      obtain ⟨t, x⟩ := tx
      by_cases h : t = tg
      · simp [setTT, h]
      · simp [setTT, h, ih]

theorem setTT_comm_ne {t1 t2 : S} (hne : t1 ≠ t2) (tts : List (S × Option S))
    (v1 v2 : Option S) :
    setTT (setTT tts t1 v1) t2 v2 = setTT (setTT tts t2 v2) t1 v1 := by
  induction tts with
  | nil => rfl
  | cons tx rest ih =>
      obtain ⟨t, x⟩ := tx
      by_cases h1 : t = t1
      · subst h1
        simp [setTT, if_neg (fun he => hne he), hne]
      · by_cases h2 : t = t2
        · subst h2
          simp [setTT, h1, if_neg h1]
        · simp [setTT, h1, h2, ih]

theorem applyPlanTT_setTT_comm {t : S} (p : List (S × S)) (hp : ∀ tv ∈ p, tv.1 ≠ t) :
    ∀ (tts : List (S × Option S)) (v : Option S),
    applyPlanTT (setTT tts t v) p = setTT (applyPlanTT tts p) t v := by
  induction p with
  | nil => intro tts v; rfl
  | cons tv p' ih =>
      intro tts v
      show applyPlanTT (setTT (setTT tts t v) tv.1 (some tv.2)) p' = _
      rw [setTT_comm_ne (fun he => hp tv (by simp) he.symm) tts,
        ih (fun x hx => hp x (by simp [hx]))]
      rfl

theorem applyPlanTT_idem (p : List (S × S)) (hnd : (p.map Prod.fst).Nodup) :
    ∀ (tts : List (S × Option S)), applyPlanTT (applyPlanTT tts p) p = applyPlanTT tts p := by
  induction p with
  | nil => intro tts; rfl
  | cons tv p' ih =>
      intro tts
      simp only [List.map_cons, List.nodup_cons] at hnd
      have hA : applyPlanTT tts (tv :: p') = applyPlanTT (setTT tts tv.1 (some tv.2)) p' := rfl
      rw [hA]
      show applyPlanTT (setTT (applyPlanTT (setTT tts tv.1 (some tv.2)) p') tv.1 (some tv.2)) p' = _
      rw [← applyPlanTT_setTT_comm p'
          (fun x hx he => hnd.1 (by rw [← he]; exact List.mem_map_of_mem Prod.fst hx)),
        setTT_setTT_same, ih hnd.2]

theorem withText_self : ∀ (c : Elem), c.withText c.text = c
  | .mk _ _ _ _ _ => rfl

theorem withText_withText : ∀ (c : Elem) (a b : Option S),
    (c.withText a).withText b = c.withText b
  | .mk _ _ _ _ _, _, _ => rfl

theorem withTexts_self : ∀ (cs : ElemList), withTexts cs (childTT cs) = cs
  | .nil => rfl
  | .cons c cs => by
      show ElemList.cons (c.withText c.text) (withTexts cs (childTT cs)) = _
      rw [withText_self, withTexts_self cs]

theorem childTT_set : ∀ (cs : ElemList) (tg : S) (v : Option S),
    childTT (setChildTextL cs tg v) = setTT (childTT cs) tg v
  | .nil, _, _ => rfl
  | .cons c cs, tg, v => by
      by_cases h : c.tag = tg
      · cases c with
        | mk t a x cc l =>
            simp only [Elem.tag] at h
            simp [setChildTextL, childTT, setTT, Elem.tag, Elem.withText, Elem.text, h]
      · cases c with
        | mk t a x cc l =>
            simp only [Elem.tag] at h
            simp only [setChildTextL, childTT, setTT, Elem.tag, Elem.text, if_neg h]
            rw [childTT_set cs tg v]

theorem childTT_applyPlanL (p : List (S × S)) : ∀ (cs : ElemList),
    childTT (applyPlanL cs p) = applyPlanTT (childTT cs) p := by
  induction p with
  | nil => intro cs; rfl
  | cons tv p' ih =>
      intro cs
      show childTT (applyPlanL (setChildTextL cs tv.1 (some tv.2)) p') = _
      rw [ih, childTT_set]
      rfl

theorem setL_withTexts : ∀ (cs : ElemList) (tg : S) (v : Option S),
    setChildTextL cs tg v = withTexts cs (setTT (childTT cs) tg v)
  | .nil, _, _ => rfl
  | .cons c cs, tg, v => by
      by_cases h : c.tag = tg
      · simp only [setChildTextL, if_pos h, childTT, setTT, if_pos h, withTexts]
        rw [withTexts_self]
      · simp only [setChildTextL, if_neg h, childTT, setTT, if_neg h, withTexts]
        rw [withText_self, setL_withTexts cs tg v]

theorem withTexts_withTexts : ∀ (cs : ElemList) (ts1 ts2 : List (S × Option S)),
    ts1.length = ts2.length → withTexts (withTexts cs ts1) ts2 = withTexts cs ts2
  | .nil, _, _, _ => rfl
  | .cons c cs, [], [], _ => rfl
  | .cons c cs, [], (_ :: _), hlen => by simp at hlen
  | .cons c cs, (_ :: _), [], hlen => by simp at hlen
  | .cons c cs, (t1 :: ts1), (t2 :: ts2), hlen => by
      simp only [List.length_cons, Nat.add_right_cancel_iff] at hlen
      show ElemList.cons ((c.withText t1.2).withText t2.2) (withTexts (withTexts cs ts1) ts2) = _
      rw [withText_withText, withTexts_withTexts cs ts1 ts2 hlen]
      rfl

theorem applyPlanL_withTexts (p : List (S × S)) : ∀ (cs : ElemList),
    applyPlanL cs p = withTexts cs (applyPlanTT (childTT cs) p) := by
  induction p with
  | nil => intro cs; rw [show applyPlanTT (childTT cs) [] = childTT cs from rfl, withTexts_self]; rfl
  | cons tv p' ih =>
      intro cs
      show applyPlanL (setChildTextL cs tv.1 (some tv.2)) p' = _
      rw [ih, childTT_set cs tv.1 (some tv.2), setL_withTexts cs tv.1 (some tv.2)]
      rw [withTexts_withTexts cs _ _ (by rw [applyPlanTT_length])]
      rfl

theorem applyPlanL_noop {cs : ElemList} {p : List (S × S)}
    (h : applyPlanTT (childTT cs) p = childTT cs) : applyPlanL cs p = cs := by
  rw [applyPlanL_withTexts, h, withTexts_self]

theorem applyPlan_mk (p : List (S × S)) : ∀ (t : S) (a : List (S × S)) (x : Option S)
    (cs : ElemList) (l : Option S),
    applyPlan (.mk t a x cs l) p = .mk t a x (applyPlanL cs p) l := by
  induction p with
  | nil => intro t a x cs l; rfl
  | cons tv p' ih =>
      intro t a x cs l
      show applyPlan (setChildText (.mk t a x cs l) tv.1 (some tv.2)) p' = _
      rw [show setChildText (Elem.mk t a x cs l) tv.1 (some tv.2) =
          .mk t a x (setChildTextL cs tv.1 (some tv.2)) l from rfl, ih]
      rfl

theorem findTT_childTT : ∀ (cs : ElemList) (tg : S),
    findTT (childTT cs) tg = (findChild cs tg).map Elem.text
  | .nil, _ => rfl
  | .cons c cs, tg => by
      show (if c.tag = tg then some c.text else findTT (childTT cs) tg) = _
      by_cases h : c.tag = tg
      · simp [findChild, h]
      · simp [findChild, h, findTT_childTT cs tg]

theorem hasChild_TT (e : Elem) (tg : S) : hasChild e tg = hasTT (childTT e.children) tg := by
  unfold hasChild hasTT
  rw [findTT_childTT]
  cases findChild e.children tg <;> rfl

theorem findVariant_TT (e : Elem) (f : S) :
    findVariant e f = findVariantTT (childTT e.children) f := by
  unfold findVariant findVariantTT
  rw [hasChild_TT, hasChild_TT,
    show (fun v => hasChild e v) = (fun v => hasTT (childTT e.children) v) from
      funext (hasChild_TT e)]

theorem childTT_setChildText : ∀ (e : Elem) (tg : S) (v : Option S),
    childTT (setChildText e tg v).children = setTT (childTT e.children) tg v
  | .mk t a x cs l, tg, v => childTT_set cs tg v

theorem planTT_cons_none {tts : List (S × Option S)} {fv : S × S}
    (h : findVariantTT tts fv.1 = none) (rest : Values) :
    planTT tts (fv :: rest) = planTT tts rest := by
  unfold planTT
  rw [List.filterMap_cons, h]
  rfl

theorem planTT_cons_some {tts : List (S × Option S)} {fv : S × S} {tg : S}
    (h : findVariantTT tts fv.1 = some tg) (rest : Values) :
    planTT tts (fv :: rest) = (tg, fv.2) :: planTT tts rest := by
  unfold planTT
  rw [List.filterMap_cons, h]
  rfl

theorem applyPlan_nil (e : Elem) : applyPlan e [] = e := rfl

theorem applyPlan_cons (e : Elem) (tv : S × S) (p : List (S × S)) :
    applyPlan e (tv :: p) = applyPlan (setChildText e tv.1 (some tv.2)) p := rfl

theorem ue_fold_char (vals : Values) : ∀ (e : Elem) (b : Bool),
    vals.foldl ueStep (e, b) =
      (applyPlan e (planTT (childTT e.children) vals),
       b || !(planTT (childTT e.children) vals).isEmpty) := by
  induction vals with
  | nil => intro e b; simp [planTT, applyPlan]
  | cons fv rest ih =>
      intro e b
      rw [List.foldl_cons]
      cases hfv : findVariant e fv.1 with
      | none =>
          have hfv' : findVariantTT (childTT e.children) fv.1 = none := by
            rw [← findVariant_TT]; exact hfv
          have h1 : ueStep (e, b) fv = (e, b) := by simp [ueStep, hfv]
          rw [h1, ih, planTT_cons_none hfv']
      | some tg =>
          have hfv' : findVariantTT (childTT e.children) fv.1 = some tg := by
            rw [← findVariant_TT]; exact hfv
          have h1 : ueStep (e, b) fv = (setChildText e tg (some fv.2), true) := by
            simp [ueStep, hfv]
          rw [h1, ih, planTT_cons_some hfv']
          rw [childTT_setChildText, planTT_congr (setTT_map_fst _ _ _)]
          simp [applyPlan_cons]

theorem update_element_char (e : Elem) (vals : Values) :
    update_element e vals =
      (applyPlan e (planTT (childTT e.children) vals),
       !(planTT (childTT e.children) vals).isEmpty) := by
  unfold update_element
  rw [ue_fold_char]
  simp

/-- The write plan of the `AD_Element` loop body on the projection. -/
def planE (rules : List (S × Values)) (tts : List (S × Option S)) : List (S × S) :=
  match findTT tts (str "ColumnName") with
  | some (some t) =>
      match findA rules t with
      | some vals => planTT tts vals
      | none => []
  | _ => []

/-- The write plan of the Name branch of the `AD_Window` loop body. -/
def planWName (rules : List (WKey × Values)) (tts : List (S × Option S)) : List (S × S) :=
  match findTT tts (str "Name") with
  | some (some t) =>
      match findA rules (WKey.name t) with
      | some vals => planTT tts vals
      | none => []
  | _ => []

/-- The ID-branch write plan of the `AD_Window` loop body: `some` when the
ID rule matches and writes at least one field (the `continue` case). -/
def planWId (rules : List (WKey × Values)) (tts : List (S × Option S)) :
    Option (List (S × S)) :=
  match findTT tts (str "AD_Window_ID") with
  | some (some t) =>
      match findA rules (WKey.id t) with
      | some vals => if (planTT tts vals).isEmpty then none else some (planTT tts vals)
      | none => none
  | _ => none

/-- The write plan of the `AD_Window` loop body (ID first with `continue`,
then Name). -/
def planW (rules : List (WKey × Values)) (tts : List (S × Option S)) : List (S × S) :=
  match planWId rules tts with
  | some p => p
  | none => planWName rules tts

/-- The write plan of the Name branch of the `AD_Tab` loop body. -/
def planTName (rules : List (TKey × Values)) (tts : List (S × Option S)) : List (S × S) :=
  match findTT tts (str "Name") with
  | some (some t) =>
      match findA rules (TKey.name t) with
      | some vals => planTT tts vals
      | none => []
  | _ => []

/-- The ID-branch write plan of the `AD_Tab` loop body. -/
def planTId (rules : List (TKey × Values)) (tts : List (S × Option S)) :
    Option (List (S × S)) :=
  match findTT tts (str "AD_Tab_ID") with
  | some (some t) =>
      match findA rules (TKey.id t) with
      | some vals => if (planTT tts vals).isEmpty then none else some (planTT tts vals)
      | none => none
  | _ => none

/-- The write plan of the `AD_Tab` loop body. -/
def planT (rules : List (TKey × Values)) (tts : List (S × Option S)) : List (S × S) :=
  match planTId rules tts with
  | some p => p
  | none => planTName rules tts

/-- The write plan of the four ID-only loop bodies. -/
def planById (idTag : S) (rules : List (S × Values)) (tts : List (S × Option S)) :
    List (S × S) :=
  match findTT tts idTag with
  | some (some t) =>
      match findA rules t with
      | some vals => planTT tts vals
      | none => []
  | _ => []

theorem processE_char (rules : List (S × Values)) (e : Elem) :
    (processE rules e).1 = applyPlan e (planE rules (childTT e.children)) := by
  unfold processE planE
  rw [findTT_childTT]
  cases hc : findChild e.children (str "ColumnName") with
  | none => rfl
  | some col =>
      cases ht : col.text with
      | none => simp [ht, applyPlan_nil]
      | some t =>
          simp only [ht, Option.map_some']
          cases hv : findA rules t with
          | none => rfl
          | some vals =>
              simp only [update_element_char]

theorem processById_char (idTag : S) (rules : List (S × Values)) (e : Elem) :
    (processById idTag rules e).1 = applyPlan e (planById idTag rules (childTT e.children)) := by
  unfold processById planById
  rw [findTT_childTT]
  cases hc : findChild e.children idTag with
  | none => rfl
  | some col =>
      cases ht : col.text with
      | none => simp [ht, applyPlan_nil]
      | some t =>
          simp only [ht, Option.map_some']
          cases hv : findA rules t with
          | none => rfl
          | some vals =>
              simp only [update_element_char]

theorem processWName_char (rules : List (WKey × Values)) (e : Elem) :
    (processWName rules e).1 = applyPlan e (planWName rules (childTT e.children)) := by
  unfold processWName planWName
  rw [findTT_childTT]
  cases hc : findChild e.children (str "Name") with
  | none => rfl
  | some nc =>
      cases ht : nc.text with
      | none => simp [ht, applyPlan_nil]
      | some t =>
          simp only [ht, Option.map_some']
          cases hv : findA rules (WKey.name t) with
          | none => rfl
          | some vals =>
              simp only [update_element_char]

theorem processTName_char (rules : List (TKey × Values)) (e : Elem) :
    (processTName rules e).1 = applyPlan e (planTName rules (childTT e.children)) := by
  unfold processTName planTName
  rw [findTT_childTT]
  cases hc : findChild e.children (str "Name") with
  | none => rfl
  | some nc =>
      cases ht : nc.text with
      | none => simp [ht, applyPlan_nil]
      | some t =>
          simp only [ht, Option.map_some']
          cases hv : findA rules (TKey.name t) with
          | none => rfl
          | some vals =>
              simp only [update_element_char]

theorem processW_char (rules : List (WKey × Values)) (e : Elem) :
    (processW rules e).1 = applyPlan e (planW rules (childTT e.children)) := by
  unfold processW planW planWId
  rw [findTT_childTT]
  cases hc : findChild e.children (str "AD_Window_ID") with
  | none => exact processWName_char rules e
  | some idc =>
      cases ht : idc.text with
      | none => simp only [Option.map_some', ht]; exact processWName_char rules e
      | some t =>
          simp only [ht, Option.map_some']
          cases hv : findA rules (WKey.id t) with
          | none => exact processWName_char rules e
          | some vals =>
              simp only [update_element_char]
              by_cases hp : (planTT (childTT e.children) vals).isEmpty
              · simp only [hp, Bool.not_true, if_false, if_true]
                exact processWName_char rules e
              · simp only [hp, Bool.not_false, if_true, if_false]
                rfl

theorem processT_char (rules : List (TKey × Values)) (e : Elem) :
    (processT rules e).1 = applyPlan e (planT rules (childTT e.children)) := by
  unfold processT planT planTId
  rw [findTT_childTT]
  cases hc : findChild e.children (str "AD_Tab_ID") with
  | none => exact processTName_char rules e
  | some idc =>
      cases ht : idc.text with
      | none => simp only [Option.map_some', ht]; exact processTName_char rules e
      | some t =>
          simp only [ht, Option.map_some']
          cases hv : findA rules (TKey.id t) with
          | none => exact processTName_char rules e
          | some vals =>
              simp only [update_element_char]
              by_cases hp : (planTT (childTT e.children) vals).isEmpty
              · simp only [hp, Bool.not_true, if_false, if_true]
                exact processTName_char rules e
              · simp only [hp, Bool.not_false, if_true, if_false]
                rfl

mutual
/-- Same tree shape (child counts at every level). -/
def sameSkelE : Elem → Elem → Bool
  | .mk _ _ _ cs _, .mk _ _ _ ds _ => sameSkelL cs ds
/-- Shape equality of sibling lists. -/
def sameSkelL : ElemList → ElemList → Bool
  | .nil, .nil => true
  | .cons c cs, .cons d ds => sameSkelE c d && sameSkelL cs ds
  | _, _ => false
end

mutual
theorem sameSkelE_refl : ∀ (e : Elem), sameSkelE e e = true
  | .mk _ _ _ cs _ => sameSkelL_refl cs
theorem sameSkelL_refl : ∀ (cs : ElemList), sameSkelL cs cs = true
  | .nil => rfl
  | .cons c cs => by
      show (sameSkelE c c && sameSkelL cs cs) = true
      rw [sameSkelE_refl c, sameSkelL_refl cs]
      rfl
end

theorem sameSkelE_withText : ∀ (f c : Elem) (x : Option S),
    sameSkelE f (c.withText x) = sameSkelE f c
  | .mk _ _ _ _ _, .mk _ _ _ _ _, _ => rfl

theorem sameSkelL_withTexts : ∀ (fcs cs : ElemList) (ts : List (S × Option S)),
    sameSkelL fcs cs = true → sameSkelL fcs (withTexts cs ts) = true
  | fcs, .nil, ts, h => h
  | .nil, .cons c cs, ts, h => by simp [sameSkelL] at h
  | .cons f fs, .cons c cs, [], h => h
  | .cons f fs, .cons c cs, (tg, x) :: ts, h => by
      simp only [sameSkelL, Bool.and_eq_true] at h
      show (sameSkelE f ((c.withText x)) && sameSkelL fs (withTexts cs ts)) = true
      rw [sameSkelE_withText, h.1, sameSkelL_withTexts fs cs ts h.2]
      rfl

theorem sameSkelL_applyPlanL (cs : ElemList) (p : List (S × S)) :
    sameSkelL cs (applyPlanL cs p) = true := by
  rw [applyPlanL_withTexts]
  exact sameSkelL_withTexts cs cs _ (sameSkelL_refl cs)

theorem iterApplyF_eq (tg : S) (h : Elem → Elem × Bool) (ft : S) (fa : List (S × S))
    (fx : Option S) (fcs : ElemList) (fl : Option S) (e : Elem) :
    iterApplyF tg h (.mk ft fa fx fcs fl) e =
      match (if e.tag = tg then (h e).1 else e) with
      | .mk t a x cs l => .mk t a x (iterApplyFL tg h fcs cs) l := rfl

mutual
theorem iterApplyF_fuel (tg : S) (h : Elem → Elem × Bool) :
    ∀ (f f' e : Elem), sameSkelE f f' = true → iterApplyF tg h f e = iterApplyF tg h f' e
  | .mk _ _ _ fcs _, .mk _ _ _ f'cs _, e, hs => by
      rw [iterApplyF_eq, iterApplyF_eq]
      have hsl : sameSkelL fcs f'cs = true := hs
      cases hE : (if e.tag = tg then (h e).1 else e) with
      | mk t a x cs l =>
          show Elem.mk t a x (iterApplyFL tg h fcs cs) l =
            Elem.mk t a x (iterApplyFL tg h f'cs cs) l
          rw [iterApplyFL_fuel tg h fcs f'cs cs hsl]
theorem iterApplyFL_fuel (tg : S) (h : Elem → Elem × Bool) :
    ∀ (fcs f'cs cs : ElemList), sameSkelL fcs f'cs = true →
    iterApplyFL tg h fcs cs = iterApplyFL tg h f'cs cs
  | .nil, .nil, cs, _ => rfl
  | .nil, .cons _ _, cs, hs => by simp [sameSkelL] at hs
  | .cons _ _, .nil, cs, hs => by simp [sameSkelL] at hs
  | .cons f fs, .cons f' fs', .nil, _ => rfl
  | .cons f fs, .cons f' fs', .cons c cs, hs => by
      simp only [sameSkelL, Bool.and_eq_true] at hs
      show ElemList.cons (iterApplyF tg h f c) (iterApplyFL tg h fs cs) = _
      rw [iterApplyF_fuel tg h f f' c hs.1, iterApplyFL_fuel tg h fs fs' cs hs.2]
      rfl
end

mutual
theorem iterApplyF_skel (tg : S) (h : Elem → Elem × Bool)
    (F : List (S × Option S) → List (S × S))
    (hchar : ∀ e, (h e).1 = applyPlan e (F (childTT e.children))) :
    ∀ (f e : Elem), sameSkelE f e = true → sameSkelE f (iterApplyF tg h f e) = true
  | .mk ft fa fx fcs fl, .mk t a x cs l, hs => by
      rw [iterApplyF_eq]
      by_cases htg : (Elem.mk t a x cs l).tag = tg
      · rw [if_pos htg, hchar, applyPlan_mk]
        show sameSkelL fcs (iterApplyFL tg h fcs (applyPlanL cs (F (childTT cs)))) = true
        apply iterApplyFL_skel tg h F hchar
        rw [applyPlanL_withTexts]
        exact sameSkelL_withTexts fcs cs _ hs
      · rw [if_neg htg]
        show sameSkelL fcs (iterApplyFL tg h fcs cs) = true
        exact iterApplyFL_skel tg h F hchar fcs cs hs
theorem iterApplyFL_skel (tg : S) (h : Elem → Elem × Bool)
    (F : List (S × Option S) → List (S × S))
    (hchar : ∀ e, (h e).1 = applyPlan e (F (childTT e.children))) :
    ∀ (fcs cs : ElemList), sameSkelL fcs cs = true →
    sameSkelL fcs (iterApplyFL tg h fcs cs) = true
  | .nil, cs, hs => hs
  | .cons f fs, .nil, hs => by simp [sameSkelL] at hs
  | .cons f fs, .cons c cs, hs => by
      simp only [sameSkelL, Bool.and_eq_true] at hs
      show (sameSkelE f (iterApplyF tg h f c) && sameSkelL fs (iterApplyFL tg h fs cs)) = true
      rw [iterApplyF_skel tg h F hchar f c hs.1, iterApplyFL_skel tg h F hchar fs cs hs.2]
      rfl
end

theorem iterApplyF_tag_text (tg : S) (h : Elem → Elem × Bool)
    (F : List (S × Option S) → List (S × S))
    (hchar : ∀ e, (h e).1 = applyPlan e (F (childTT e.children)))
    (f e : Elem) :
    (iterApplyF tg h f e).tag = e.tag ∧ (iterApplyF tg h f e).text = e.text := by
  cases f with
  | mk ft fa fx fcs fl =>
      cases e with
      | mk t a x cs l =>
          rw [iterApplyF_eq]
          by_cases htg : (Elem.mk t a x cs l).tag = tg
          · rw [if_pos htg, hchar, applyPlan_mk]
            exact ⟨rfl, rfl⟩
          · rw [if_neg htg]
            exact ⟨rfl, rfl⟩

theorem childTT_iterApplyFL (tg : S) (h : Elem → Elem × Bool)
    (F : List (S × Option S) → List (S × S))
    (hchar : ∀ e, (h e).1 = applyPlan e (F (childTT e.children))) :
    ∀ (fcs cs : ElemList), childTT (iterApplyFL tg h fcs cs) = childTT cs
  | .nil, cs => rfl
  | .cons f fs, .nil => rfl
  | .cons f fs, .cons c cs => by
      show ((iterApplyF tg h f c).tag, (iterApplyF tg h f c).text) ::
        childTT (iterApplyFL tg h fs cs) = (c.tag, c.text) :: childTT cs
      rw [(iterApplyF_tag_text tg h F hchar f c).1, (iterApplyF_tag_text tg h F hchar f c).2,
        childTT_iterApplyFL tg h F hchar fs cs]

theorem iterApplyF_withText (tg : S) (h : Elem → Elem × Bool)
    (F : List (S × Option S) → List (S × S))
    (hchar : ∀ e, (h e).1 = applyPlan e (F (childTT e.children)))
    (f e : Elem) (x2 : Option S) :
    iterApplyF tg h f (e.withText x2) = (iterApplyF tg h f e).withText x2 := by
  cases f with
  | mk ft fa fx fcs fl =>
      cases e with
      | mk t a x cs l =>
          rw [show (Elem.mk t a x cs l).withText x2 = .mk t a x2 cs l from rfl,
            iterApplyF_eq, iterApplyF_eq]
          by_cases htg : t = tg
          · rw [if_pos (show (Elem.mk t a x2 cs l).tag = tg from htg),
              if_pos (show (Elem.mk t a x cs l).tag = tg from htg), hchar, hchar,
              applyPlan_mk, applyPlan_mk]
            rfl
          · rw [if_neg (show ¬(Elem.mk t a x2 cs l).tag = tg from htg),
              if_neg (show ¬(Elem.mk t a x cs l).tag = tg from htg)]
            rfl

theorem iterApplyFL_withTexts (tg : S) (h : Elem → Elem × Bool)
    (F : List (S × Option S) → List (S × S))
    (hchar : ∀ e, (h e).1 = applyPlan e (F (childTT e.children))) :
    ∀ (fcs cs : ElemList) (ts : List (S × Option S)),
    iterApplyFL tg h fcs (withTexts cs ts) = withTexts (iterApplyFL tg h fcs cs) ts
  | .nil, cs, ts => rfl
  | .cons f fs, .nil, ts => rfl
  | .cons f fs, .cons c cs, [] => rfl
  | .cons f fs, .cons c cs, (t0, x0) :: ts => by
      show ElemList.cons (iterApplyF tg h f (c.withText x0))
          (iterApplyFL tg h fs (withTexts cs ts)) = _
      rw [iterApplyF_withText tg h F hchar f c x0,
        iterApplyFL_withTexts tg h F hchar fs cs ts]
      rfl

mutual
theorem iterApplyF_fix (tg : S) (h : Elem → Elem × Bool)
    (F : List (S × Option S) → List (S × S))
    (hchar : ∀ e, (h e).1 = applyPlan e (F (childTT e.children)))
    (hstab : ∀ tts, F (applyPlanTT tts (F tts)) = F tts)
    (hnd : ∀ tts, ((F tts).map Prod.fst).Nodup) :
    ∀ (f e : Elem), sameSkelE f e = true →
    iterApplyF tg h f (iterApplyF tg h f e) = iterApplyF tg h f e
  | .mk ft fa fx fcs fl, .mk t a x cs l, hs => by
      have hsl : sameSkelL fcs cs = true := hs
      by_cases htg : t = tg
      · have hin : iterApplyF tg h (.mk ft fa fx fcs fl) (.mk t a x cs l) =
            .mk t a x (iterApplyFL tg h fcs (applyPlanL cs (F (childTT cs)))) l := by
          rw [iterApplyF_eq, if_pos (show (Elem.mk t a x cs l).tag = tg from htg),
            hchar, applyPlan_mk]
          rfl
        rw [hin]
        have hct : childTT (iterApplyFL tg h fcs (applyPlanL cs (F (childTT cs)))) =
            applyPlanTT (childTT cs) (F (childTT cs)) := by
          rw [childTT_iterApplyFL tg h F hchar, childTT_applyPlanL]
        have hroot : (h (.mk t a x (iterApplyFL tg h fcs
            (applyPlanL cs (F (childTT cs)))) l)).1 =
            .mk t a x (iterApplyFL tg h fcs (applyPlanL cs (F (childTT cs)))) l := by
          rw [hchar, applyPlan_mk]
          show Elem.mk t a x (applyPlanL (iterApplyFL tg h fcs (applyPlanL cs (F (childTT cs))))
            (F (childTT (iterApplyFL tg h fcs (applyPlanL cs (F (childTT cs))))))) l = _
          rw [hct, hstab, applyPlanL_withTexts, hct, applyPlanTT_idem _ (hnd _), ← hct,
            withTexts_self]
        rw [iterApplyF_eq, if_pos (show (Elem.mk t a x (iterApplyFL tg h fcs
            (applyPlanL cs (F (childTT cs)))) l).tag = tg from htg), hroot]
        show Elem.mk t a x (iterApplyFL tg h fcs (iterApplyFL tg h fcs
            (applyPlanL cs (F (childTT cs))))) l = _
        rw [iterApplyFL_fix tg h F hchar hstab hnd fcs (applyPlanL cs (F (childTT cs)))
          (by rw [applyPlanL_withTexts]; exact sameSkelL_withTexts fcs cs _ hsl)]
      · have hin : iterApplyF tg h (.mk ft fa fx fcs fl) (.mk t a x cs l) =
            .mk t a x (iterApplyFL tg h fcs cs) l := by
          rw [iterApplyF_eq, if_neg (show ¬(Elem.mk t a x cs l).tag = tg from htg)]
        rw [hin, iterApplyF_eq, if_neg (show ¬(Elem.mk t a x
          (iterApplyFL tg h fcs cs) l).tag = tg from htg)]
        show Elem.mk t a x (iterApplyFL tg h fcs (iterApplyFL tg h fcs cs)) l = _
        rw [iterApplyFL_fix tg h F hchar hstab hnd fcs cs hsl]
theorem iterApplyFL_fix (tg : S) (h : Elem → Elem × Bool)
    (F : List (S × Option S) → List (S × S))
    (hchar : ∀ e, (h e).1 = applyPlan e (F (childTT e.children)))
    (hstab : ∀ tts, F (applyPlanTT tts (F tts)) = F tts)
    (hnd : ∀ tts, ((F tts).map Prod.fst).Nodup) :
    ∀ (fcs cs : ElemList), sameSkelL fcs cs = true →
    iterApplyFL tg h fcs (iterApplyFL tg h fcs cs) = iterApplyFL tg h fcs cs
  | .nil, cs, _ => rfl
  | .cons f fs, .nil, _ => rfl
  | .cons f fs, .cons c cs, hs => by
      simp only [sameSkelL, Bool.and_eq_true] at hs
      show ElemList.cons (iterApplyF tg h f (iterApplyF tg h f c))
          (iterApplyFL tg h fs (iterApplyFL tg h fs cs)) = _
      rw [iterApplyF_fix tg h F hchar hstab hnd f c hs.1,
        iterApplyFL_fix tg h F hchar hstab hnd fs cs hs.2]
      rfl
end

mutual
theorem iterApplyF_pres (tg1 tg2 : S) (h1 h2 : Elem → Elem × Bool)
    (F1 F2 : List (S × Option S) → List (S × S))
    (hchar1 : ∀ e, (h1 e).1 = applyPlan e (F1 (childTT e.children)))
    (hchar2 : ∀ e, (h2 e).1 = applyPlan e (F2 (childTT e.children)))
    (hne : tg1 ≠ tg2) :
    ∀ (f e : Elem), sameSkelE f e = true → iterApplyF tg1 h1 f e = e →
    iterApplyF tg1 h1 f (iterApplyF tg2 h2 f e) = iterApplyF tg2 h2 f e
  | .mk ft fa fx fcs fl, .mk t a x cs l, hs, hfix => by
      have hsl : sameSkelL fcs cs = true := hs
      by_cases htg1 : t = tg1
      · have htg2 : ¬ t = tg2 := fun he => hne (htg1 ▸ he)
        have hfix0 : iterApplyF tg1 h1 (.mk ft fa fx fcs fl) (.mk t a x cs l) =
            .mk t a x (iterApplyFL tg1 h1 fcs (applyPlanL cs (F1 (childTT cs)))) l := by
          rw [iterApplyF_eq, if_pos (show (Elem.mk t a x cs l).tag = tg1 from htg1),
            hchar1, applyPlan_mk]
          rfl
        have hfixc : iterApplyFL tg1 h1 fcs (applyPlanL cs (F1 (childTT cs))) = cs :=
          congrArg Elem.children (hfix0.symm.trans hfix)
        have hN : applyPlanTT (childTT cs) (F1 (childTT cs)) = childTT cs := by
          have hc := congrArg childTT hfixc
          rw [childTT_iterApplyFL tg1 h1 F1 hchar1, childTT_applyPlanL] at hc
          exact hc
        have hcs1 : applyPlanL cs (F1 (childTT cs)) = cs := applyPlanL_noop hN
        rw [hcs1] at hfixc
        have hP2 : iterApplyF tg2 h2 (.mk ft fa fx fcs fl) (.mk t a x cs l) =
            .mk t a x (iterApplyFL tg2 h2 fcs cs) l := by
          rw [iterApplyF_eq, if_neg (show ¬(Elem.mk t a x cs l).tag = tg2 from htg2)]
        rw [hP2]
        have hq : childTT (iterApplyFL tg2 h2 fcs cs) = childTT cs :=
          childTT_iterApplyFL tg2 h2 F2 hchar2 fcs cs
        have hroot : (h1 (.mk t a x (iterApplyFL tg2 h2 fcs cs) l)).1 =
            .mk t a x (iterApplyFL tg2 h2 fcs cs) l := by
          rw [hchar1, applyPlan_mk]
          show Elem.mk t a x (applyPlanL (iterApplyFL tg2 h2 fcs cs)
            (F1 (childTT (iterApplyFL tg2 h2 fcs cs)))) l = _
          rw [hq, applyPlanL_withTexts, hq, hN, ← hq, withTexts_self]
        rw [iterApplyF_eq, if_pos (show (Elem.mk t a x
          (iterApplyFL tg2 h2 fcs cs) l).tag = tg1 from htg1), hroot]
        show Elem.mk t a x (iterApplyFL tg1 h1 fcs (iterApplyFL tg2 h2 fcs cs)) l = _
        rw [iterApplyFL_pres tg1 tg2 h1 h2 F1 F2 hchar1 hchar2 hne fcs cs hsl hfixc]
      · have hfix0 : iterApplyF tg1 h1 (.mk ft fa fx fcs fl) (.mk t a x cs l) =
            .mk t a x (iterApplyFL tg1 h1 fcs cs) l := by
          rw [iterApplyF_eq, if_neg (show ¬(Elem.mk t a x cs l).tag = tg1 from htg1)]
        have hstar : iterApplyFL tg1 h1 fcs cs = cs :=
          congrArg Elem.children (hfix0.symm.trans hfix)
        by_cases htg2 : t = tg2
        · have hP2 : iterApplyF tg2 h2 (.mk ft fa fx fcs fl) (.mk t a x cs l) =
              .mk t a x (iterApplyFL tg2 h2 fcs (applyPlanL cs (F2 (childTT cs)))) l := by
            rw [iterApplyF_eq, if_pos (show (Elem.mk t a x cs l).tag = tg2 from htg2),
              hchar2, applyPlan_mk]
            rfl
          rw [hP2]
          have hedit : iterApplyFL tg1 h1 fcs (applyPlanL cs (F2 (childTT cs))) =
              applyPlanL cs (F2 (childTT cs)) := by
            rw [applyPlanL_withTexts, iterApplyFL_withTexts tg1 h1 F1 hchar1, hstar]
          have hskel2 : sameSkelL fcs (applyPlanL cs (F2 (childTT cs))) = true := by
            rw [applyPlanL_withTexts]
            exact sameSkelL_withTexts fcs cs _ hsl
          rw [iterApplyF_eq, if_neg (show ¬(Elem.mk t a x (iterApplyFL tg2 h2 fcs
            (applyPlanL cs (F2 (childTT cs)))) l).tag = tg1 from htg1)]
          show Elem.mk t a x (iterApplyFL tg1 h1 fcs (iterApplyFL tg2 h2 fcs
            (applyPlanL cs (F2 (childTT cs))))) l = _
          rw [iterApplyFL_pres tg1 tg2 h1 h2 F1 F2 hchar1 hchar2 hne fcs
            (applyPlanL cs (F2 (childTT cs))) hskel2 hedit]
        · have hP2 : iterApplyF tg2 h2 (.mk ft fa fx fcs fl) (.mk t a x cs l) =
              .mk t a x (iterApplyFL tg2 h2 fcs cs) l := by
            rw [iterApplyF_eq, if_neg (show ¬(Elem.mk t a x cs l).tag = tg2 from htg2)]
          rw [hP2, iterApplyF_eq, if_neg (show ¬(Elem.mk t a x
            (iterApplyFL tg2 h2 fcs cs) l).tag = tg1 from htg1)]
          show Elem.mk t a x (iterApplyFL tg1 h1 fcs (iterApplyFL tg2 h2 fcs cs)) l = _
          rw [iterApplyFL_pres tg1 tg2 h1 h2 F1 F2 hchar1 hchar2 hne fcs cs hsl hstar]
theorem iterApplyFL_pres (tg1 tg2 : S) (h1 h2 : Elem → Elem × Bool)
    (F1 F2 : List (S × Option S) → List (S × S))
    (hchar1 : ∀ e, (h1 e).1 = applyPlan e (F1 (childTT e.children)))
    (hchar2 : ∀ e, (h2 e).1 = applyPlan e (F2 (childTT e.children)))
    (hne : tg1 ≠ tg2) :
    ∀ (fcs cs : ElemList), sameSkelL fcs cs = true →
    iterApplyFL tg1 h1 fcs cs = cs →
    iterApplyFL tg1 h1 fcs (iterApplyFL tg2 h2 fcs cs) = iterApplyFL tg2 h2 fcs cs
  | .nil, cs, _, _ => rfl
  | .cons f fs, .nil, _, _ => rfl
  | .cons f fs, .cons c cs, hs, hfix => by
      simp only [sameSkelL, Bool.and_eq_true] at hs
      have hfix2 : ElemList.cons (iterApplyF tg1 h1 f c) (iterApplyFL tg1 h1 fs cs) =
          ElemList.cons c cs := hfix
      injection hfix2 with hh ht
      show ElemList.cons (iterApplyF tg1 h1 f (iterApplyF tg2 h2 f c))
          (iterApplyFL tg1 h1 fs (iterApplyFL tg2 h2 fs cs)) = _
      rw [iterApplyF_pres tg1 tg2 h1 h2 F1 F2 hchar1 hchar2 hne f c hs.1 hh,
        iterApplyFL_pres tg1 tg2 h1 h2 F1 F2 hchar1 hchar2 hne fs cs hs.2 ht]
      rfl
end

/-- A field string never resolves to the given child tag: none of the
three variants `update_element` tries equals it. -/
def avoidsTag (f t : S) : Prop := pyCapitalize f ≠ t ∧ f ≠ t ∧ pyLower f ≠ t

/-- The shape `parse_sql_file` guarantees for one rule's field map: fields
upper-cased and pairwise distinct, and no field resolves to any of the
pass's key child tags. -/
def goodVals (keyTags : List S) (vals : Values) : Prop :=
  ((vals.map Prod.fst).Nodup) ∧
  ∀ fv ∈ vals, (∀ c ∈ fv.1, c.isLower = false) ∧ ∀ t ∈ keyTags, avoidsTag fv.1 t

/-- Goodness of a whole rule set: every rule's field map is good for the
key tags its pass reads. -/
def goodUpdates (u : Updates) : Prop :=
  (∀ kv ∈ u.adElement, goodVals [str "ColumnName"] kv.2) ∧
  (∀ kv ∈ u.adWindow, goodVals [str "AD_Window_ID", str "Name"] kv.2) ∧
  (∀ kv ∈ u.adTab, goodVals [str "AD_Tab_ID", str "Name"] kv.2) ∧
  (∀ kv ∈ u.adField, goodVals [str "AD_Field_ID"] kv.2) ∧
  (∀ kv ∈ u.adProcess, goodVals [str "AD_Process_ID"] kv.2) ∧
  (∀ kv ∈ u.adForm, goodVals [str "AD_Form_ID"] kv.2) ∧
  (∀ kv ∈ u.adMenu, goodVals [str "AD_Menu_ID"] kv.2)

theorem not_lower_range {c : Char} (h : c.isLower = false) :
    c.toNat < 97 ∨ 122 < c.toNat := by
  by_contra hcon
  push_neg at hcon
  have hl : c.isLower = true := by
    rw [char_isLower_iff]
    simp only [Bool.and_eq_true, decide_eq_true_eq]
    omega
  rw [hl] at h
  exact absurd h (by simp)

theorem toUpper_not_lower {c : Char} (h : c.isLower = false) : c.toUpper = c := by
  apply char_toNat_inj
  rw [toUpper_toNat]
  have h2 := not_lower_range h
  rw [if_neg (by omega)]

theorem toUpper_toLower_not_lower {c : Char} (h : c.isLower = false) :
    c.toLower.toUpper = c := by
  apply char_toNat_inj
  rw [toUpper_toNat, toLower_toNat]
  have h2 := not_lower_range h
  by_cases h1 : 65 ≤ c.toNat ∧ c.toNat ≤ 90
  · rw [if_pos h1, if_pos (by omega)]
    omega
  · rw [if_neg h1, if_neg (by omega)]

theorem pyUpper_of_upper {f : S} (h : ∀ c ∈ f, c.isLower = false) : pyUpper f = f := by
  unfold pyUpper
  induction f with
  | nil => rfl
  | cons c cs ih =>
      rw [List.map_cons, toUpper_not_lower (h c (by simp)),
        ih (fun d hd => h d (by simp [hd]))]

theorem map_upper_lower {cs : S} (h : ∀ c ∈ cs, c.isLower = false) :
    cs.map (Char.toUpper ∘ Char.toLower) = cs := by
  induction cs with
  | nil => rfl
  | cons d ds ih =>
      rw [List.map_cons, show (Char.toUpper ∘ Char.toLower) d = d.toLower.toUpper from rfl,
        toUpper_toLower_not_lower (h d (by simp)), ih (fun x hx => h x (by simp [hx]))]

theorem pyUpper_pyLower {f : S} (h : ∀ c ∈ f, c.isLower = false) :
    pyUpper (pyLower f) = f := by
  unfold pyUpper pyLower
  rw [List.map_map, map_upper_lower h]

theorem pyUpper_pyCapitalize {f : S} (h : ∀ c ∈ f, c.isLower = false) :
    pyUpper (pyCapitalize f) = f := by
  cases f with
  | nil => rfl
  | cons c cs =>
      unfold pyCapitalize pyUpper
      rw [List.map_cons, List.map_map,
        toUpper_not_lower (toUpper_isLower c), toUpper_not_lower (h c (by simp)),
        map_upper_lower (fun d hd => h d (by simp [hd]))]

theorem variant_eq_upper {f t : S} (h : ∀ c ∈ f, c.isLower = false)
    (hv : t = pyCapitalize f ∨ t = f ∨ t = pyLower f) : pyUpper t = f := by
  rcases hv with hv | hv | hv
  · rw [hv, pyUpper_pyCapitalize h]
  · rw [hv, pyUpper_of_upper h]
  · rw [hv, pyUpper_pyLower h]

theorem findVariantTT_mem {tts : List (S × Option S)} {f t : S}
    (h : findVariantTT tts f = some t) :
    t = pyCapitalize f ∨ t = f ∨ t = pyLower f := by
  unfold findVariantTT at h
  by_cases h1 : hasTT tts (pyCapitalize f)
  · rw [if_pos h1] at h
    left
    exact (Option.some.inj h).symm
  · rw [if_neg h1] at h
    by_cases h2 : hasTT tts f
    · rw [if_pos h2] at h
      right; left
      exact (Option.some.inj h).symm
    · rw [if_neg h2] at h
      have hm := List.mem_of_find?_eq_some h
      simp only [List.mem_cons, List.mem_singleton, List.not_mem_nil, or_false] at hm
      rcases hm with hm | hm | hm
      · right; left; exact hm
      · left; exact hm
      · right; right; exact hm

theorem planTT_mem {tts : List (S × Option S)} {vals : Values} {tv : S × S}
    (h : tv ∈ planTT tts vals) :
    ∃ fv ∈ vals, findVariantTT tts fv.1 = some tv.1 := by
  unfold planTT at h
  obtain ⟨fv, hfv, hmap⟩ := List.mem_filterMap.mp h
  cases hv : findVariantTT tts fv.1 with
  | none => rw [hv] at hmap; simp at hmap
  | some tg =>
      rw [hv] at hmap
      have htv : tv = (tg, fv.2) := by
        simp only [Option.map_some'] at hmap
        exact (Option.some.inj hmap).symm
      exact ⟨fv, hfv, by rw [hv, htv]⟩

theorem planTT_avoid {tts : List (S × Option S)} {vals : Values} {k : S}
    (hg : ∀ fv ∈ vals, avoidsTag fv.1 k) :
    ∀ tv ∈ planTT tts vals, tv.1 ≠ k := by
  intro tv htv
  obtain ⟨fv, hfv, hres⟩ := planTT_mem htv
  rcases findVariantTT_mem hres with h | h | h
  · rw [h]; exact (hg fv hfv).1
  · rw [h]; exact (hg fv hfv).2.1
  · rw [h]; exact (hg fv hfv).2.2

theorem planTT_nodup (tts : List (S × Option S)) : ∀ (vals : Values),
    (vals.map Prod.fst).Nodup →
    (∀ fv ∈ vals, ∀ c ∈ fv.1, c.isLower = false) →
    ((planTT tts vals).map Prod.fst).Nodup := by
  intro vals
  induction vals with
  | nil => intro _ _; simp [planTT]
  | cons fv rest ih =>
      intro hnd hup
      simp only [List.map_cons, List.nodup_cons] at hnd
      cases hv : findVariantTT tts fv.1 with
      | none =>
          rw [planTT_cons_none hv]
          exact ih hnd.2 (fun x hx => hup x (by simp [hx]))
      | some tg =>
          rw [planTT_cons_some hv, List.map_cons, List.nodup_cons]
          refine ⟨?_, ih hnd.2 (fun x hx => hup x (by simp [hx]))⟩
          intro hmem
          obtain ⟨tv, htv, htg⟩ := List.mem_map.mp hmem
          obtain ⟨fv2, hfv2, hres2⟩ := planTT_mem htv
          have h1 : pyUpper tg = fv.1 :=
            variant_eq_upper (hup fv (by simp)) (findVariantTT_mem hv)
          have h2 : pyUpper tv.1 = fv2.1 :=
            variant_eq_upper ((hup fv2 (by simp [hfv2]))) (findVariantTT_mem hres2)
          rw [htg] at h2
          have h3 : fv.1 = fv2.1 := h1.symm.trans h2
          apply hnd.1
          rw [h3]
          exact List.mem_map_of_mem Prod.fst hfv2

theorem findA_mem {A B : Type} [DecidableEq A] {m : List (A × B)} {k : A} {v : B}
    (h : findA m k = some v) : ∃ kv ∈ m, kv.2 = v := by
  unfold findA at h
  cases hf : m.find? (fun p => p.1 = k) with
  | none => rw [hf] at h; simp at h
  | some kv =>
      rw [hf] at h
      simp only [Option.map_some'] at h
      exact ⟨kv, List.mem_of_find?_eq_some hf, Option.some.inj h⟩

theorem planById_cases (idTag : S) (rules : List (S × Values)) (tts : List (S × Option S)) :
    planById idTag rules tts = [] ∨
    ∃ kv ∈ rules, planById idTag rules tts = planTT tts kv.2 := by
  unfold planById
  cases h1 : findTT tts idTag with
  | none => left; rfl
  | some o =>
      cases o with
      | none => left; rfl
      | some t =>
          simp only []
          cases h2 : findA rules t with
          | none => left; rfl
          | some vals =>
              obtain ⟨kv, hkv, hv⟩ := findA_mem h2
              subst hv
              right
              exact ⟨kv, hkv, rfl⟩

theorem planById_nodup (idTag : S) (rules : List (S × Values))
    (hg : ∀ kv ∈ rules, goodVals [idTag] kv.2) (tts : List (S × Option S)) :
    ((planById idTag rules tts).map Prod.fst).Nodup := by
  rcases planById_cases idTag rules tts with hc | ⟨kv, hkv, hc⟩
  · rw [hc]; simp
  · rw [hc]
    exact planTT_nodup tts kv.2 (hg kv hkv).1 (fun fv hfv => ((hg kv hkv).2 fv hfv).1)

theorem planById_avoid (idTag : S) (rules : List (S × Values))
    (hg : ∀ kv ∈ rules, goodVals [idTag] kv.2) (tts : List (S × Option S)) :
    ∀ tv ∈ planById idTag rules tts, tv.1 ≠ idTag := by
  rcases planById_cases idTag rules tts with hc | ⟨kv, hkv, hc⟩
  · rw [hc]; simp
  · rw [hc]
    exact planTT_avoid (fun fv hfv => ((hg kv hkv).2 fv hfv).2 idTag (by simp))

theorem planById_congr2 (idTag : S) (rules : List (S × Values))
    {tts tts2 : List (S × Option S)} (hfst : tts.map Prod.fst = tts2.map Prod.fst)
    (hfid : findTT tts idTag = findTT tts2 idTag) :
    planById idTag rules tts = planById idTag rules tts2 := by
  unfold planById
  rw [hfid]
  cases h1 : findTT tts2 idTag with
  | none => rfl
  | some o =>
      cases o with
      | none => rfl
      | some t =>
          simp only []
          cases h2 : findA rules t with
          | none => rfl
          | some vals => simp only [planTT_congr hfst]

theorem planById_stab (idTag : S) (rules : List (S × Values))
    (hg : ∀ kv ∈ rules, goodVals [idTag] kv.2) (tts : List (S × Option S)) :
    planById idTag rules (applyPlanTT tts (planById idTag rules tts)) =
      planById idTag rules tts :=
  planById_congr2 idTag rules (applyPlanTT_map_fst _ tts)
    (findTT_applyPlanTT _ (planById_avoid idTag rules hg tts) tts)

theorem planE_eq_planById (rules : List (S × Values)) (tts : List (S × Option S)) :
    planE rules tts = planById (str "ColumnName") rules tts := rfl

theorem planWName_cases (rules : List (WKey × Values)) (tts : List (S × Option S)) :
    planWName rules tts = [] ∨
    ∃ kv ∈ rules, planWName rules tts = planTT tts kv.2 := by
  unfold planWName
  cases h1 : findTT tts (str "Name") with
  | none => left; rfl
  | some o =>
      cases o with
      | none => left; rfl
      | some t =>
          simp only []
          cases h2 : findA rules (WKey.name t) with
          | none => left; rfl
          | some vals =>
              obtain ⟨kv, hkv, hv⟩ := findA_mem h2
              subst hv
              right
              exact ⟨kv, hkv, rfl⟩

theorem planW_cases (rules : List (WKey × Values)) (tts : List (S × Option S)) :
    planW rules tts = [] ∨
    ∃ kv ∈ rules, planW rules tts = planTT tts kv.2 := by
  unfold planW
  cases hid : planWId rules tts with
  | none =>
      show planWName rules tts = [] ∨ ∃ kv ∈ rules, planWName rules tts = planTT tts kv.2
      exact planWName_cases rules tts
  | some p =>
      show p = [] ∨ ∃ kv ∈ rules, p = planTT tts kv.2
      unfold planWId at hid
      cases h1 : findTT tts (str "AD_Window_ID") with
      | none => rw [h1] at hid; simp at hid
      | some o =>
          cases o with
          | none => rw [h1] at hid; simp at hid
          | some t =>
              rw [h1] at hid
              simp only [] at hid
              cases h2 : findA rules (WKey.id t) with
              | none => rw [h2] at hid; simp at hid
              | some vals =>
                  rw [h2] at hid
                  simp only [] at hid
                  by_cases hp : (planTT tts vals).isEmpty
                  · rw [if_pos hp] at hid
                    exact absurd hid (by simp)
                  · rw [if_neg hp] at hid
                    obtain ⟨kv, hkv, hv⟩ := findA_mem h2
                    subst hv
                    right
                    exact ⟨kv, hkv, (Option.some.inj hid).symm⟩

theorem planW_nodup (rules : List (WKey × Values))
    (hg : ∀ kv ∈ rules, goodVals [str "AD_Window_ID", str "Name"] kv.2)
    (tts : List (S × Option S)) :
    ((planW rules tts).map Prod.fst).Nodup := by
  rcases planW_cases rules tts with hc | ⟨kv, hkv, hc⟩
  · rw [hc]; simp
  · rw [hc]
    exact planTT_nodup tts kv.2 (hg kv hkv).1 (fun fv hfv => ((hg kv hkv).2 fv hfv).1)

theorem planW_avoid (rules : List (WKey × Values))
    (hg : ∀ kv ∈ rules, goodVals [str "AD_Window_ID", str "Name"] kv.2)
    (tts : List (S × Option S)) (k : S) (hk : k ∈ [str "AD_Window_ID", str "Name"]) :
    ∀ tv ∈ planW rules tts, tv.1 ≠ k := by
  rcases planW_cases rules tts with hc | ⟨kv, hkv, hc⟩
  · rw [hc]; simp
  · rw [hc]
    exact planTT_avoid (fun fv hfv => ((hg kv hkv).2 fv hfv).2 k hk)

theorem planWName_congr2 (rules : List (WKey × Values))
    {tts tts2 : List (S × Option S)} (hfst : tts.map Prod.fst = tts2.map Prod.fst)
    (hfnm : findTT tts (str "Name") = findTT tts2 (str "Name")) :
    planWName rules tts = planWName rules tts2 := by
  unfold planWName
  rw [hfnm]
  cases h1 : findTT tts2 (str "Name") with
  | none => rfl
  | some o =>
      cases o with
      | none => rfl
      | some t =>
          simp only []
          cases h2 : findA rules (WKey.name t) with
          | none => rfl
          | some vals => simp only [planTT_congr hfst]

theorem planWId_congr2 (rules : List (WKey × Values))
    {tts tts2 : List (S × Option S)} (hfst : tts.map Prod.fst = tts2.map Prod.fst)
    (hfid : findTT tts (str "AD_Window_ID") = findTT tts2 (str "AD_Window_ID")) :
    planWId rules tts = planWId rules tts2 := by
  unfold planWId
  rw [hfid]
  cases h1 : findTT tts2 (str "AD_Window_ID") with
  | none => rfl
  | some o =>
      cases o with
      | none => rfl
      | some t =>
          simp only []
          cases h2 : findA rules (WKey.id t) with
          | none => rfl
          | some vals => simp only [planTT_congr hfst]

theorem planW_congr2 (rules : List (WKey × Values))
    {tts tts2 : List (S × Option S)} (hfst : tts.map Prod.fst = tts2.map Prod.fst)
    (hfid : findTT tts (str "AD_Window_ID") = findTT tts2 (str "AD_Window_ID"))
    (hfnm : findTT tts (str "Name") = findTT tts2 (str "Name")) :
    planW rules tts = planW rules tts2 := by
  unfold planW
  rw [planWId_congr2 rules hfst hfid, planWName_congr2 rules hfst hfnm]

theorem planW_stab (rules : List (WKey × Values))
    (hg : ∀ kv ∈ rules, goodVals [str "AD_Window_ID", str "Name"] kv.2)
    (tts : List (S × Option S)) :
    planW rules (applyPlanTT tts (planW rules tts)) = planW rules tts :=
  planW_congr2 rules (applyPlanTT_map_fst _ tts)
    (findTT_applyPlanTT _ (planW_avoid rules hg tts (str "AD_Window_ID") (by simp)) tts)
    (findTT_applyPlanTT _ (planW_avoid rules hg tts (str "Name") (by simp)) tts)

theorem planTName_cases (rules : List (TKey × Values)) (tts : List (S × Option S)) :
    planTName rules tts = [] ∨
    ∃ kv ∈ rules, planTName rules tts = planTT tts kv.2 := by
  unfold planTName
  cases h1 : findTT tts (str "Name") with
  | none => left; rfl
  | some o =>
      cases o with
      | none => left; rfl
      | some t =>
          simp only []
          cases h2 : findA rules (TKey.name t) with
          | none => left; rfl
          | some vals =>
              obtain ⟨kv, hkv, hv⟩ := findA_mem h2
              subst hv
              right
              exact ⟨kv, hkv, rfl⟩

theorem planT_cases (rules : List (TKey × Values)) (tts : List (S × Option S)) :
    planT rules tts = [] ∨
    ∃ kv ∈ rules, planT rules tts = planTT tts kv.2 := by
  unfold planT
  cases hid : planTId rules tts with
  | none =>
      show planTName rules tts = [] ∨ ∃ kv ∈ rules, planTName rules tts = planTT tts kv.2
      exact planTName_cases rules tts
  | some p =>
      show p = [] ∨ ∃ kv ∈ rules, p = planTT tts kv.2
      unfold planTId at hid
      cases h1 : findTT tts (str "AD_Tab_ID") with
      | none => rw [h1] at hid; simp at hid
      | some o =>
          cases o with
          | none => rw [h1] at hid; simp at hid
          | some t =>
              rw [h1] at hid
              simp only [] at hid
              cases h2 : findA rules (TKey.id t) with
              | none => rw [h2] at hid; simp at hid
              | some vals =>
                  rw [h2] at hid
                  simp only [] at hid
                  by_cases hp : (planTT tts vals).isEmpty
                  · rw [if_pos hp] at hid
                    exact absurd hid (by simp)
                  · rw [if_neg hp] at hid
                    obtain ⟨kv, hkv, hv⟩ := findA_mem h2
                    subst hv
                    right
                    exact ⟨kv, hkv, (Option.some.inj hid).symm⟩

theorem planT_nodup (rules : List (TKey × Values))
    (hg : ∀ kv ∈ rules, goodVals [str "AD_Tab_ID", str "Name"] kv.2)
    (tts : List (S × Option S)) :
    ((planT rules tts).map Prod.fst).Nodup := by
  rcases planT_cases rules tts with hc | ⟨kv, hkv, hc⟩
  · rw [hc]; simp
  · rw [hc]
    exact planTT_nodup tts kv.2 (hg kv hkv).1 (fun fv hfv => ((hg kv hkv).2 fv hfv).1)

theorem planT_avoid (rules : List (TKey × Values))
    (hg : ∀ kv ∈ rules, goodVals [str "AD_Tab_ID", str "Name"] kv.2)
    (tts : List (S × Option S)) (k : S) (hk : k ∈ [str "AD_Tab_ID", str "Name"]) :
    ∀ tv ∈ planT rules tts, tv.1 ≠ k := by
  rcases planT_cases rules tts with hc | ⟨kv, hkv, hc⟩
  · rw [hc]; simp
  · rw [hc]
    exact planTT_avoid (fun fv hfv => ((hg kv hkv).2 fv hfv).2 k hk)

theorem planTName_congr2 (rules : List (TKey × Values))
    {tts tts2 : List (S × Option S)} (hfst : tts.map Prod.fst = tts2.map Prod.fst)
    (hfnm : findTT tts (str "Name") = findTT tts2 (str "Name")) :
    planTName rules tts = planTName rules tts2 := by
  unfold planTName
  rw [hfnm]
  cases h1 : findTT tts2 (str "Name") with
  | none => rfl
  | some o =>
      cases o with
      | none => rfl
      | some t =>
          simp only []
          cases h2 : findA rules (TKey.name t) with
          | none => rfl
          | some vals => simp only [planTT_congr hfst]

theorem planTId_congr2 (rules : List (TKey × Values))
    {tts tts2 : List (S × Option S)} (hfst : tts.map Prod.fst = tts2.map Prod.fst)
    (hfid : findTT tts (str "AD_Tab_ID") = findTT tts2 (str "AD_Tab_ID")) :
    planTId rules tts = planTId rules tts2 := by
  unfold planTId
  rw [hfid]
  cases h1 : findTT tts2 (str "AD_Tab_ID") with
  | none => rfl
  | some o =>
      cases o with
      | none => rfl
      | some t =>
          simp only []
          cases h2 : findA rules (TKey.id t) with
          | none => rfl
          | some vals => simp only [planTT_congr hfst]

theorem planT_congr2 (rules : List (TKey × Values))
    {tts tts2 : List (S × Option S)} (hfst : tts.map Prod.fst = tts2.map Prod.fst)
    (hfid : findTT tts (str "AD_Tab_ID") = findTT tts2 (str "AD_Tab_ID"))
    (hfnm : findTT tts (str "Name") = findTT tts2 (str "Name")) :
    planT rules tts = planT rules tts2 := by
  unfold planT
  rw [planTId_congr2 rules hfst hfid, planTName_congr2 rules hfst hfnm]

theorem planT_stab (rules : List (TKey × Values))
    (hg : ∀ kv ∈ rules, goodVals [str "AD_Tab_ID", str "Name"] kv.2)
    (tts : List (S × Option S)) :
    planT rules (applyPlanTT tts (planT rules tts)) = planT rules tts :=
  planT_congr2 rules (applyPlanTT_map_fst _ tts)
    (findTT_applyPlanTT _ (planT_avoid rules hg tts (str "AD_Tab_ID") (by simp)) tts)
    (findTT_applyPlanTT _ (planT_avoid rules hg tts (str "Name") (by simp)) tts)

mutual
theorem sameSkelE_symm : ∀ (e f : Elem), sameSkelE e f = true → sameSkelE f e = true
  | .mk _ _ _ cs _, .mk _ _ _ ds _, h => sameSkelL_symm cs ds h
theorem sameSkelL_symm : ∀ (cs ds : ElemList), sameSkelL cs ds = true → sameSkelL ds cs = true
  | .nil, .nil, _ => rfl
  | .nil, .cons _ _, h => by simp [sameSkelL] at h
  | .cons _ _, .nil, h => by simp [sameSkelL] at h
  | .cons c cs, .cons d ds, h => by
      simp only [sameSkelL, Bool.and_eq_true] at h ⊢
      exact ⟨sameSkelE_symm c d h.1, sameSkelL_symm cs ds h.2⟩
end

theorem iterApply_fix (tg : S) (h : Elem → Elem × Bool)
    (F : List (S × Option S) → List (S × S))
    (hchar : ∀ e, (h e).1 = applyPlan e (F (childTT e.children)))
    (hstab : ∀ tts, F (applyPlanTT tts (F tts)) = F tts)
    (hnd : ∀ tts, ((F tts).map Prod.fst).Nodup)
    (e : Elem) :
    iterApply tg h (iterApply tg h e) = iterApply tg h e := by
  unfold iterApply
  have hskel : sameSkelE e (iterApplyF tg h e e) = true :=
    iterApplyF_skel tg h F hchar e e (sameSkelE_refl e)
  rw [iterApplyF_fuel tg h (iterApplyF tg h e e) e (iterApplyF tg h e e)
    (sameSkelE_symm e (iterApplyF tg h e e) hskel)]
  exact iterApplyF_fix tg h F hchar hstab hnd e e (sameSkelE_refl e)

theorem iterApply_pres (tg1 tg2 : S) (h1 h2 : Elem → Elem × Bool)
    (F1 F2 : List (S × Option S) → List (S × S))
    (hchar1 : ∀ e, (h1 e).1 = applyPlan e (F1 (childTT e.children)))
    (hchar2 : ∀ e, (h2 e).1 = applyPlan e (F2 (childTT e.children)))
    (hne : tg1 ≠ tg2)
    (e : Elem) (hfix : iterApply tg1 h1 e = e) :
    iterApply tg1 h1 (iterApply tg2 h2 e) = iterApply tg2 h2 e := by
  unfold iterApply
  have hskel2 : sameSkelE e (iterApplyF tg2 h2 e e) = true :=
    iterApplyF_skel tg2 h2 F2 hchar2 e e (sameSkelE_refl e)
  rw [iterApplyF_fuel tg1 h1 (iterApplyF tg2 h2 e e) e (iterApplyF tg2 h2 e e)
    (sameSkelE_symm e (iterApplyF tg2 h2 e e) hskel2)]
  exact iterApplyF_pres tg1 tg2 h1 h2 F1 F2 hchar1 hchar2 hne e e (sameSkelE_refl e) hfix

theorem applyAll_eq (u : Updates) (d : Elem) :
    applyAll u d =
      iterApply (str "AD_Menu") (processById (str "AD_Menu_ID") u.adMenu)
      (iterApply (str "AD_Form") (processById (str "AD_Form_ID") u.adForm)
      (iterApply (str "AD_Process") (processById (str "AD_Process_ID") u.adProcess)
      (iterApply (str "AD_Field") (processById (str "AD_Field_ID") u.adField)
      (iterApply (str "AD_Tab") (processT u.adTab)
      (iterApply (str "AD_Window") (processW u.adWindow)
      (iterApply (str "AD_Element") (processE u.adElement) d)))))) := rfl

/-- Claim C9 (amended): the patch operation is idempotent whenever the rule
set is of the shape the SQL parser produces (fields upper-cased and
distinct) and no rule field resolves onto a key child tag its own pass
matches on (ColumnName, the per-table ID tags, or Name for the
AD_Window/AD_Tab passes): applying the seven apply loops twice gives the
same tree, hence byte-for-byte the same written file, as applying them
once.  Without that restriction idempotence fails (see the counterexample:
a NAME write can re-key an element for the second run). -/
theorem C9_amended_t (u : Updates) (d : Elem) (hg : goodUpdates u) :
    applyAll u (applyAll u d) = applyAll u d ∧
    writeDoc (applyAll u (applyAll u d)) = writeDoc (applyAll u d) := by
  obtain ⟨hg1, hg2, hg3, hg4, hg5, hg6, hg7⟩ := hg
  have c1 := processE_char u.adElement
  have c2 := processW_char u.adWindow
  have c3 := processT_char u.adTab
  have c4 := processById_char (str "AD_Field_ID") u.adField
  have c5 := processById_char (str "AD_Process_ID") u.adProcess
  have c6 := processById_char (str "AD_Form_ID") u.adForm
  have c7 := processById_char (str "AD_Menu_ID") u.adMenu
  have s1 : ∀ tts, planE u.adElement (applyPlanTT tts (planE u.adElement tts)) =
      planE u.adElement tts := fun tts => planById_stab (str "ColumnName") u.adElement hg1 tts
  have n1 : ∀ tts, ((planE u.adElement tts).map Prod.fst).Nodup :=
    fun tts => planById_nodup (str "ColumnName") u.adElement hg1 tts
  have s2 := planW_stab u.adWindow hg2
  have n2 := planW_nodup u.adWindow hg2
  have s3 := planT_stab u.adTab hg3
  have n3 := planT_nodup u.adTab hg3
  have s4 := planById_stab (str "AD_Field_ID") u.adField hg4
  have n4 := planById_nodup (str "AD_Field_ID") u.adField hg4
  have s5 := planById_stab (str "AD_Process_ID") u.adProcess hg5
  have n5 := planById_nodup (str "AD_Process_ID") u.adProcess hg5
  have s6 := planById_stab (str "AD_Form_ID") u.adForm hg6
  have n6 := planById_nodup (str "AD_Form_ID") u.adForm hg6
  have s7 := planById_stab (str "AD_Menu_ID") u.adMenu hg7
  have n7 := planById_nodup (str "AD_Menu_ID") u.adMenu hg7
  have fx1_1 :
      iterApply (str "AD_Element") (processE u.adElement)
      (iterApply (str "AD_Element") (processE u.adElement)
      (d)) =
      iterApply (str "AD_Element") (processE u.adElement)
      (d) :=
    iterApply_fix (str "AD_Element") (processE u.adElement) (planE u.adElement) c1 s1 n1
      (d)
  have fx1_2 :
      iterApply (str "AD_Element") (processE u.adElement)
      (iterApply (str "AD_Window") (processW u.adWindow)
      (iterApply (str "AD_Element") (processE u.adElement)
      (d))) =
      iterApply (str "AD_Window") (processW u.adWindow)
      (iterApply (str "AD_Element") (processE u.adElement)
      (d)) :=
    iterApply_pres (str "AD_Element") (str "AD_Window") (processE u.adElement) (processW u.adWindow) (planE u.adElement) (planW u.adWindow)
      c1 c2 (by decide)
      (iterApply (str "AD_Element") (processE u.adElement)
      (d)) fx1_1
  have fx1_3 :
      iterApply (str "AD_Element") (processE u.adElement)
      (iterApply (str "AD_Tab") (processT u.adTab)
      (iterApply (str "AD_Window") (processW u.adWindow)
      (iterApply (str "AD_Element") (processE u.adElement)
      (d)))) =
      iterApply (str "AD_Tab") (processT u.adTab)
      (iterApply (str "AD_Window") (processW u.adWindow)
      (iterApply (str "AD_Element") (processE u.adElement)
      (d))) :=
    iterApply_pres (str "AD_Element") (str "AD_Tab") (processE u.adElement) (processT u.adTab) (planE u.adElement) (planT u.adTab)
      c1 c3 (by decide)
      (iterApply (str "AD_Window") (processW u.adWindow)
      (iterApply (str "AD_Element") (processE u.adElement)
      (d))) fx1_2
  have fx1_4 :
      iterApply (str "AD_Element") (processE u.adElement)
      (iterApply (str "AD_Field") (processById (str "AD_Field_ID") u.adField)
      (iterApply (str "AD_Tab") (processT u.adTab)
      (iterApply (str "AD_Window") (processW u.adWindow)
      (iterApply (str "AD_Element") (processE u.adElement)
      (d))))) =
      iterApply (str "AD_Field") (processById (str "AD_Field_ID") u.adField)
      (iterApply (str "AD_Tab") (processT u.adTab)
      (iterApply (str "AD_Window") (processW u.adWindow)
      (iterApply (str "AD_Element") (processE u.adElement)
      (d)))) :=
    iterApply_pres (str "AD_Element") (str "AD_Field") (processE u.adElement) (processById (str "AD_Field_ID") u.adField) (planE u.adElement) (planById (str "AD_Field_ID") u.adField)
      c1 c4 (by decide)
      (iterApply (str "AD_Tab") (processT u.adTab)
      (iterApply (str "AD_Window") (processW u.adWindow)
      (iterApply (str "AD_Element") (processE u.adElement)
      (d)))) fx1_3
  have fx1_5 :
      iterApply (str "AD_Element") (processE u.adElement)
      (iterApply (str "AD_Process") (processById (str "AD_Process_ID") u.adProcess)
      (iterApply (str "AD_Field") (processById (str "AD_Field_ID") u.adField)
      (iterApply (str "AD_Tab") (processT u.adTab)
      (iterApply (str "AD_Window") (processW u.adWindow)
      (iterApply (str "AD_Element") (processE u.adElement)
      (d)))))) =
      iterApply (str "AD_Process") (processById (str "AD_Process_ID") u.adProcess)
      (iterApply (str "AD_Field") (processById (str "AD_Field_ID") u.adField)
      (iterApply (str "AD_Tab") (processT u.adTab)
      (iterApply (str "AD_Window") (processW u.adWindow)
      (iterApply (str "AD_Element") (processE u.adElement)
      (d))))) :=
    iterApply_pres (str "AD_Element") (str "AD_Process") (processE u.adElement) (processById (str "AD_Process_ID") u.adProcess) (planE u.adElement) (planById (str "AD_Process_ID") u.adProcess)
      c1 c5 (by decide)
      (iterApply (str "AD_Field") (processById (str "AD_Field_ID") u.adField)
      (iterApply (str "AD_Tab") (processT u.adTab)
      (iterApply (str "AD_Window") (processW u.adWindow)
      (iterApply (str "AD_Element") (processE u.adElement)
      (d))))) fx1_4
  have fx1_6 :
      iterApply (str "AD_Element") (processE u.adElement)
      (iterApply (str "AD_Form") (processById (str "AD_Form_ID") u.adForm)
      (iterApply (str "AD_Process") (processById (str "AD_Process_ID") u.adProcess)
      (iterApply (str "AD_Field") (processById (str "AD_Field_ID") u.adField)
      (iterApply (str "AD_Tab") (processT u.adTab)
      (iterApply (str "AD_Window") (processW u.adWindow)
      (iterApply (str "AD_Element") (processE u.adElement)
      (d))))))) =
      iterApply (str "AD_Form") (processById (str "AD_Form_ID") u.adForm)
      (iterApply (str "AD_Process") (processById (str "AD_Process_ID") u.adProcess)
      (iterApply (str "AD_Field") (processById (str "AD_Field_ID") u.adField)
      (iterApply (str "AD_Tab") (processT u.adTab)
      (iterApply (str "AD_Window") (processW u.adWindow)
      (iterApply (str "AD_Element") (processE u.adElement)
      (d)))))) :=
    iterApply_pres (str "AD_Element") (str "AD_Form") (processE u.adElement) (processById (str "AD_Form_ID") u.adForm) (planE u.adElement) (planById (str "AD_Form_ID") u.adForm)
      c1 c6 (by decide)
      (iterApply (str "AD_Process") (processById (str "AD_Process_ID") u.adProcess)
      (iterApply (str "AD_Field") (processById (str "AD_Field_ID") u.adField)
      (iterApply (str "AD_Tab") (processT u.adTab)
      (iterApply (str "AD_Window") (processW u.adWindow)
      (iterApply (str "AD_Element") (processE u.adElement)
      (d)))))) fx1_5
  have fx1_7 :
      iterApply (str "AD_Element") (processE u.adElement)
      (iterApply (str "AD_Menu") (processById (str "AD_Menu_ID") u.adMenu)
      (iterApply (str "AD_Form") (processById (str "AD_Form_ID") u.adForm)
      (iterApply (str "AD_Process") (processById (str "AD_Process_ID") u.adProcess)
      (iterApply (str "AD_Field") (processById (str "AD_Field_ID") u.adField)
      (iterApply (str "AD_Tab") (processT u.adTab)
      (iterApply (str "AD_Window") (processW u.adWindow)
      (iterApply (str "AD_Element") (processE u.adElement)
      (d)))))))) =
      iterApply (str "AD_Menu") (processById (str "AD_Menu_ID") u.adMenu)
      (iterApply (str "AD_Form") (processById (str "AD_Form_ID") u.adForm)
      (iterApply (str "AD_Process") (processById (str "AD_Process_ID") u.adProcess)
      (iterApply (str "AD_Field") (processById (str "AD_Field_ID") u.adField)
      (iterApply (str "AD_Tab") (processT u.adTab)
      (iterApply (str "AD_Window") (processW u.adWindow)
      (iterApply (str "AD_Element") (processE u.adElement)
      (d))))))) :=
    iterApply_pres (str "AD_Element") (str "AD_Menu") (processE u.adElement) (processById (str "AD_Menu_ID") u.adMenu) (planE u.adElement) (planById (str "AD_Menu_ID") u.adMenu)
      c1 c7 (by decide)
      (iterApply (str "AD_Form") (processById (str "AD_Form_ID") u.adForm)
      (iterApply (str "AD_Process") (processById (str "AD_Process_ID") u.adProcess)
      (iterApply (str "AD_Field") (processById (str "AD_Field_ID") u.adField)
      (iterApply (str "AD_Tab") (processT u.adTab)
      (iterApply (str "AD_Window") (processW u.adWindow)
      (iterApply (str "AD_Element") (processE u.adElement)
      (d))))))) fx1_6
  have fx2_2 :
      iterApply (str "AD_Window") (processW u.adWindow)
      (iterApply (str "AD_Window") (processW u.adWindow)
      (iterApply (str "AD_Element") (processE u.adElement)
      (d))) =
      iterApply (str "AD_Window") (processW u.adWindow)
      (iterApply (str "AD_Element") (processE u.adElement)
      (d)) :=
    iterApply_fix (str "AD_Window") (processW u.adWindow) (planW u.adWindow) c2 s2 n2
      (iterApply (str "AD_Element") (processE u.adElement)
      (d))
  have fx2_3 :
      iterApply (str "AD_Window") (processW u.adWindow)
      (iterApply (str "AD_Tab") (processT u.adTab)
      (iterApply (str "AD_Window") (processW u.adWindow)
      (iterApply (str "AD_Element") (processE u.adElement)
      (d)))) =
      iterApply (str "AD_Tab") (processT u.adTab)
      (iterApply (str "AD_Window") (processW u.adWindow)
      (iterApply (str "AD_Element") (processE u.adElement)
      (d))) :=
    iterApply_pres (str "AD_Window") (str "AD_Tab") (processW u.adWindow) (processT u.adTab) (planW u.adWindow) (planT u.adTab)
      c2 c3 (by decide)
      (iterApply (str "AD_Window") (processW u.adWindow)
      (iterApply (str "AD_Element") (processE u.adElement)
      (d))) fx2_2
  have fx2_4 :
      iterApply (str "AD_Window") (processW u.adWindow)
      (iterApply (str "AD_Field") (processById (str "AD_Field_ID") u.adField)
      (iterApply (str "AD_Tab") (processT u.adTab)
      (iterApply (str "AD_Window") (processW u.adWindow)
      (iterApply (str "AD_Element") (processE u.adElement)
      (d))))) =
      iterApply (str "AD_Field") (processById (str "AD_Field_ID") u.adField)
      (iterApply (str "AD_Tab") (processT u.adTab)
      (iterApply (str "AD_Window") (processW u.adWindow)
      (iterApply (str "AD_Element") (processE u.adElement)
      (d)))) :=
    iterApply_pres (str "AD_Window") (str "AD_Field") (processW u.adWindow) (processById (str "AD_Field_ID") u.adField) (planW u.adWindow) (planById (str "AD_Field_ID") u.adField)
      c2 c4 (by decide)
      (iterApply (str "AD_Tab") (processT u.adTab)
      (iterApply (str "AD_Window") (processW u.adWindow)
      (iterApply (str "AD_Element") (processE u.adElement)
      (d)))) fx2_3
  have fx2_5 :
      iterApply (str "AD_Window") (processW u.adWindow)
      (iterApply (str "AD_Process") (processById (str "AD_Process_ID") u.adProcess)
      (iterApply (str "AD_Field") (processById (str "AD_Field_ID") u.adField)
      (iterApply (str "AD_Tab") (processT u.adTab)
      (iterApply (str "AD_Window") (processW u.adWindow)
      (iterApply (str "AD_Element") (processE u.adElement)
      (d)))))) =
      iterApply (str "AD_Process") (processById (str "AD_Process_ID") u.adProcess)
      (iterApply (str "AD_Field") (processById (str "AD_Field_ID") u.adField)
      (iterApply (str "AD_Tab") (processT u.adTab)
      (iterApply (str "AD_Window") (processW u.adWindow)
      (iterApply (str "AD_Element") (processE u.adElement)
      (d))))) :=
    iterApply_pres (str "AD_Window") (str "AD_Process") (processW u.adWindow) (processById (str "AD_Process_ID") u.adProcess) (planW u.adWindow) (planById (str "AD_Process_ID") u.adProcess)
      c2 c5 (by decide)
      (iterApply (str "AD_Field") (processById (str "AD_Field_ID") u.adField)
      (iterApply (str "AD_Tab") (processT u.adTab)
      (iterApply (str "AD_Window") (processW u.adWindow)
      (iterApply (str "AD_Element") (processE u.adElement)
      (d))))) fx2_4
  have fx2_6 :
      iterApply (str "AD_Window") (processW u.adWindow)
      (iterApply (str "AD_Form") (processById (str "AD_Form_ID") u.adForm)
      (iterApply (str "AD_Process") (processById (str "AD_Process_ID") u.adProcess)
      (iterApply (str "AD_Field") (processById (str "AD_Field_ID") u.adField)
      (iterApply (str "AD_Tab") (processT u.adTab)
      (iterApply (str "AD_Window") (processW u.adWindow)
      (iterApply (str "AD_Element") (processE u.adElement)
      (d))))))) =
      iterApply (str "AD_Form") (processById (str "AD_Form_ID") u.adForm)
      (iterApply (str "AD_Process") (processById (str "AD_Process_ID") u.adProcess)
      (iterApply (str "AD_Field") (processById (str "AD_Field_ID") u.adField)
      (iterApply (str "AD_Tab") (processT u.adTab)
      (iterApply (str "AD_Window") (processW u.adWindow)
      (iterApply (str "AD_Element") (processE u.adElement)
      (d)))))) :=
    iterApply_pres (str "AD_Window") (str "AD_Form") (processW u.adWindow) (processById (str "AD_Form_ID") u.adForm) (planW u.adWindow) (planById (str "AD_Form_ID") u.adForm)
      c2 c6 (by decide)
      (iterApply (str "AD_Process") (processById (str "AD_Process_ID") u.adProcess)
      (iterApply (str "AD_Field") (processById (str "AD_Field_ID") u.adField)
      (iterApply (str "AD_Tab") (processT u.adTab)
      (iterApply (str "AD_Window") (processW u.adWindow)
      (iterApply (str "AD_Element") (processE u.adElement)
      (d)))))) fx2_5
  have fx2_7 :
      iterApply (str "AD_Window") (processW u.adWindow)
      (iterApply (str "AD_Menu") (processById (str "AD_Menu_ID") u.adMenu)
      (iterApply (str "AD_Form") (processById (str "AD_Form_ID") u.adForm)
      (iterApply (str "AD_Process") (processById (str "AD_Process_ID") u.adProcess)
      (iterApply (str "AD_Field") (processById (str "AD_Field_ID") u.adField)
      (iterApply (str "AD_Tab") (processT u.adTab)
      (iterApply (str "AD_Window") (processW u.adWindow)
      (iterApply (str "AD_Element") (processE u.adElement)
      (d)))))))) =
      iterApply (str "AD_Menu") (processById (str "AD_Menu_ID") u.adMenu)
      (iterApply (str "AD_Form") (processById (str "AD_Form_ID") u.adForm)
      (iterApply (str "AD_Process") (processById (str "AD_Process_ID") u.adProcess)
      (iterApply (str "AD_Field") (processById (str "AD_Field_ID") u.adField)
      (iterApply (str "AD_Tab") (processT u.adTab)
      (iterApply (str "AD_Window") (processW u.adWindow)
      (iterApply (str "AD_Element") (processE u.adElement)
      (d))))))) :=
    iterApply_pres (str "AD_Window") (str "AD_Menu") (processW u.adWindow) (processById (str "AD_Menu_ID") u.adMenu) (planW u.adWindow) (planById (str "AD_Menu_ID") u.adMenu)
      c2 c7 (by decide)
      (iterApply (str "AD_Form") (processById (str "AD_Form_ID") u.adForm)
      (iterApply (str "AD_Process") (processById (str "AD_Process_ID") u.adProcess)
      (iterApply (str "AD_Field") (processById (str "AD_Field_ID") u.adField)
      (iterApply (str "AD_Tab") (processT u.adTab)
      (iterApply (str "AD_Window") (processW u.adWindow)
      (iterApply (str "AD_Element") (processE u.adElement)
      (d))))))) fx2_6
  have fx3_3 :
      iterApply (str "AD_Tab") (processT u.adTab)
      (iterApply (str "AD_Tab") (processT u.adTab)
      (iterApply (str "AD_Window") (processW u.adWindow)
      (iterApply (str "AD_Element") (processE u.adElement)
      (d)))) =
      iterApply (str "AD_Tab") (processT u.adTab)
      (iterApply (str "AD_Window") (processW u.adWindow)
      (iterApply (str "AD_Element") (processE u.adElement)
      (d))) :=
    iterApply_fix (str "AD_Tab") (processT u.adTab) (planT u.adTab) c3 s3 n3
      (iterApply (str "AD_Window") (processW u.adWindow)
      (iterApply (str "AD_Element") (processE u.adElement)
      (d)))
  have fx3_4 :
      iterApply (str "AD_Tab") (processT u.adTab)
      (iterApply (str "AD_Field") (processById (str "AD_Field_ID") u.adField)
      (iterApply (str "AD_Tab") (processT u.adTab)
      (iterApply (str "AD_Window") (processW u.adWindow)
      (iterApply (str "AD_Element") (processE u.adElement)
      (d))))) =
      iterApply (str "AD_Field") (processById (str "AD_Field_ID") u.adField)
      (iterApply (str "AD_Tab") (processT u.adTab)
      (iterApply (str "AD_Window") (processW u.adWindow)
      (iterApply (str "AD_Element") (processE u.adElement)
      (d)))) :=
    iterApply_pres (str "AD_Tab") (str "AD_Field") (processT u.adTab) (processById (str "AD_Field_ID") u.adField) (planT u.adTab) (planById (str "AD_Field_ID") u.adField)
      c3 c4 (by decide)
      (iterApply (str "AD_Tab") (processT u.adTab)
      (iterApply (str "AD_Window") (processW u.adWindow)
      (iterApply (str "AD_Element") (processE u.adElement)
      (d)))) fx3_3
  have fx3_5 :
      iterApply (str "AD_Tab") (processT u.adTab)
      (iterApply (str "AD_Process") (processById (str "AD_Process_ID") u.adProcess)
      (iterApply (str "AD_Field") (processById (str "AD_Field_ID") u.adField)
      (iterApply (str "AD_Tab") (processT u.adTab)
      (iterApply (str "AD_Window") (processW u.adWindow)
      (iterApply (str "AD_Element") (processE u.adElement)
      (d)))))) =
      iterApply (str "AD_Process") (processById (str "AD_Process_ID") u.adProcess)
      (iterApply (str "AD_Field") (processById (str "AD_Field_ID") u.adField)
      (iterApply (str "AD_Tab") (processT u.adTab)
      (iterApply (str "AD_Window") (processW u.adWindow)
      (iterApply (str "AD_Element") (processE u.adElement)
      (d))))) :=
    iterApply_pres (str "AD_Tab") (str "AD_Process") (processT u.adTab) (processById (str "AD_Process_ID") u.adProcess) (planT u.adTab) (planById (str "AD_Process_ID") u.adProcess)
      c3 c5 (by decide)
      (iterApply (str "AD_Field") (processById (str "AD_Field_ID") u.adField)
      (iterApply (str "AD_Tab") (processT u.adTab)
      (iterApply (str "AD_Window") (processW u.adWindow)
      (iterApply (str "AD_Element") (processE u.adElement)
      (d))))) fx3_4
  have fx3_6 :
      iterApply (str "AD_Tab") (processT u.adTab)
      (iterApply (str "AD_Form") (processById (str "AD_Form_ID") u.adForm)
      (iterApply (str "AD_Process") (processById (str "AD_Process_ID") u.adProcess)
      (iterApply (str "AD_Field") (processById (str "AD_Field_ID") u.adField)
      (iterApply (str "AD_Tab") (processT u.adTab)
      (iterApply (str "AD_Window") (processW u.adWindow)
      (iterApply (str "AD_Element") (processE u.adElement)
      (d))))))) =
      iterApply (str "AD_Form") (processById (str "AD_Form_ID") u.adForm)
      (iterApply (str "AD_Process") (processById (str "AD_Process_ID") u.adProcess)
      (iterApply (str "AD_Field") (processById (str "AD_Field_ID") u.adField)
      (iterApply (str "AD_Tab") (processT u.adTab)
      (iterApply (str "AD_Window") (processW u.adWindow)
      (iterApply (str "AD_Element") (processE u.adElement)
      (d)))))) :=
    iterApply_pres (str "AD_Tab") (str "AD_Form") (processT u.adTab) (processById (str "AD_Form_ID") u.adForm) (planT u.adTab) (planById (str "AD_Form_ID") u.adForm)
      c3 c6 (by decide)
      (iterApply (str "AD_Process") (processById (str "AD_Process_ID") u.adProcess)
      (iterApply (str "AD_Field") (processById (str "AD_Field_ID") u.adField)
      (iterApply (str "AD_Tab") (processT u.adTab)
      (iterApply (str "AD_Window") (processW u.adWindow)
      (iterApply (str "AD_Element") (processE u.adElement)
      (d)))))) fx3_5
  have fx3_7 :
      iterApply (str "AD_Tab") (processT u.adTab)
      (iterApply (str "AD_Menu") (processById (str "AD_Menu_ID") u.adMenu)
      (iterApply (str "AD_Form") (processById (str "AD_Form_ID") u.adForm)
      (iterApply (str "AD_Process") (processById (str "AD_Process_ID") u.adProcess)
      (iterApply (str "AD_Field") (processById (str "AD_Field_ID") u.adField)
      (iterApply (str "AD_Tab") (processT u.adTab)
      (iterApply (str "AD_Window") (processW u.adWindow)
      (iterApply (str "AD_Element") (processE u.adElement)
      (d)))))))) =
      iterApply (str "AD_Menu") (processById (str "AD_Menu_ID") u.adMenu)
      (iterApply (str "AD_Form") (processById (str "AD_Form_ID") u.adForm)
      (iterApply (str "AD_Process") (processById (str "AD_Process_ID") u.adProcess)
      (iterApply (str "AD_Field") (processById (str "AD_Field_ID") u.adField)
      (iterApply (str "AD_Tab") (processT u.adTab)
      (iterApply (str "AD_Window") (processW u.adWindow)
      (iterApply (str "AD_Element") (processE u.adElement)
      (d))))))) :=
    iterApply_pres (str "AD_Tab") (str "AD_Menu") (processT u.adTab) (processById (str "AD_Menu_ID") u.adMenu) (planT u.adTab) (planById (str "AD_Menu_ID") u.adMenu)
      c3 c7 (by decide)
      (iterApply (str "AD_Form") (processById (str "AD_Form_ID") u.adForm)
      (iterApply (str "AD_Process") (processById (str "AD_Process_ID") u.adProcess)
      (iterApply (str "AD_Field") (processById (str "AD_Field_ID") u.adField)
      (iterApply (str "AD_Tab") (processT u.adTab)
      (iterApply (str "AD_Window") (processW u.adWindow)
      (iterApply (str "AD_Element") (processE u.adElement)
      (d))))))) fx3_6
  have fx4_4 :
      iterApply (str "AD_Field") (processById (str "AD_Field_ID") u.adField)
      (iterApply (str "AD_Field") (processById (str "AD_Field_ID") u.adField)
      (iterApply (str "AD_Tab") (processT u.adTab)
      (iterApply (str "AD_Window") (processW u.adWindow)
      (iterApply (str "AD_Element") (processE u.adElement)
      (d))))) =
      iterApply (str "AD_Field") (processById (str "AD_Field_ID") u.adField)
      (iterApply (str "AD_Tab") (processT u.adTab)
      (iterApply (str "AD_Window") (processW u.adWindow)
      (iterApply (str "AD_Element") (processE u.adElement)
      (d)))) :=
    iterApply_fix (str "AD_Field") (processById (str "AD_Field_ID") u.adField) (planById (str "AD_Field_ID") u.adField) c4 s4 n4
      (iterApply (str "AD_Tab") (processT u.adTab)
      (iterApply (str "AD_Window") (processW u.adWindow)
      (iterApply (str "AD_Element") (processE u.adElement)
      (d))))
  have fx4_5 :
      iterApply (str "AD_Field") (processById (str "AD_Field_ID") u.adField)
      (iterApply (str "AD_Process") (processById (str "AD_Process_ID") u.adProcess)
      (iterApply (str "AD_Field") (processById (str "AD_Field_ID") u.adField)
      (iterApply (str "AD_Tab") (processT u.adTab)
      (iterApply (str "AD_Window") (processW u.adWindow)
      (iterApply (str "AD_Element") (processE u.adElement)
      (d)))))) =
      iterApply (str "AD_Process") (processById (str "AD_Process_ID") u.adProcess)
      (iterApply (str "AD_Field") (processById (str "AD_Field_ID") u.adField)
      (iterApply (str "AD_Tab") (processT u.adTab)
      (iterApply (str "AD_Window") (processW u.adWindow)
      (iterApply (str "AD_Element") (processE u.adElement)
      (d))))) :=
    iterApply_pres (str "AD_Field") (str "AD_Process") (processById (str "AD_Field_ID") u.adField) (processById (str "AD_Process_ID") u.adProcess) (planById (str "AD_Field_ID") u.adField) (planById (str "AD_Process_ID") u.adProcess)
      c4 c5 (by decide)
      (iterApply (str "AD_Field") (processById (str "AD_Field_ID") u.adField)
      (iterApply (str "AD_Tab") (processT u.adTab)
      (iterApply (str "AD_Window") (processW u.adWindow)
      (iterApply (str "AD_Element") (processE u.adElement)
      (d))))) fx4_4
  have fx4_6 :
      iterApply (str "AD_Field") (processById (str "AD_Field_ID") u.adField)
      (iterApply (str "AD_Form") (processById (str "AD_Form_ID") u.adForm)
      (iterApply (str "AD_Process") (processById (str "AD_Process_ID") u.adProcess)
      (iterApply (str "AD_Field") (processById (str "AD_Field_ID") u.adField)
      (iterApply (str "AD_Tab") (processT u.adTab)
      (iterApply (str "AD_Window") (processW u.adWindow)
      (iterApply (str "AD_Element") (processE u.adElement)
      (d))))))) =
      iterApply (str "AD_Form") (processById (str "AD_Form_ID") u.adForm)
      (iterApply (str "AD_Process") (processById (str "AD_Process_ID") u.adProcess)
      (iterApply (str "AD_Field") (processById (str "AD_Field_ID") u.adField)
      (iterApply (str "AD_Tab") (processT u.adTab)
      (iterApply (str "AD_Window") (processW u.adWindow)
      (iterApply (str "AD_Element") (processE u.adElement)
      (d)))))) :=
    iterApply_pres (str "AD_Field") (str "AD_Form") (processById (str "AD_Field_ID") u.adField) (processById (str "AD_Form_ID") u.adForm) (planById (str "AD_Field_ID") u.adField) (planById (str "AD_Form_ID") u.adForm)
      c4 c6 (by decide)
      (iterApply (str "AD_Process") (processById (str "AD_Process_ID") u.adProcess)
      (iterApply (str "AD_Field") (processById (str "AD_Field_ID") u.adField)
      (iterApply (str "AD_Tab") (processT u.adTab)
      (iterApply (str "AD_Window") (processW u.adWindow)
      (iterApply (str "AD_Element") (processE u.adElement)
      (d)))))) fx4_5
  have fx4_7 :
      iterApply (str "AD_Field") (processById (str "AD_Field_ID") u.adField)
      (iterApply (str "AD_Menu") (processById (str "AD_Menu_ID") u.adMenu)
      (iterApply (str "AD_Form") (processById (str "AD_Form_ID") u.adForm)
      (iterApply (str "AD_Process") (processById (str "AD_Process_ID") u.adProcess)
      (iterApply (str "AD_Field") (processById (str "AD_Field_ID") u.adField)
      (iterApply (str "AD_Tab") (processT u.adTab)
      (iterApply (str "AD_Window") (processW u.adWindow)
      (iterApply (str "AD_Element") (processE u.adElement)
      (d)))))))) =
      iterApply (str "AD_Menu") (processById (str "AD_Menu_ID") u.adMenu)
      (iterApply (str "AD_Form") (processById (str "AD_Form_ID") u.adForm)
      (iterApply (str "AD_Process") (processById (str "AD_Process_ID") u.adProcess)
      (iterApply (str "AD_Field") (processById (str "AD_Field_ID") u.adField)
      (iterApply (str "AD_Tab") (processT u.adTab)
      (iterApply (str "AD_Window") (processW u.adWindow)
      (iterApply (str "AD_Element") (processE u.adElement)
      (d))))))) :=
    iterApply_pres (str "AD_Field") (str "AD_Menu") (processById (str "AD_Field_ID") u.adField) (processById (str "AD_Menu_ID") u.adMenu) (planById (str "AD_Field_ID") u.adField) (planById (str "AD_Menu_ID") u.adMenu)
      c4 c7 (by decide)
      (iterApply (str "AD_Form") (processById (str "AD_Form_ID") u.adForm)
      (iterApply (str "AD_Process") (processById (str "AD_Process_ID") u.adProcess)
      (iterApply (str "AD_Field") (processById (str "AD_Field_ID") u.adField)
      (iterApply (str "AD_Tab") (processT u.adTab)
      (iterApply (str "AD_Window") (processW u.adWindow)
      (iterApply (str "AD_Element") (processE u.adElement)
      (d))))))) fx4_6
  have fx5_5 :
      iterApply (str "AD_Process") (processById (str "AD_Process_ID") u.adProcess)
      (iterApply (str "AD_Process") (processById (str "AD_Process_ID") u.adProcess)
      (iterApply (str "AD_Field") (processById (str "AD_Field_ID") u.adField)
      (iterApply (str "AD_Tab") (processT u.adTab)
      (iterApply (str "AD_Window") (processW u.adWindow)
      (iterApply (str "AD_Element") (processE u.adElement)
      (d)))))) =
      iterApply (str "AD_Process") (processById (str "AD_Process_ID") u.adProcess)
      (iterApply (str "AD_Field") (processById (str "AD_Field_ID") u.adField)
      (iterApply (str "AD_Tab") (processT u.adTab)
      (iterApply (str "AD_Window") (processW u.adWindow)
      (iterApply (str "AD_Element") (processE u.adElement)
      (d))))) :=
    iterApply_fix (str "AD_Process") (processById (str "AD_Process_ID") u.adProcess) (planById (str "AD_Process_ID") u.adProcess) c5 s5 n5
      (iterApply (str "AD_Field") (processById (str "AD_Field_ID") u.adField)
      (iterApply (str "AD_Tab") (processT u.adTab)
      (iterApply (str "AD_Window") (processW u.adWindow)
      (iterApply (str "AD_Element") (processE u.adElement)
      (d)))))
  have fx5_6 :
      iterApply (str "AD_Process") (processById (str "AD_Process_ID") u.adProcess)
      (iterApply (str "AD_Form") (processById (str "AD_Form_ID") u.adForm)
      (iterApply (str "AD_Process") (processById (str "AD_Process_ID") u.adProcess)
      (iterApply (str "AD_Field") (processById (str "AD_Field_ID") u.adField)
      (iterApply (str "AD_Tab") (processT u.adTab)
      (iterApply (str "AD_Window") (processW u.adWindow)
      (iterApply (str "AD_Element") (processE u.adElement)
      (d))))))) =
      iterApply (str "AD_Form") (processById (str "AD_Form_ID") u.adForm)
      (iterApply (str "AD_Process") (processById (str "AD_Process_ID") u.adProcess)
      (iterApply (str "AD_Field") (processById (str "AD_Field_ID") u.adField)
      (iterApply (str "AD_Tab") (processT u.adTab)
      (iterApply (str "AD_Window") (processW u.adWindow)
      (iterApply (str "AD_Element") (processE u.adElement)
      (d)))))) :=
    iterApply_pres (str "AD_Process") (str "AD_Form") (processById (str "AD_Process_ID") u.adProcess) (processById (str "AD_Form_ID") u.adForm) (planById (str "AD_Process_ID") u.adProcess) (planById (str "AD_Form_ID") u.adForm)
      c5 c6 (by decide)
      (iterApply (str "AD_Process") (processById (str "AD_Process_ID") u.adProcess)
      (iterApply (str "AD_Field") (processById (str "AD_Field_ID") u.adField)
      (iterApply (str "AD_Tab") (processT u.adTab)
      (iterApply (str "AD_Window") (processW u.adWindow)
      (iterApply (str "AD_Element") (processE u.adElement)
      (d)))))) fx5_5
  have fx5_7 :
      iterApply (str "AD_Process") (processById (str "AD_Process_ID") u.adProcess)
      (iterApply (str "AD_Menu") (processById (str "AD_Menu_ID") u.adMenu)
      (iterApply (str "AD_Form") (processById (str "AD_Form_ID") u.adForm)
      (iterApply (str "AD_Process") (processById (str "AD_Process_ID") u.adProcess)
      (iterApply (str "AD_Field") (processById (str "AD_Field_ID") u.adField)
      (iterApply (str "AD_Tab") (processT u.adTab)
      (iterApply (str "AD_Window") (processW u.adWindow)
      (iterApply (str "AD_Element") (processE u.adElement)
      (d)))))))) =
      iterApply (str "AD_Menu") (processById (str "AD_Menu_ID") u.adMenu)
      (iterApply (str "AD_Form") (processById (str "AD_Form_ID") u.adForm)
      (iterApply (str "AD_Process") (processById (str "AD_Process_ID") u.adProcess)
      (iterApply (str "AD_Field") (processById (str "AD_Field_ID") u.adField)
      (iterApply (str "AD_Tab") (processT u.adTab)
      (iterApply (str "AD_Window") (processW u.adWindow)
      (iterApply (str "AD_Element") (processE u.adElement)
      (d))))))) :=
    iterApply_pres (str "AD_Process") (str "AD_Menu") (processById (str "AD_Process_ID") u.adProcess) (processById (str "AD_Menu_ID") u.adMenu) (planById (str "AD_Process_ID") u.adProcess) (planById (str "AD_Menu_ID") u.adMenu)
      c5 c7 (by decide)
      (iterApply (str "AD_Form") (processById (str "AD_Form_ID") u.adForm)
      (iterApply (str "AD_Process") (processById (str "AD_Process_ID") u.adProcess)
      (iterApply (str "AD_Field") (processById (str "AD_Field_ID") u.adField)
      (iterApply (str "AD_Tab") (processT u.adTab)
      (iterApply (str "AD_Window") (processW u.adWindow)
      (iterApply (str "AD_Element") (processE u.adElement)
      (d))))))) fx5_6
  have fx6_6 :
      iterApply (str "AD_Form") (processById (str "AD_Form_ID") u.adForm)
      (iterApply (str "AD_Form") (processById (str "AD_Form_ID") u.adForm)
      (iterApply (str "AD_Process") (processById (str "AD_Process_ID") u.adProcess)
      (iterApply (str "AD_Field") (processById (str "AD_Field_ID") u.adField)
      (iterApply (str "AD_Tab") (processT u.adTab)
      (iterApply (str "AD_Window") (processW u.adWindow)
      (iterApply (str "AD_Element") (processE u.adElement)
      (d))))))) =
      iterApply (str "AD_Form") (processById (str "AD_Form_ID") u.adForm)
      (iterApply (str "AD_Process") (processById (str "AD_Process_ID") u.adProcess)
      (iterApply (str "AD_Field") (processById (str "AD_Field_ID") u.adField)
      (iterApply (str "AD_Tab") (processT u.adTab)
      (iterApply (str "AD_Window") (processW u.adWindow)
      (iterApply (str "AD_Element") (processE u.adElement)
      (d)))))) :=
    iterApply_fix (str "AD_Form") (processById (str "AD_Form_ID") u.adForm) (planById (str "AD_Form_ID") u.adForm) c6 s6 n6
      (iterApply (str "AD_Process") (processById (str "AD_Process_ID") u.adProcess)
      (iterApply (str "AD_Field") (processById (str "AD_Field_ID") u.adField)
      (iterApply (str "AD_Tab") (processT u.adTab)
      (iterApply (str "AD_Window") (processW u.adWindow)
      (iterApply (str "AD_Element") (processE u.adElement)
      (d))))))
  have fx6_7 :
      iterApply (str "AD_Form") (processById (str "AD_Form_ID") u.adForm)
      (iterApply (str "AD_Menu") (processById (str "AD_Menu_ID") u.adMenu)
      (iterApply (str "AD_Form") (processById (str "AD_Form_ID") u.adForm)
      (iterApply (str "AD_Process") (processById (str "AD_Process_ID") u.adProcess)
      (iterApply (str "AD_Field") (processById (str "AD_Field_ID") u.adField)
      (iterApply (str "AD_Tab") (processT u.adTab)
      (iterApply (str "AD_Window") (processW u.adWindow)
      (iterApply (str "AD_Element") (processE u.adElement)
      (d)))))))) =
      iterApply (str "AD_Menu") (processById (str "AD_Menu_ID") u.adMenu)
      (iterApply (str "AD_Form") (processById (str "AD_Form_ID") u.adForm)
      (iterApply (str "AD_Process") (processById (str "AD_Process_ID") u.adProcess)
      (iterApply (str "AD_Field") (processById (str "AD_Field_ID") u.adField)
      (iterApply (str "AD_Tab") (processT u.adTab)
      (iterApply (str "AD_Window") (processW u.adWindow)
      (iterApply (str "AD_Element") (processE u.adElement)
      (d))))))) :=
    iterApply_pres (str "AD_Form") (str "AD_Menu") (processById (str "AD_Form_ID") u.adForm) (processById (str "AD_Menu_ID") u.adMenu) (planById (str "AD_Form_ID") u.adForm) (planById (str "AD_Menu_ID") u.adMenu)
      c6 c7 (by decide)
      (iterApply (str "AD_Form") (processById (str "AD_Form_ID") u.adForm)
      (iterApply (str "AD_Process") (processById (str "AD_Process_ID") u.adProcess)
      (iterApply (str "AD_Field") (processById (str "AD_Field_ID") u.adField)
      (iterApply (str "AD_Tab") (processT u.adTab)
      (iterApply (str "AD_Window") (processW u.adWindow)
      (iterApply (str "AD_Element") (processE u.adElement)
      (d))))))) fx6_6
  have fx7_7 :
      iterApply (str "AD_Menu") (processById (str "AD_Menu_ID") u.adMenu)
      (iterApply (str "AD_Menu") (processById (str "AD_Menu_ID") u.adMenu)
      (iterApply (str "AD_Form") (processById (str "AD_Form_ID") u.adForm)
      (iterApply (str "AD_Process") (processById (str "AD_Process_ID") u.adProcess)
      (iterApply (str "AD_Field") (processById (str "AD_Field_ID") u.adField)
      (iterApply (str "AD_Tab") (processT u.adTab)
      (iterApply (str "AD_Window") (processW u.adWindow)
      (iterApply (str "AD_Element") (processE u.adElement)
      (d)))))))) =
      iterApply (str "AD_Menu") (processById (str "AD_Menu_ID") u.adMenu)
      (iterApply (str "AD_Form") (processById (str "AD_Form_ID") u.adForm)
      (iterApply (str "AD_Process") (processById (str "AD_Process_ID") u.adProcess)
      (iterApply (str "AD_Field") (processById (str "AD_Field_ID") u.adField)
      (iterApply (str "AD_Tab") (processT u.adTab)
      (iterApply (str "AD_Window") (processW u.adWindow)
      (iterApply (str "AD_Element") (processE u.adElement)
      (d))))))) :=
    iterApply_fix (str "AD_Menu") (processById (str "AD_Menu_ID") u.adMenu) (planById (str "AD_Menu_ID") u.adMenu) c7 s7 n7
      (iterApply (str "AD_Form") (processById (str "AD_Form_ID") u.adForm)
      (iterApply (str "AD_Process") (processById (str "AD_Process_ID") u.adProcess)
      (iterApply (str "AD_Field") (processById (str "AD_Field_ID") u.adField)
      (iterApply (str "AD_Tab") (processT u.adTab)
      (iterApply (str "AD_Window") (processW u.adWindow)
      (iterApply (str "AD_Element") (processE u.adElement)
      (d)))))))
  have hmain0 :
      iterApply (str "AD_Menu") (processById (str "AD_Menu_ID") u.adMenu)
      (iterApply (str "AD_Form") (processById (str "AD_Form_ID") u.adForm)
      (iterApply (str "AD_Process") (processById (str "AD_Process_ID") u.adProcess)
      (iterApply (str "AD_Field") (processById (str "AD_Field_ID") u.adField)
      (iterApply (str "AD_Tab") (processT u.adTab)
      (iterApply (str "AD_Window") (processW u.adWindow)
      (iterApply (str "AD_Element") (processE u.adElement)
      (iterApply (str "AD_Menu") (processById (str "AD_Menu_ID") u.adMenu)
      (iterApply (str "AD_Form") (processById (str "AD_Form_ID") u.adForm)
      (iterApply (str "AD_Process") (processById (str "AD_Process_ID") u.adProcess)
      (iterApply (str "AD_Field") (processById (str "AD_Field_ID") u.adField)
      (iterApply (str "AD_Tab") (processT u.adTab)
      (iterApply (str "AD_Window") (processW u.adWindow)
      (iterApply (str "AD_Element") (processE u.adElement)
      (d)))))))))))))) =
      iterApply (str "AD_Menu") (processById (str "AD_Menu_ID") u.adMenu)
      (iterApply (str "AD_Form") (processById (str "AD_Form_ID") u.adForm)
      (iterApply (str "AD_Process") (processById (str "AD_Process_ID") u.adProcess)
      (iterApply (str "AD_Field") (processById (str "AD_Field_ID") u.adField)
      (iterApply (str "AD_Tab") (processT u.adTab)
      (iterApply (str "AD_Window") (processW u.adWindow)
      (iterApply (str "AD_Element") (processE u.adElement)
      (d))))))) := by
    rw [fx1_7, fx2_7, fx3_7, fx4_7, fx5_7, fx6_7, fx7_7]
  have hmain : applyAll u (applyAll u d) = applyAll u d := hmain0
  exact ⟨hmain, congrArg writeDoc hmain⟩

/-- The window of the C9 counterexample: its Name is initially `Old`. -/
def c9win : Elem :=
  .mk (str "AD_Window") [] none
    (.cons (leaf (str "Name") (some (str "Old")))
     (.cons (leaf (str "Help") (some (str "h0"))) .nil)) none

/-- The C9 rule set: a Name rule that rewrites the Name key itself, plus a
second Name rule keyed on the value the first rule writes. -/
def c9rules : Updates :=
  { emptyUpdates with adWindow :=
      [(WKey.name (str "Old"), [(str "NAME", str "X")]),
       (WKey.name (str "X"), [(str "HELP", str "h1")])] }

set_option maxRecDepth 4096 in
/-- Claim C9 counterexample: a rule that rewrites the Name key re-keys the
element, the second run matches a different rule and writes Help, so
running the patcher on its own output does not reproduce the same bytes:
the patch operation is not idempotent for every rule set. -/
theorem C9_cex_t :
    writeDoc (applyAll c9rules (applyAll c9rules c9win)) ≠
      writeDoc (applyAll c9rules c9win) := by decide

/-- The rule set of the C9 witness: one AD_Element rule writing Help,
upper-cased, distinct and not touching any key tag. -/
def c9goodU : Updates :=
  { emptyUpdates with adElement := [(str "Foo", [(str "HELP", str "Bar")])] }

/-- The element tree of the C9 witness. -/
def c9elem : Elem :=
  .mk (str "AD_Element") [] none
    (.cons (leaf (str "ColumnName") (some (str "Foo")))
     (.cons (leaf (str "Help") none) .nil)) none

instance (f t : S) : Decidable (avoidsTag f t) := by
  unfold avoidsTag; infer_instance

instance (ks : List S) (vals : Values) : Decidable (goodVals ks vals) := by
  unfold goodVals; infer_instance

instance (u : Updates) : Decidable (goodUpdates u) := by
  unfold goodUpdates; infer_instance

/-- Witness for C9_amended_t: the goodness hypothesis holds for the
concrete rule set and the amended idempotence theorem applies to it. -/
theorem C9_amended_w :
    applyAll c9goodU (applyAll c9goodU c9elem) = applyAll c9goodU c9elem :=
  (C9_amended_t c9goodU c9elem (by decide)).1
